import Mathlib

/-!
Verification development for the wd-blender-tools character validator.

This file gives a shallow embedding of the validation/cleanup rule engine of
the add-on (files addon_helper.py, addon_static.py, and the wd_validator
package: type_validator.py, character_metadata_definition.py, validator.py,
character_validation_cleanup.py, character_validation_requirement.py,
character_validation_warning.py) and settles a list of claims about it.

Conventions of the embedding:
- Python runtime values are modelled by the inductive type PyVal.  Python
  floats are carried as an opaque payload (no arithmetic is ever performed on
  float values by the embedded code; only identity, list length and
  isinstance checks occur), so the payload is an Int used purely as a token.
- Fallible Python code is modelled with Except PyErr.
- Mutation of Python objects (setattr) is modelled by explicit state passing
  of an association list of attributes.
- Human readable message strings from the source are abbreviated (the exact
  text of messages is never relevant to a claim); the check booleans and the
  report keys are modelled exactly.
-/

set_option autoImplicit false

namespace WdTools

/-- Python exceptions raised by the embedded code. -/
inductive PyErr where
  | typeError (msg : String)
  | valueError (msg : String)
  | attributeError (msg : String)
  | keyError (msg : String)
  | indexError (msg : String)
deriving DecidableEq, Repr

/-- Python runtime values, as used by the validator code: None, bool, int,
float, str, list, dict with string keys, and dataclass instances
(a class name together with an ordered attribute list). -/
inductive PyVal where
  | none
  | bool (b : Bool)
  | int (n : Int)
  | float (payload : Int)
  | str (s : String)
  | list (items : List PyVal)
  | dict (entries : List (String × PyVal))
  | obj (cls : String) (attrs : List (String × PyVal))
deriving Repr

mutual

/-- Structural boolean equality on PyVal (used to obtain decidable equality,
which the deriving handler does not support for this nested inductive). -/
def PyVal.beq : PyVal → PyVal → Bool
  | .none, .none => true
  | .bool a, .bool b => a == b
  | .int a, .int b => a == b
  | .float a, .float b => a == b
  | .str a, .str b => a == b
  | .list xs, .list ys => beqList xs ys
  | .dict xs, .dict ys => beqEntries xs ys
  | .obj c a, .obj d b => c == d && beqEntries a b
  | _, _ => false

/-- Pointwise PyVal.beq on lists. -/
def PyVal.beqList : List PyVal → List PyVal → Bool
  | [], [] => true
  | x :: xs, y :: ys => PyVal.beq x y && PyVal.beqList xs ys
  | _, _ => false

/-- Pointwise PyVal.beq on association lists. -/
def PyVal.beqEntries : List (String × PyVal) → List (String × PyVal) → Bool
  | [], [] => true
  | (k, x) :: xs, (l, y) :: ys => k == l && PyVal.beq x y && PyVal.beqEntries xs ys
  | _, _ => false

end

mutual

theorem PyVal.beq_refl : ∀ a : PyVal, PyVal.beq a a = true
  | .none => rfl
  | .bool b => by simp [PyVal.beq]
  | .int n => by simp [PyVal.beq]
  | .float p => by simp [PyVal.beq]
  | .str s => by simp [PyVal.beq]
  | .list xs => by simpa [PyVal.beq] using PyVal.beqList_refl xs
  | .dict xs => by simpa [PyVal.beq] using PyVal.beqEntries_refl xs
  | .obj c a => by simp [PyVal.beq, PyVal.beqEntries_refl a]

theorem PyVal.beqList_refl : ∀ xs : List PyVal, PyVal.beqList xs xs = true
  | [] => rfl
  | x :: xs => by simp [PyVal.beqList, PyVal.beq_refl x, PyVal.beqList_refl xs]

theorem PyVal.beqEntries_refl : ∀ xs : List (String × PyVal), PyVal.beqEntries xs xs = true
  | [] => rfl
  | (k, x) :: xs => by simp [PyVal.beqEntries, PyVal.beq_refl x, PyVal.beqEntries_refl xs]

end

theorem PyVal.beq_sound : ∀ a b : PyVal, PyVal.beq a b = true → a = b := by
  have main := PyVal.beq.induct
    (fun a b => PyVal.beq a b = true → a = b)
    (fun xs ys => PyVal.beqEntries xs ys = true → xs = ys)
    (fun xs ys => PyVal.beqList xs ys = true → xs = ys)
  intro a b
  refine main ?_ ?_ ?_ ?_ ?_ ?_ ?_ ?_ ?_ ?_ ?_ ?_ ?_ ?_ ?_ a b
  · simp [PyVal.beq]
  · intro a b; simp [PyVal.beq]
  · intro a b; simp [PyVal.beq]
  · intro a b; simp [PyVal.beq]
  · intro a b; simp [PyVal.beq]
  · intro xs ys ih
    simp only [PyVal.beq, PyVal.list.injEq]
    exact ih
  · intro xs ys ih
    simp only [PyVal.beq, PyVal.dict.injEq]
    exact ih
  · intro c a d b ih
    simp only [PyVal.beq, Bool.and_eq_true, beq_iff_eq, PyVal.obj.injEq]
    rintro ⟨h1, h2⟩
    exact ⟨h1, ih h2⟩
  · intro t x h1 h2 h3 h4 h5 h6 h7 h8
    cases t <;> cases x <;>
      first
      | exact fun h => Bool.noConfusion h
      | exact (h1 rfl rfl).elim
      | exact fun _ => (h2 _ _ rfl rfl).elim
      | exact fun _ => (h3 _ _ rfl rfl).elim
      | exact fun _ => (h4 _ _ rfl rfl).elim
      | exact fun _ => (h5 _ _ rfl rfl).elim
      | exact fun _ => (h6 _ _ rfl rfl).elim
      | exact fun _ => (h7 _ _ rfl rfl).elim
      | exact fun _ => (h8 _ _ rfl rfl).elim
      | exact fun _ => (h8 _ _ _ _ rfl rfl).elim
  · simp [PyVal.beqList]
  · intro x xs y ys ih1 ih2
    simp only [PyVal.beqList, Bool.and_eq_true, List.cons.injEq]
    rintro ⟨p1, p2⟩
    exact ⟨ih1 p1, ih2 p2⟩
  · intro t x h1 h2
    cases t <;> cases x <;>
      first
      | exact fun h => Bool.noConfusion h
      | exact (h1 rfl rfl).elim
      | exact fun _ => (h2 _ _ _ _ rfl rfl).elim
  · simp [PyVal.beqEntries]
  · intro k x xs l y ys ih1 ih2
    simp only [PyVal.beqEntries, Bool.and_eq_true, beq_iff_eq, List.cons.injEq]
    rintro ⟨⟨q1, q2⟩, q3⟩
    exact ⟨by simp [q1, ih1 q2], ih2 q3⟩
  · intro t x h1 h2
    cases t <;> cases x <;>
      first
      | exact fun h => Bool.noConfusion h
      | exact (h1 rfl rfl).elim
      | exact fun _ => (h2 _ _ _ _ _ _ rfl rfl).elim

instance : DecidableEq PyVal := fun a b =>
  if h : PyVal.beq a b = true then .isTrue (PyVal.beq_sound a b h)
  else .isFalse (fun he => h (he ▸ PyVal.beq_refl a))

deriving instance DecidableEq for Except

/-- Attribute store of a Python object (ordered, as in CPython). -/
abbrev Attrs := List (String × PyVal)

/-- Python truthiness of a value (used by `if data:` style checks). -/
def pyTruthy : PyVal → Bool
  | .none => false
  | .bool b => b
  | .int n => n != 0
  | .float p => p != 0
  | .str s => s != ""
  | .list items => !items.isEmpty
  | .dict entries => !entries.isEmpty
  | .obj _ _ => true

/-- setattr on an attribute store: replaces the value of an existing name in
place, otherwise appends the name at the end (CPython keeps insertion
order; attribute names are unique). -/
def setAttr : Attrs → String → PyVal → Attrs
  | [], name, v => [(name, v)]
  | (k, w) :: rest, name, v =>
    if k = name then (name, v) :: rest else (k, w) :: setAttr rest name v

/-- getattr on an attribute store. -/
def getAttr (attrs : Attrs) (name : String) : Option PyVal :=
  attrs.lookup name

/-!
Character level string helpers.  The embedding avoids the string library
functions whose definitions do not reduce inside the kernel (splitOn,
endswith style suffix tests, replace); the helpers below are structurally
recursive over the character list and mirror the Python semantics of the
operations the source uses.
-/

/-- str.split(sep) for a one character separator: empty pieces are kept,
as in Python. -/
def splitOnCharAux (c : Char) : List Char → List Char → List String
  | [], acc => [String.mk acc.reverse]
  | x :: rest, acc =>
    if x = c then String.mk acc.reverse :: splitOnCharAux c rest []
    else splitOnCharAux c rest (x :: acc)

/-- String form of splitOnCharAux. -/
def splitOnChar (c : Char) (s : String) : List String :=
  splitOnCharAux c s.toList []

/-- str.endswith(tag). -/
def strEndsWith (s tag : String) : Bool :=
  List.isPrefixOf tag.toList.reverse s.toList.reverse

/-- Python (c in s) for a single character. -/
def strContainsChar (s : String) (c : Char) : Bool :=
  s.toList.contains c

/-- str.replace of every backslash by two forward slashes (the texture
check normalisation). -/
def replaceBackslashes : List Char → List Char
  | [] => []
  | c :: rest =>
    if c = '\\' then '/' :: '/' :: replaceBackslashes rest
    else c :: replaceBackslashes rest

/-- String form of replaceBackslashes. -/
def backslashesToSlashes (s : String) : String :=
  String.mk (replaceBackslashes s.toList)

/-- Python primitive types appearing in the metadata schema annotations. -/
inductive PrimTy where
  | str
  | float
  | bool
  | int
  | noneType
deriving DecidableEq, Repr

/-- Declared field types of the metadata schema: a primitive type, a
dataclass (by name), a typing.List, or a typing.Union (typing.Optional is
Union with NoneType as last member, which is how typing.get_args exposes
it). -/
inductive FieldType where
  | prim (p : PrimTy)
  | record (cls : String)
  | listOf (elem : FieldType)
  | union (members : List FieldType)
deriving Repr

/-- Python isinstance for primitive schema types.  A Python bool is an
instance of int (bool subclasses int); an int is not an instance of float. -/
def isInstancePrim : PyVal → PrimTy → Bool
  | .str _, .str => true
  | .float _, .float => true
  | .bool _, .bool => true
  | .bool _, .int => true
  | .int _, .int => true
  | .none, .noneType => true
  | _, _ => false

/-- A dataclass schema: the annotated fields in declaration order
(the class own __annotations__) plus the extra value-domain checks the
subclass __post_init__ performs after calling super().__post_init__(). -/
structure RecordDef where
  name : String
  fields : List (String × FieldType)
  postCheck : Attrs → Except PyErr Unit

/-- A schema environment maps a dataclass name to its definition. -/
abbrev SchemaEnv := String → Option RecordDef

namespace TypeValidator

/-!
Embedding of TypeValidator (type_validator.py).

checkType env fuel self fieldName v t embeds
TypeValidator._check_type(self, field_name, value, field_type); the result
is the updated attribute store of self together with either the returned
value or the raised exception.  State is returned even when an exception is
raised, because a partially mutated self survives a caught TypeError in the
Union branch of the source.

constructRecord env fuel cls kwargs embeds dataclass construction
cls(**kwargs): the generated __init__ (raising TypeError on missing or
unexpected keyword arguments), then TypeValidator.__post_init__ (checking
each annotated field), then the subclass extra value-domain checks.

The recursion of the source goes through the schema (a record field checks
the fields of the looked-up dataclass), which is not structural; the fuel
argument bounds that nesting depth and the two mutually recursive functions
are structural in it.  The loops of the source (over union members, list
items and record fields) are factored out as the loop combinators below,
which take the recursive call as a closure at the current fuel; loops are
structural in their list argument and do not consume fuel, so for the fixed
finite schema of this repository a constant fuel (wdFuel below) is exact on
every input: the recursion depth only follows the declared types, never the
value being validated.
-/

/-- Loop of the Union branch of _check_type:
for type_ in union_types: try step except TypeError: pass, breaking on the
first member that succeeds.  A caught TypeError leaves the mutations the
failed attempt already made; any other exception propagates.  Returns the
adopted member result, if any. -/
def unionLoop (step : Attrs → FieldType → Attrs × Except PyErr PyVal) :
    Attrs → List FieldType → Attrs × Except PyErr (Option PyVal)
  | self, [] => (self, .ok Option.none)
  | self, m :: rest =>
    match step self m with
    | (self1, .ok nv) => (self1, .ok (Option.some nv))
    | (self1, .error (.typeError _)) => unionLoop step self1 rest
    | (self1, .error e) => (self1, .error e)

/-- Loop of the list branch of _check_type: every element is checked and the
rebuilt list collects the original elements (new_value.append(item) in the
source), so element coercions do not stick. -/
def listLoop (step : Attrs → PyVal → Attrs × Except PyErr PyVal) :
    Attrs → List PyVal → Attrs × Except PyErr (List PyVal)
  | self, [] => (self, .ok [])
  | self, item :: rest =>
    match step self item with
    | (self1, .error e) => (self1, .error e)
    | (self1, .ok _) =>
      match listLoop step self1 rest with
      | (self2, .error e) => (self2, .error e)
      | (self2, .ok tail) => (self2, .ok (item :: tail))

/-- Sequencing loop for the per-field passes (the __post_init__ loop and the
sub-field loop of the dataclass branch): run the step for every list entry,
stopping at the first exception. -/
def stepLoop {A : Type} (step : Attrs → A → Attrs × Except PyErr Unit) :
    Attrs → List A → Attrs × Except PyErr Unit
  | self, [] => (self, .ok ())
  | self, x :: rest =>
    match step self x with
    | (self1, .ok _) => stepLoop step self1 rest
    | (self1, .error e) => (self1, .error e)

/-- One step of the sub-field loop of the dataclass branch of _check_type:
read the sub field from the (coerced) instance and recheck it in the outer
self under a dotted name; the recursive checker is passed in. -/
def subFieldStep (check : Attrs → String → PyVal → FieldType → Attrs × Except PyErr PyVal)
    (fieldName : String) (attrsV : Attrs) (self0 : Attrs) (sf : String × FieldType) :
    Attrs × Except PyErr Unit :=
  match getAttr attrsV sf.1 with
  | Option.none => (self0, .error (.attributeError sf.1))
  | Option.some subVal =>
    match check self0 (fieldName ++ "." ++ sf.1) subVal sf.2 with
    | (self1, .error e) => (self1, .error e)
    | (self1, .ok _) => (self1, .ok ())

/-- One step of the __post_init__ loop: read the current attribute value of
the object under construction and check it. -/
def initFieldStep (check : Attrs → String → PyVal → FieldType → Attrs × Except PyErr PyVal)
    (attrs : Attrs) (sf : String × FieldType) : Attrs × Except PyErr Unit :=
  match check attrs sf.1 ((getAttr attrs sf.1).getD PyVal.none) sf.2 with
  | (attrs1, .error e) => (attrs1, .error e)
  | (attrs1, .ok _) => (attrs1, .ok ())

mutual

/-- Embeds TypeValidator._check_type.  Branches, in source order: a typing
origin (Union, then list), a dataclass, and finally a plain isinstance
check. -/
def checkType (env : SchemaEnv) : Nat → Attrs → String → PyVal → FieldType →
    Attrs × Except PyErr PyVal
  | 0, self, _, _, _ => (self, .error (.typeError "fuel exhausted"))
  | fuel + 1, self, fieldName, v, t =>
    match t with
    | .union members =>
      match unionLoop (fun s m => checkType env fuel s fieldName v m) self members with
      | (self1, .error e) => (self1, .error e)
      | (self1, .ok found) =>
        -- Python new_value is None when no member succeeded, or when the
        -- adopted member returned None (which only happens for a None value)
        match found.getD PyVal.none, v with
        | PyVal.none, PyVal.none =>
          -- new_value is None and value is None: no raise; setattr None
          (setAttr self1 fieldName PyVal.none, .ok PyVal.none)
        | PyVal.none, _ =>
          (self1, .error (.typeError ("no union member matched field " ++ fieldName)))
        | newValue, _ =>
          -- setattr(self, field_name, new_value); the branch then falls
          -- through to the final return of the original value
          (setAttr self1 fieldName newValue, .ok v)
    | .listOf elemT =>
      match v with
      | .list items =>
        match listLoop (fun s item => checkType env fuel s fieldName item elemT) self items with
        | (self1, .error e) => (self1, .error e)
        | (self1, .ok newItems) =>
          -- setattr(self, field_name, new_value) then return value
          (setAttr self1 fieldName (.list newItems), .ok v)
      | _ => (self, .error (.typeError ("expected a list for field " ++ fieldName)))
    | .record cls =>
      match env cls with
      | Option.none => (self, .error (.typeError ("unknown dataclass " ++ cls)))
      | Option.some rd =>
        -- the sub-field loop rechecks every annotated sub field of the
        -- (coerced) instance in the context of the outer self, under a
        -- dotted field name; getattr on the instance cannot fail for a
        -- constructed instance but is modelled faithfully
        match v with
        | .obj c attrsV =>
          if c = cls then
            -- isinstance(value, field_type) holds: no coercion, loop over
            -- the sub fields of the existing instance
            match stepLoop (subFieldStep (fun s nn vv tt => checkType env fuel s nn vv tt)
                fieldName attrsV) self rd.fields with
            | (self1, .error e) => (self1, .error e)
            | (self1, .ok _) => (self1, .ok (.obj c attrsV))
          else
            -- a dataclass instance of a different class: not a dict, so the
            -- source just setattrs it and the isinstance-guarded sub-field
            -- loop is skipped
            (setAttr self fieldName (.obj c attrsV), .ok (.obj c attrsV))
        | .dict d =>
          -- value = field_type(**value); setattr(self, field_name, value)
          match constructRecord env fuel cls d with
          | .error e => (self, .error e)
          | .ok newObj =>
            match newObj with
            | .obj _ attrsN =>
              match stepLoop (subFieldStep (fun s nn vv tt => checkType env fuel s nn vv tt)
                  fieldName attrsN) (setAttr self fieldName newObj) rd.fields with
              | (self1, .error e) => (self1, .error e)
              | (self1, .ok _) => (self1, .ok newObj)
            | _ => (self, .error (.typeError "constructRecord returned a non-object"))
        | other =>
          -- not an instance and not a dict: the source silently stores the
          -- ill-typed value and the isinstance-guarded sub-field loop is
          -- skipped; no error is raised
          (setAttr self fieldName other, .ok other)
    | .prim p =>
      if isInstancePrim v p then (self, .ok v)
      else (self, .error (.typeError ("wrong primitive type for field " ++ fieldName)))

/-- Embeds dataclass construction cls(**kwargs) for a TypeValidator
subclass: the generated __init__ binds every annotated field from the
keyword arguments (TypeError when one is missing or unexpected), then the
__post_init__ loop checks every annotated field in order (reading the
current attribute value, which earlier coercions may have replaced), then
the subclass value-domain checks run. -/
def constructRecord (env : SchemaEnv) : Nat → String → List (String × PyVal) →
    Except PyErr PyVal
  | 0, _, _ => .error (.typeError "fuel exhausted")
  | fuel + 1, cls, kwargs =>
    match env cls with
    | Option.none => .error (.typeError ("unknown dataclass " ++ cls))
    | Option.some rd =>
      if ¬ rd.fields.all (fun f => (kwargs.lookup f.1).isSome) then
        .error (.typeError ("missing required argument for " ++ cls))
      else if ¬ kwargs.all (fun kv => rd.fields.any (fun f => f.1 = kv.1)) then
        .error (.typeError ("unexpected keyword argument for " ++ cls))
      else
        let attrs0 := rd.fields.map (fun f => (f.1, (kwargs.lookup f.1).getD PyVal.none))
        match stepLoop (initFieldStep (fun s nn vv tt => checkType env fuel s nn vv tt))
            attrs0 rd.fields with
        | (_, .error e) => .error e
        | (attrs1, .ok _) =>
          match rd.postCheck attrs1 with
          | .error e => .error e
          | .ok _ => .ok (.obj cls attrs1)

end

end TypeValidator

end WdTools

namespace WdTools

/-!
The metadata schema (character_metadata_definition.py): the annotated fields
of every dataclass, in declaration order, and the extra value-domain checks
of each subclass __post_init__.
-/

/-- typing.Optional str, as typing.get_args exposes it: Union with NoneType
last. -/
def optStr : FieldType := .union [.prim .str, .prim .noneType]

/-- typing.Optional float. -/
def optFloat : FieldType := .union [.prim .float, .prim .noneType]

/-- typing.Optional of List float. -/
def optListFloat : FieldType := .union [.listOf (.prim .float), .prim .noneType]

/-- The materials field type of CharacterMetadata:
List of Union of the three material record classes, in declaration order. -/
def materialsFieldType : FieldType :=
  .listOf (.union [.record "MetadataMaterialSurface", .record "MetadataMaterialFlat",
    .record "MetadataMaterialHair"])

/-- Field annotations of dataclass MetadataMaterialSurface (character_metadata_definition.py), in declaration order. -/
def metadataMaterialSurfaceFields : List (String × FieldType) := [
  ("material_name", .prim .str),
  ("material_type", .prim .str),
  ("mesh_names", .listOf (.prim .str)),
  ("render_engine", .prim .str),
  ("diffuseWeight_value", optFloat),
  ("diffuseWeight_texture", optStr),
  ("diffuse_value", optListFloat),
  ("diffuse_texture", optStr),
  ("metalness_value", optFloat),
  ("metalness_texture", optStr),
  ("specularWeight_value", optFloat),
  ("specularWeight_texture", optStr),
  ("specular_value", optListFloat),
  ("specular_texture", optStr),
  ("roughness_value", optFloat),
  ("roughness_texture", optStr),
  ("anisotropic_value", optFloat),
  ("anisotropic_texture", optStr),
  ("anisotropicRotation_value", optFloat),
  ("anisotropicRotation_texture", optStr),
  ("transmissionWeight_value", optFloat),
  ("transmissionWeight_texture", optStr),
  ("transmission_value", optListFloat),
  ("transmission_texture", optStr),
  ("ior_value", optFloat),
  ("ior_texture", optStr),
  ("sssWeight_value", optFloat),
  ("sssWeight_texture", optStr),
  ("sss_value", optListFloat),
  ("sss_texture", optStr),
  ("sssRadius_value", optListFloat),
  ("sssRadius_texture", optStr),
  ("coatWeight_value", optFloat),
  ("coatWeight_texture", optStr),
  ("coat_value", optListFloat),
  ("coat_texture", optStr),
  ("emissionWeight_value", optFloat),
  ("emissionWeight_texture", optStr),
  ("emission_value", optListFloat),
  ("emission_texture", optStr),
  ("opacity_value", optListFloat),
  ("opacity_texture", optStr),
  ("bump_type", optStr),
  ("bump_flip", .prim .bool),
  ("bump_texture", optStr),
  ("bumpWeight_value", optFloat)
]

/-- Field annotations of dataclass MetadataMaterialFlat (character_metadata_definition.py), in declaration order. -/
def metadataMaterialFlatFields : List (String × FieldType) := [
  ("material_name", .prim .str),
  ("material_type", .prim .str),
  ("mesh_names", .listOf (.prim .str)),
  ("render_engine", .prim .str),
  ("emission_value", optListFloat),
  ("emission_texture", optStr)
]

/-- Field annotations of dataclass MetadataMaterialHair (character_metadata_definition.py), in declaration order. -/
def metadataMaterialHairFields : List (String × FieldType) := [
  ("material_name", .prim .str),
  ("material_type", .prim .str),
  ("groom_names", .listOf (.prim .str)),
  ("render_engine", .prim .str),
  ("diffuse_value", optListFloat),
  ("diffuse_texture", optStr),
  ("melanin_value", optFloat),
  ("melanin_texture", optStr),
  ("melaninRedness_value", optFloat),
  ("melaninRedness_texture", optStr),
  ("melaninRandomize_value", optFloat),
  ("melaninRandomize_texture", optStr),
  ("roughness_value", optFloat),
  ("roughness_texture", optStr),
  ("ior_value", optFloat),
  ("ior_texture", optStr)
]

/-- Field annotations of dataclass MetadataEyeRig (character_metadata_definition.py), in declaration order. -/
def metadataEyeRigFields : List (String × FieldType) := [
  ("bone_name", .prim .str),
  ("horizontal_rotation_axis", .prim .str),
  ("vertical_rotation_axis", .prim .str),
  ("horizontal_min_max_value", .listOf (.prim .float)),
  ("vertical_min_max_value", .listOf (.prim .float))
]

/-- Field annotations of dataclass MetadataBodyBones (character_metadata_definition.py), in declaration order. -/
def metadataBodyBonesFields : List (String × FieldType) := [
  ("Hips", .prim .str),
  ("LeftUpLeg", optStr),
  ("RightUpLeg", optStr),
  ("Spine", optStr),
  ("LeftLeg", optStr),
  ("RightLeg", optStr),
  ("Spine1", optStr),
  ("LeftFoot", optStr),
  ("RightFoot", optStr),
  ("Spine2", optStr),
  ("LeftToeBase", optStr),
  ("RightToeBase", optStr),
  ("Neck", optStr),
  ("LeftShoulder", optStr),
  ("RightShoulder", optStr),
  ("Head", optStr),
  ("LeftArm", optStr),
  ("RightArm", optStr),
  ("LeftForeArm", optStr),
  ("RightForeArm", optStr),
  ("LeftHand", optStr),
  ("RightHand", optStr),
  ("LeftHandIndex1", optStr),
  ("LeftHandIndex2", optStr),
  ("LeftHandIndex3", optStr),
  ("LeftHandMiddle1", optStr),
  ("LeftHandMiddle2", optStr),
  ("LeftHandMiddle3", optStr),
  ("LeftHandPinky1", optStr),
  ("LeftHandPinky2", optStr),
  ("LeftHandPinky3", optStr),
  ("LeftHandRing1", optStr),
  ("LeftHandRing2", optStr),
  ("LeftHandRing3", optStr),
  ("LeftHandThumb1", optStr),
  ("LeftHandThumb2", optStr),
  ("LeftHandThumb3", optStr),
  ("RightHandIndex1", optStr),
  ("RightHandIndex2", optStr),
  ("RightHandIndex3", optStr),
  ("RightHandMiddle1", optStr),
  ("RightHandMiddle2", optStr),
  ("RightHandMiddle3", optStr),
  ("RightHandPinky1", optStr),
  ("RightHandPinky2", optStr),
  ("RightHandPinky3", optStr),
  ("RightHandRing1", optStr),
  ("RightHandRing2", optStr),
  ("RightHandRing3", optStr),
  ("RightHandThumb1", optStr),
  ("RightHandThumb2", optStr),
  ("RightHandThumb3", optStr)
]

/-- Field annotations of dataclass MetadataBody (character_metadata_definition.py), in declaration order. -/
def metadataBodyFields : List (String × FieldType) := [
  ("armature_name", .prim .str),
  ("bone_names", .record "MetadataBodyBones")
]

/-- Field annotations of dataclass MetadataFaceBlendshapes (character_metadata_definition.py), in declaration order. -/
def metadataFaceBlendshapesFields : List (String × FieldType) := [
  ("Basis", optStr),
  ("browInnerDnL", optStr),
  ("browInnerDnR", optStr),
  ("browInnerUpL", optStr),
  ("browInnerUpR", optStr),
  ("browOuterDnL", optStr),
  ("browOuterDnR", optStr),
  ("browOuterUpL", optStr),
  ("browOuterUpR", optStr),
  ("browSqueezeL", optStr),
  ("browSqueezeR", optStr),
  ("cheekBlowL", optStr),
  ("cheekBlowR", optStr),
  ("cheekUpL", optStr),
  ("cheekUpR", optStr),
  ("eyeBlinkL", optStr),
  ("eyeBlinkR", optStr),
  ("eyeCompressL", optStr),
  ("eyeCompressR", optStr),
  ("eyeDn", optStr),
  ("eyeL", optStr),
  ("eyeR", optStr),
  ("eyeSquintL", optStr),
  ("eyeSquintR", optStr),
  ("eyeUp", optStr),
  ("eyeWidenLowerL", optStr),
  ("eyeWidenLowerR", optStr),
  ("eyeWidenUpperL", optStr),
  ("eyeWidenUpperR", optStr),
  ("jawClenchL", optStr),
  ("jawClenchR", optStr),
  ("jawIn", optStr),
  ("jawL", optStr),
  ("jawOpen", optStr),
  ("jawOut", optStr),
  ("jawR", optStr),
  ("lipChinRaiserL", optStr),
  ("lipChinRaiserR", optStr),
  ("lipCloseLower", optStr),
  ("lipCloseUpper", optStr),
  ("lipCornerDnL", optStr),
  ("lipCornerDnR", optStr),
  ("lipCornerUpL", optStr),
  ("lipCornerUpR", optStr),
  ("lipDimplerL", optStr),
  ("lipDimplerR", optStr),
  ("lipFunnelerLower", optStr),
  ("lipFunnelerUpper", optStr),
  ("lipLowerDnL", optStr),
  ("lipLowerDnR", optStr),
  ("lipLowerPullDnL", optStr),
  ("lipLowerPullDnR", optStr),
  ("lipLowerUpL", optStr),
  ("lipLowerUpR", optStr),
  ("lipNarrowL", optStr),
  ("lipNarrowR", optStr),
  ("lipPoutLower", optStr),
  ("lipPoutUpper", optStr),
  ("lipPresserL", optStr),
  ("lipPresserR", optStr),
  ("lipPucker", optStr),
  ("lipPullL", optStr),
  ("lipPullR", optStr),
  ("lipPushLower", optStr),
  ("lipPushUpper", optStr),
  ("lipSmileClosedL", optStr),
  ("lipSmileClosedR", optStr),
  ("lipSmileOpenL", optStr),
  ("lipSmileOpenR", optStr),
  ("lipSneerL", optStr),
  ("lipSneerR", optStr),
  ("lipStickyL", optStr),
  ("lipStickyR", optStr),
  ("lipSuckLower", optStr),
  ("lipSuckUpper", optStr),
  ("lipSwingL", optStr),
  ("lipSwingR", optStr),
  ("lipTightnerL", optStr),
  ("lipTightnerR", optStr),
  ("lipUpperDnL", optStr),
  ("lipUpperDnR", optStr),
  ("lipUpperUpL", optStr),
  ("lipUpperUpR", optStr),
  ("lipWidenL", optStr),
  ("lipWidenR", optStr),
  ("noseCompress", optStr),
  ("noseFlare", optStr),
  ("noseSneerL", optStr),
  ("noseSneerR", optStr),
  ("noseWrinklerL", optStr),
  ("noseWrinklerR", optStr)
]

/-- Field annotations of dataclass MetadataFace (character_metadata_definition.py), in declaration order. -/
def metadataFaceFields : List (String × FieldType) := [
  ("mesh_name", optStr),
  ("blendshape_names", .record "MetadataFaceBlendshapes")
]

/-- Field annotations of dataclass CharacterMetadata (character_metadata_definition.py), in declaration order. -/
def characterMetadataFields : List (String × FieldType) := [
  ("software", .prim .str),
  ("version", .prim .str),
  ("materials", materialsFieldType),
  ("eyes_rig", .listOf (.record "MetadataEyeRig")),
  ("body", .record "MetadataBody"),
  ("face", .record "MetadataFace")
]


/-- supported_material_types from the material __post_init__ bodies. -/
def supportedMaterialTypes : List String := ["surface", "flat", "hair"]

/-- supported_render_engines from the material __post_init__ bodies. -/
def supportedRenderEngines : List String := ["arnold"]

/-- supported_bump_types from MetadataMaterialSurface.__post_init__. -/
def supportedBumpTypes : List String := ["bump", "normal_tangent_space", "normal_object_space"]

/-- vector_3_values from MetadataMaterialSurface.__post_init__. -/
def vector3Values : List String :=
  ["diffuse_value", "specular_value", "transmission_value", "sss_value",
   "sssRadius_value", "coat_value", "emission_value", "opacity_value"]

/-- Checks one value of the vector_3_values loop: raise ValueError when the
attribute value is a list whose length is not 3 (non-list values, e.g. None,
are skipped by the isinstance guard). -/
def vec3Check (attrs : Attrs) : List String → Except PyErr Unit
  | [] => .ok ()
  | n :: rest =>
    match getAttr attrs n with
    | Option.some (.list l) =>
      if l.length ≠ 3 then
        .error (.valueError ("Wrong " ++ n ++ " format. Expected list of 3 float values."))
      else vec3Check attrs rest
    | _ => vec3Check attrs rest

/-- Membership of a (string) attribute value in a closed list of options, as
the Python `self.f not in options` checks evaluate it: a non-string value is
simply not a member. -/
def attrInOptions (attrs : Attrs) (name : String) (options : List String) : Bool :=
  match getAttr attrs name with
  | Option.some (.str s) => options.contains s
  | _ => false

/-- The common material_type and render_engine checks shared by the three
material __post_init__ bodies. -/
def materialCommonCheck (attrs : Attrs) : Except PyErr Unit :=
  if ¬ attrInOptions attrs "material_type" supportedMaterialTypes then
    .error (.valueError "Unsupported material type.")
  else if ¬ attrInOptions attrs "render_engine" supportedRenderEngines then
    .error (.valueError "Unsupported render engine.")
  else .ok ()

/-- Extra checks of MetadataMaterialSurface.__post_init__: material type,
render engine, the eight 3-vector fields, and the bump type. -/
def materialSurfacePost (attrs : Attrs) : Except PyErr Unit :=
  match materialCommonCheck attrs with
  | .error e => .error e
  | .ok _ =>
    match vec3Check attrs vector3Values with
    | .error e => .error e
    | .ok _ =>
      match getAttr attrs "bump_type" with
      | Option.some PyVal.none => .ok ()
      | _ =>
        if ¬ attrInOptions attrs "bump_type" supportedBumpTypes then
          .error (.valueError "Unsupported bump map type.")
        else .ok ()

/-- Extra checks of MetadataMaterialFlat.__post_init__. -/
def materialFlatPost (attrs : Attrs) : Except PyErr Unit :=
  match materialCommonCheck attrs with
  | .error e => .error e
  | .ok _ => vec3Check attrs ["emission_value"]

/-- Extra checks of MetadataMaterialHair.__post_init__. -/
def materialHairPost (attrs : Attrs) : Except PyErr Unit :=
  match materialCommonCheck attrs with
  | .error e => .error e
  | .ok _ => vec3Check attrs ["diffuse_value"]

/-- supported_axis from MetadataEyeRig.__post_init__. -/
def supportedAxis : List String := ["X", "Y", "Z"]

/-- Python len() of a value: defined for lists here; on any other value the
embedded code would have raised before (the structural check precedes the
__post_init__ extras), modelled as a TypeError. -/
def pyLen : PyVal → Except PyErr Nat
  | .list l => .ok l.length
  | .str s => .ok s.length
  | _ => .error (.typeError "object has no len")

/-- Extra checks of MetadataEyeRig.__post_init__: both rotation axes must be
in supported_axis and both min/max lists must have length 2.  Note that the
source never compares the two axes with each other. -/
def eyeRigPost (attrs : Attrs) : Except PyErr Unit :=
  if ¬ attrInOptions attrs "horizontal_rotation_axis" supportedAxis then
    .error (.valueError "Unsupported horizontal_rotation_axis type.")
  else if ¬ attrInOptions attrs "vertical_rotation_axis" supportedAxis then
    .error (.valueError "Unsupported vertical_rotation_axis type.")
  else
    match pyLen ((getAttr attrs "horizontal_min_max_value").getD PyVal.none) with
    | .error e => .error e
    | .ok n =>
      if n ≠ 2 then .error (.valueError "Wrong horizontal_min_max_value format.")
      else
        match pyLen ((getAttr attrs "vertical_min_max_value").getD PyVal.none) with
        | .error e => .error e
        | .ok m =>
          if m ≠ 2 then .error (.valueError "Wrong vertical_min_max_value format.")
          else .ok ()

/-- supported_software from CharacterMetadata.__post_init__. -/
def supportedSoftware : List String := ["blender", "maya"]

/-- Python str.isdigit on a nonempty run of characters (the \d+ pieces of the
version pattern). -/
def allDigits (s : String) : Bool :=
  s.length > 0 && s.toList.all Char.isDigit

/-- The version format check of CharacterMetadata.__post_init__:
re.match of three dot separated integer groups anchored on both sides. -/
def versionFormatOk (s : String) : Bool :=
  match splitOnChar '.' s with
  | [a, b, c] => allDigits a && allDigits b && allDigits c
  | _ => false

/-- Extra checks of CharacterMetadata.__post_init__: software in the closed
list and version in X.Y.Z format.  A non-string version would make re.match
raise TypeError; the structural check runs first so it is a string here. -/
def characterMetadataPost (attrs : Attrs) : Except PyErr Unit :=
  if ¬ attrInOptions attrs "software" supportedSoftware then
    .error (.valueError "Unsupported software type.")
  else
    match getAttr attrs "version" with
    | Option.some (.str s) =>
      if ¬ versionFormatOk s then
        .error (.valueError "Unsupported version format.")
      else .ok ()
    | _ => .error (.typeError "expected string or bytes-like object")

/-- No extra __post_init__ checks (MetadataBodyBones, MetadataBody,
MetadataFaceBlendshapes, MetadataFace have no __post_init__ of their own). -/
def noPost : Attrs → Except PyErr Unit := fun _ => .ok ()

/-- The schema environment of the metadata definition module. -/
def wdSchema : SchemaEnv := fun cls =>
  if cls = "MetadataMaterialSurface" then
    Option.some ⟨cls, metadataMaterialSurfaceFields, materialSurfacePost⟩
  else if cls = "MetadataMaterialFlat" then
    Option.some ⟨cls, metadataMaterialFlatFields, materialFlatPost⟩
  else if cls = "MetadataMaterialHair" then
    Option.some ⟨cls, metadataMaterialHairFields, materialHairPost⟩
  else if cls = "MetadataEyeRig" then
    Option.some ⟨cls, metadataEyeRigFields, eyeRigPost⟩
  else if cls = "MetadataBodyBones" then
    Option.some ⟨cls, metadataBodyBonesFields, noPost⟩
  else if cls = "MetadataBody" then
    Option.some ⟨cls, metadataBodyFields, noPost⟩
  else if cls = "MetadataFaceBlendshapes" then
    Option.some ⟨cls, metadataFaceBlendshapesFields, noPost⟩
  else if cls = "MetadataFace" then
    Option.some ⟨cls, metadataFaceFields, noPost⟩
  else if cls = "CharacterMetadata" then
    Option.some ⟨cls, characterMetadataFields, characterMetadataPost⟩
  else Option.none

/-- Fuel that strictly dominates the nesting depth of the fixed schema (the
deepest chain, through materials elements or the body record, uses well
under 32 levels; fuel is only consumed per nesting level, never per list
element or per field). -/
def wdFuel : Nat := 32

/-- CharacterMetadata(**kwargs). -/
def constructCharacterMetadata (kwargs : List (String × PyVal)) : Except PyErr PyVal :=
  TypeValidator.constructRecord wdSchema wdFuel "CharacterMetadata" kwargs

/-- MetadataEyeRig(**kwargs). -/
def constructMetadataEyeRig (kwargs : List (String × PyVal)) : Except PyErr PyVal :=
  TypeValidator.constructRecord wdSchema wdFuel "MetadataEyeRig" kwargs

end WdTools

namespace WdTools

/-!
Scene model.  The validators read the Blender scene through bpy; the fields
below are exactly the attributes the embedded validators access.  Evaluated
polygon counts (len of the bmesh faces built from the evaluated depsgraph)
and shape-key presence are external inputs of the scene graph, recorded as
plain data.
-/

/-- An edit/data bone (armature.data.bones entry) with the two relation
flags the validators read. -/
structure DataBone where
  name : String
  useConnect : Bool
  useLocalLocation : Bool
deriving DecidableEq, Repr

/-- A pose bone (armature.pose.bones entry): its rotation mode and the name
of its parent bone, if any. -/
structure PoseBone where
  name : String
  rotationMode : String
  parent : Option String
deriving DecidableEq, Repr

/-- The particle_system.settings attributes read by the hair strand
counter. -/
structure ParticleSettings where
  count : Int
  childType : String
  renderedChildCount : Int
deriving DecidableEq, Repr

/-- An object modifier: its type, particle settings (for PARTICLE_SYSTEM
modifiers) and the node types of its node group (for NODES modifiers). -/
structure Modifier where
  name : String
  type : String
  particleSettings : ParticleSettings
  nodeTypes : List String
deriving DecidableEq, Repr

/-- A scene object (bpy.data.objects entry) with the attributes the
validators access; attributes of the wrong object kind are simply never
read. -/
structure SceneObject where
  name : String
  type : String
  posePosition : String
  dataBones : List DataBone
  poseBones : List PoseBone
  modifiers : List Modifier
  evalPolyCount : Nat
  curvesCount : Nat
  hasShapeKeys : Bool
deriving DecidableEq, Repr

/-- An image datablock (bpy.data.images entry). -/
structure Image where
  name : String
  filepath : String
  users : Nat
  packed : Bool
deriving DecidableEq, Repr

/-- The Blender state the embedded functions read: datablock collections,
the view layer membership, the saved file path and the texture files found
on disk under the blend directory (the os.walk input of the texture
check). -/
structure Scene where
  filepath : String
  blendDir : String
  texts : List String
  objects : List SceneObject
  meshes : List (String × Bool)
  armatures : List String
  materials : List String
  viewLayerObjects : List String
  images : List Image
  hasWorld : Bool
  worldEnvImages : List String
  textureFiles : List (String × String)
deriving DecidableEq, Repr

/-- One report entry: the dict with keys check and message returned by
Validator.__call__. -/
structure Entry where
  check : Bool
  message : String
deriving DecidableEq, Repr

/-- A stage report: rule key to entry, in insertion order. -/
abbrev Report := List (String × Entry)

/-- Python dict subscription d[key]: KeyError when the key is missing,
TypeError when the value is not a dict. -/
def pyIndex (v : PyVal) (key : String) : Except PyErr PyVal :=
  match v with
  | .dict entries =>
    match entries.lookup key with
    | Option.some x => .ok x
    | Option.none => .error (.keyError key)
  | _ => .error (.typeError "value is not subscriptable")

/-- bpy.data.objects.get(name): requires a string key (bpy prop collections
raise TypeError otherwise), returns the first object of that name. -/
def objectsGet (scene : Scene) (v : PyVal) : Except PyErr (Option SceneObject) :=
  match v with
  | .str s => .ok (scene.objects.find? (fun o => o.name = s))
  | _ => .error (.typeError "bpy prop collection keys must be strings")

/-- metadata['body'][field]. -/
def metaBodyField (metadata : PyVal) (field : String) : Except PyErr PyVal := do
  let body ← pyIndex metadata "body"
  pyIndex body field

/-- metadata['body']['bone_names'][key]. -/
def metaBoneName (metadata : PyVal) (key : String) : Except PyErr PyVal := do
  let body ← pyIndex metadata "body"
  let bones ← pyIndex body "bone_names"
  pyIndex bones key

/-- metadata['face'][field]. -/
def metaFaceField (metadata : PyVal) (field : String) : Except PyErr PyVal := do
  let face ← pyIndex metadata "face"
  pyIndex face field

/-- Comma join used by the expand_message f-strings. -/
def joinComma (xs : List String) : String :=
  String.intercalate ", " xs

end WdTools

namespace WdTools

/-!
Cleanup stage validators (character_validation_cleanup.py).  Each validator
is embedded as a function from the scene (and metadata slice) to its report
entry, composing get() and check(data) exactly as Validator.__call__ does;
message text is abbreviated.
-/

/-- ValidatorCleanupTextFiles: fails when any text datablock exists. -/
def validatorCleanupTextFiles (scene : Scene) : Entry :=
  let textFileNames := scene.texts
  if textFileNames.isEmpty then
    { check := true, message := "Text files detected!" }
  else
    { check := false,
      message := "Text files detected!" ++ "\n" ++
        "The following text files will be removed: " ++ joinComma textFileNames }

/-- ValidatorCleanupArmaturePosePosition: fails unless the armature named in
the metadata has pose_position POSE; get() dereferences the looked-up
armature without a None guard. -/
def validatorCleanupArmaturePosePosition (scene : Scene) (metadata : PyVal) :
    Except PyErr Entry := do
  let armName ← metaBodyField metadata "armature_name"
  let armOpt ← objectsGet scene armName
  match armOpt with
  | Option.none => throw (.attributeError "NoneType has no attribute data")
  | Option.some arm =>
    if arm.posePosition = "POSE" then
      pure { check := true, message := "Armature is not in Pose Position!" }
    else
      pure { check := false,
             message := "Armature is not in Pose Position!" ++ "\n" ++
               "Armature will be set to Pose Position mode." }

/-- ValidatorCleanupHipsBoneRelations: fails when the Hips bone has
use_connect enabled or use_local_location disabled. -/
def validatorCleanupHipsBoneRelations (scene : Scene) (metadata : PyVal) :
    Except PyErr Entry := do
  let armName ← metaBodyField metadata "armature_name"
  let armOpt ← objectsGet scene armName
  match armOpt with
  | Option.none => throw (.attributeError "NoneType has no attribute data")
  | Option.some arm =>
    let hipsName ← metaBoneName metadata "Hips"
    match hipsName with
    | .str hips =>
      match arm.dataBones.find? (fun b => b.name = hips) with
      | Option.none => throw (.attributeError "NoneType has no attribute use_connect")
      | Option.some hipsBone =>
        if hipsBone.useConnect || !hipsBone.useLocalLocation then
          pure { check := false,
                 message := "Wrong Hips bone relations settings!" ++ "\n" ++
                   "Connected will be disabled and Local Location enabled." }
        else
          pure { check := true, message := "Wrong Hips bone relations settings!" }
    | _ => throw (.typeError "bpy prop collection keys must be strings")

/-- ValidatorCleanupBoneRotationMode: fails when any pose bone rotation mode
differs from XYZ; get() collects the distinct modes in first-seen order. -/
def validatorCleanupBoneRotationMode (scene : Scene) (metadata : PyVal) :
    Except PyErr Entry := do
  let armName ← metaBodyField metadata "armature_name"
  let armOpt ← objectsGet scene armName
  match armOpt with
  | Option.none => throw (.attributeError "NoneType has no attribute pose")
  | Option.some arm =>
    let modes := arm.poseBones.foldl
      (fun acc pb => if acc.contains pb.rotationMode then acc else acc ++ [pb.rotationMode]) []
    if modes.any (fun m => m ≠ "XYZ") then
      pure { check := false,
             message := "Wrong bone rotation mode!" ++ "\n" ++
               "Bone rotation mode will be set to XYZ." }
    else
      pure { check := true, message := "Wrong bone rotation mode!" }

/-- ValidatorCleanupAutoSmooth: fails when any mesh has use_auto_smooth. -/
def validatorCleanupAutoSmooth (scene : Scene) : Entry :=
  let autoSmoothValues := scene.meshes.map (fun m => m.2)
  if autoSmoothValues.any (fun b => b) then
    { check := false,
      message := "Auto Smooth is enabled on some mesh objects!" ++ "\n" ++
        "Auto Smooth will be disabled on all Mesh objects." }
  else
    { check := true, message := "Auto Smooth is enabled on some mesh objects!" }

/-- ValidatorCleanupObjectNaming (key syntax_check): fails when any
armature, material, mesh or object name contains a dot. -/
def validatorCleanupObjectNaming (scene : Scene) : Entry :=
  let allNames := scene.armatures ++ scene.materials ++
    scene.meshes.map (fun m => m.1) ++ scene.objects.map (fun o => o.name)
  if allNames.any (fun n => strContainsChar n '.') then
    { check := false,
      message := "Detected objects with a dot in their name!" ++ "\n" ++
        "Names will be changed to use _ instead." }
  else
    { check := true, message := "Detected objects with a dot in their name!" }

/-- ValidatorCleanupCurvesGeoNodes._is_applyable: a NODES modifier whose
node group is not the single deform-curves-on-surface node. -/
def isApplyable (m : Modifier) : Bool :=
  if m.type ≠ "NODES" then false
  else
    let modNodeTypes := m.nodeTypes.filter
      (fun t => !(t == "GROUP_INPUT" || t == "GROUP_OUTPUT"))
    !(modNodeTypes.length == 1 && modNodeTypes.headD "" == "DEFORM_CURVES_ON_SURFACE")

/-- ValidatorCleanupCurvesGeoNodes: fails when any CURVES object in the view
layer carries an applyable geometry nodes modifier. -/
def validatorCleanupCurvesGeoNodes (scene : Scene) : Entry :=
  let curvesObjects := scene.objects.filter
    (fun o => o.type == "CURVES" && scene.viewLayerObjects.contains o.name)
  if curvesObjects.any (fun o => o.modifiers.any isApplyable) then
    { check := false, message := "Detected curves objects with geometry nodes!" }
  else
    { check := true, message := "Detected curves objects with geometry nodes!" }

/-- ValidatorCleanup.__call__: runs the seven active cleanup validators in
source order (ValidatorCleanupTransforms is commented out in the source) and
keys their entries. -/
def validatorCleanupCall (scene : Scene) (metadata : PyVal) : Except PyErr Report := do
  let e1 := validatorCleanupTextFiles scene
  let e2 ← validatorCleanupArmaturePosePosition scene metadata
  let e3 ← validatorCleanupHipsBoneRelations scene metadata
  let e4 ← validatorCleanupBoneRotationMode scene metadata
  let e5 := validatorCleanupAutoSmooth scene
  let e6 := validatorCleanupObjectNaming scene
  let e7 := validatorCleanupCurvesGeoNodes scene
  pure [("text_files_check", e1), ("armature_pose_position_check", e2),
        ("hips_bone_relations_check", e3), ("bone_rotation_mode_check", e4),
        ("auto_smooth_check", e5), ("syntax_check", e6),
        ("curves_geo_nodes_check", e7)]

end WdTools

namespace WdTools

/-!
Requirement stage validators (character_validation_requirement.py).
-/

/-- x.endswith(tag) on a metadata value; a None (or other non-string) value
raises AttributeError as in Python. -/
def pyEndsWith (v : PyVal) (tag : String) : Except PyErr Bool :=
  match v with
  | .str s => .ok (strEndsWith s tag)
  | _ => .error (.attributeError "endswith")

/-- ValidatorRequirementMainPoseArmatureName (key armature_name_check): the
metadata armature name must end with BODY. -/
def validatorRequirementMainPoseArmatureName (metadata : PyVal) : Except PyErr Entry := do
  let armName ← metaBodyField metadata "armature_name"
  let ok ← pyEndsWith armName "BODY"
  pure { check := ok, message := "Wrong skeleton/armature name!" }

/-- ValidatorRequirementOneBodyArmature: at most one ARMATURE object whose
name ends with BODY. -/
def validatorRequirementOneBodyArmature (scene : Scene) : Entry :=
  let armatureObjectNames := (scene.objects.filter
    (fun o => o.type == "ARMATURE" && strEndsWith o.name "BODY")).map (fun o => o.name)
  { check := !(armatureObjectNames.length > 1),
    message := "Multiple main skeleton/armature!" }

/-- ValidatorRequirementHipsBone: the Hips entry of the metadata bone names
must be truthy. -/
def validatorRequirementHipsBone (metadata : PyVal) : Except PyErr Entry := do
  let hips ← metaBoneName metadata "Hips"
  pure { check := pyTruthy hips, message := "Hips bone not found!" }

/-- The polygon counter of ValidatorRequirementPolyCount.get(): the faces of
the evaluated bmesh of every MESH object present in the first view layer,
summed. -/
def polyCountSum (scene : Scene) : Nat :=
  (scene.objects.filter
    (fun o => o.type == "MESH" && scene.viewLayerObjects.contains o.name)).foldl
    (fun acc o => acc + o.evalPolyCount) 0

/-- The polygon budget of ValidatorRequirementPolyCount. -/
def polyCountLimit : Nat := 1500000

/-- ValidatorRequirementPolyCount (key poly_count_check): fails when the
summed count exceeds the budget. -/
def validatorRequirementPolyCount (scene : Scene) : Entry :=
  { check := !(polyCountSum scene > polyCountLimit),
    message := "Poly count limit exceeded!" }

/-- The hair strand counter of ValidatorRequirementHairStrandCount.get():
particle counts (times the rendered child count when children are enabled)
plus the curve counts of CURVES objects with NODES modifiers. -/
def particleCountSum (scene : Scene) : Int :=
  scene.objects.foldl (fun acc o =>
    o.modifiers.foldl (fun acc2 m =>
      let acc3 :=
        if m.type == "PARTICLE_SYSTEM" then
          let pc :=
            if m.particleSettings.childType != "NONE" &&
               m.particleSettings.renderedChildCount > 0 then
              m.particleSettings.count * m.particleSettings.renderedChildCount
            else m.particleSettings.count
          acc2 + pc
        else acc2
      if o.type == "CURVES" && m.type == "NODES" then acc3 + o.curvesCount else acc3)
      acc) 0

/-- The hair strand budget of ValidatorRequirementHairStrandCount. -/
def particleCountLimit : Int := 100000

/-- ValidatorRequirementHairStrandCount (key particle_count_check). -/
def validatorRequirementHairStrandCount (scene : Scene) : Entry :=
  { check := !(particleCountSum scene > particleCountLimit),
    message := "Hair strand limit exceeded!" }

/-- The allowed texture formats of ValidatorRequirementTextureFilesExist. -/
def allowedFormats : List String := ["jpg", "jpeg", "png", "tif", "tiff", "exr"]

/-- file_name.split(.)[-1], the extension taken for the format filter. -/
def lastDotPart (s : String) : String :=
  (splitOnChar '.' s).getLastD s

/-- os.path.basename for the posix paths of this code: the part after the
last slash. -/
def pyBasename (s : String) : String :=
  (splitOnChar '/' s).getLastD s

/-- The UDIM substitution re.sub of an underscore, four digits, underscore
group by the UDIM tag, scanning left to right without overlap. -/
def udimSubAux : List Char → List Char
  | [] => []
  | '_' :: a :: b :: d :: e :: '_' :: tail =>
    if a.isDigit && b.isDigit && d.isDigit && e.isDigit then
      '_' :: '<' :: 'U' :: 'D' :: 'I' :: 'M' :: '>' :: '_' :: udimSubAux tail
    else
      '_' :: udimSubAux (a :: b :: d :: e :: '_' :: tail)
  | c :: rest => c :: udimSubAux rest

/-- String form of the UDIM substitution. -/
def udimSub (s : String) : String :=
  String.mk (udimSubAux s.toList)

/-- ValidatorRequirementTextureFilesExist.get(): the texture files on disk
with an allowed extension, their names and UDIM-collapsed names, and every
used unpacked non-ignored image whose file name is in neither list. -/
def missingTextures (scene : Scene) : List String :=
  let texturePaths := scene.textureFiles.filter
    (fun df => allowedFormats.contains (lastDotPart df.2))
  let textureNames := texturePaths.map (fun df => pyBasename (df.1 ++ "/" ++ df.2))
  let textureNamesUdim := textureNames.map udimSub
  let ignoreImages := ["Render Result", "Viewer Node"] ++
    (if scene.hasWorld then scene.worldEnvImages else [])
  (scene.images.filter (fun img =>
    let textureName := pyBasename (backslashesToSlashes img.filepath)
    !(img.users == 0) && !img.packed && !(ignoreImages.contains img.name) &&
      !(textureNamesUdim.contains textureName) && !(textureNames.contains textureName))).map
    (fun img => pyBasename (backslashesToSlashes img.filepath))

/-- ValidatorRequirementTextureFilesExist (key texture_files_check). -/
def validatorRequirementTextureFilesExist (scene : Scene) : Entry :=
  let missing := missingTextures scene
  if missing.isEmpty then
    { check := true, message := "Missing or unsupported texture files detected!" }
  else
    { check := false,
      message := "Missing or unsupported texture files detected!" ++ "\n" ++
        "Missing or unsupported texture files: " ++ joinComma missing }

/-- ValidatorRequirementMainFaceMeshName (key face_name_check): the metadata
face mesh name must end with FACE. -/
def validatorRequirementMainFaceMeshName (metadata : PyVal) : Except PyErr Entry := do
  let meshName ← metaFaceField metadata "mesh_name"
  let ok ← pyEndsWith meshName "FACE"
  pure { check := ok, message := "Wrong face mesh name!" }

/-- ValidatorRequirementBlendshapes.get(): looks up the face mesh object,
returns the empty list when its mesh data has no shape keys, and otherwise
the truthy metadata blendshape values after the first (Basis) entry.  The
object lookup itself is dereferenced without a None guard. -/
def blendshapesGet (scene : Scene) (metadata : PyVal) : Except PyErr (List PyVal) := do
  let meshName ← metaFaceField metadata "mesh_name"
  let meshOpt ← objectsGet scene meshName
  match meshOpt with
  | Option.none => throw (.attributeError "NoneType has no attribute data")
  | Option.some meshObj =>
    if !meshObj.hasShapeKeys then
      pure []
    else do
      let face ← pyIndex metadata "face"
      let bs ← pyIndex face "blendshape_names"
      match bs with
      | .dict entries => pure (((entries.map (fun kv => kv.2)).drop 1).filter pyTruthy)
      | _ => throw (.attributeError "values")

/-- ValidatorRequirementBlendshapes (key blendshapes_check): passes when the
gathered list is nonempty. -/
def validatorRequirementBlendshapes (scene : Scene) (metadata : PyVal) :
    Except PyErr Entry := do
  let blendshapes ← blendshapesGet scene metadata
  if blendshapes.isEmpty then
    pure { check := false, message := "No valid blendshapes!" }
  else
    pure { check := true, message := "No valid blendshapes!" }

/-- ValidatorRequirementOneFaceMesh: at most one MESH object whose name ends
with FACE. -/
def validatorRequirementOneFaceMesh (scene : Scene) : Entry :=
  let names := (scene.objects.filter
    (fun o => o.type == "MESH" && strEndsWith o.name "FACE")).map (fun o => o.name)
  { check := !(names.length > 1), message := "Multiple main face meshes!" }

/-- ValidatorRequirement.__call__: the six unconditional requirement
validators in source order, then, when the metadata face mesh name is
truthy, the three face validators. -/
def validatorRequirementCall (scene : Scene) (metadata : PyVal) :
    Except PyErr Report := do
  let e1 ← validatorRequirementMainPoseArmatureName metadata
  let e2 := validatorRequirementOneBodyArmature scene
  let e3 ← validatorRequirementHipsBone metadata
  let e4 := validatorRequirementPolyCount scene
  let e5 := validatorRequirementHairStrandCount scene
  let e6 := validatorRequirementTextureFilesExist scene
  let base := [("armature_name_check", e1), ("one_body_armature_check", e2),
               ("hips_bone_check", e3), ("poly_count_check", e4),
               ("particle_count_check", e5), ("texture_files_check", e6)]
  let meshName ← metaFaceField metadata "mesh_name"
  if pyTruthy meshName then do
    let e7 ← validatorRequirementMainFaceMeshName metadata
    let e8 ← validatorRequirementBlendshapes scene metadata
    let e9 := validatorRequirementOneFaceMesh scene
    pure (base ++ [("face_name_check", e7), ("blendshapes_check", e8),
                   ("one_face_mesh_check", e9)])
  else
    pure base

end WdTools

namespace WdTools

/-!
The orchestrator (addon_helper.validate_character) and its surroundings.
-/

/-- The add-on version data of addon_static.py (BLENDER_ADDON_VERSION,
imported by addon_helper under the name blender_addon_version). -/
def blenderAddonVersion : Nat × Nat × Nat := (1, 2, 3)

/-- addon_version_tuple_to_str: the dot joined string of the version
tuple. -/
def addonVersionTupleToStr (version : Nat × Nat × Nat) : String :=
  String.intercalate "." [toString version.1, toString version.2.1, toString version.2.2]

/-- The per-session state of ValidatorProperties that the embedded functions
read and write: the metadata dict and the four report stores plus the
cleanup_required flag. -/
structure Props where
  metadata : PyVal
  validationMetadataMessage : Report
  validationCleanupMessages : Report
  validationFailMessages : Report
  validationWarningMessages : Report
  cleanupRequired : Bool
deriving DecidableEq, Repr

/-- Modelled from the spec: the file character_validation_metadata.py
(class ValidatorMetadata) is not under src/; only its callers are.  Spec
section 4.3 item 1 describes the Metadata stage as validating
CharacterMetadata structurally and by value domain using TypeValidator
against the stored metadata plus the current add-on version, reporting
exactly one aggregate entry keyed by schema validity.  The entry check is
modelled as success of CharacterMetadata construction on the stored
metadata dict; the add-on version argument only feeds the version text and
does not change pass or fail of a well formed metadata dict, so it is
unused here. -/
def validatorMetadata (metadata : PyVal) (_currentAddonVersion : String) : Report :=
  match metadata with
  | .dict kvs =>
    match constructCharacterMetadata kvs with
    | .ok _ => [("metadata_check", { check := true, message := "Metadata is valid." })]
    | .error _ => [("metadata_check", { check := false, message := "Metadata is not valid." })]
  | _ => [("metadata_check", { check := false, message := "Metadata is not valid." })]

/-- The extra texture message of blender_specific_messages: appended to the
texture_files_check entry when that key is present (text abbreviated from
text_static.TEXTURE_FILES_EXTEND_STR). -/
def textureFilesExtendStr : String := "\n" ++ "Check the texture documentation."

/-- blender_specific_messages: extends the texture_files_check message when
the key exists in the stored report. -/
def blenderSpecificMessages (report : Report) : Report :=
  if (report.lookup "texture_files_check").isSome then
    report.map (fun kv =>
      if kv.1 = "texture_files_check" then
        (kv.1, { kv.2 with message := kv.2.message ++ textureFilesExtendStr })
      else kv)
  else report

/-- Embeds addon_helper.validate_character.  Stage order: metadata, cleanup,
requirement, warning; each stage report is stored in the properties and a
failing entry ends the run with the stage tag.  The save_file, mode_set and
select_all side effects at the top touch no state any embedded validator
reads and are not modelled.

The warning stage is unreachable as a report: the source line 331 calls
ValidatorWarning()(metadata) while ValidatorWarning.__call__ is declared
with the two required positional parameters (metadata, toggle_usd)
(character_validation_warning.py line 27), so Python raises TypeError at
the call itself whenever the first three stages pass. -/
def validateCharacter (scene : Scene) (props : Props) : Except PyErr (String × Props) :=
  let props1 := { props with
    validationMetadataMessage := [], validationCleanupMessages := [],
    validationFailMessages := [], validationWarningMessages := [] }
  let metaReport := validatorMetadata props1.metadata
    (addonVersionTupleToStr blenderAddonVersion)
  let props2 := { props1 with validationMetadataMessage := metaReport }
  if metaReport.any (fun kv => !kv.2.check) then .ok ("metadata", props2)
  else
    match validatorCleanupCall scene props2.metadata with
    | .error e => .error e
    | .ok cleanupReport =>
      let props3 := { props2 with validationCleanupMessages := cleanupReport }
      if cleanupReport.any (fun kv => !kv.2.check) then
        .ok ("cleanup", { props3 with cleanupRequired := true })
      else
        match validatorRequirementCall scene props3.metadata with
        | .error e => .error e
        | .ok failReport =>
          let props4 := { props3 with
            validationFailMessages := blenderSpecificMessages failReport }
          if failReport.any (fun kv => !kv.2.check) then .ok ("fail", props4)
          else
            .error (.typeError
              "ValidatorWarning.__call__ missing 1 required positional argument toggle_usd")

end WdTools

namespace WdTools

/-!
The cleanup executor (addon_helper.cleanup_character).  The remedial
mutations are recorded as an action trace; each action names the cleanup
static method invoked, with the arguments the source passes.
-/

/-- rfind of a character: index of its last occurrence. -/
def pyRFind (cs : List Char) (c : Char) : Option Nat :=
  match cs.reverse.findIdx? (fun x => x = c) with
  | Option.some j => Option.some (cs.length - 1 - j)
  | Option.none => Option.none

/-- pathlib Path(p).stem: the final path component without its suffix (the
suffix is the part from the last dot when that dot is neither leading nor
trailing in the component). -/
def pathStem (p : String) : String :=
  let name := (splitOnChar '/' p).getLastD p
  let cs := name.toList
  match pyRFind cs '.' with
  | Option.some i =>
    if 0 < i ∧ i < cs.length - 1 then String.mk (cs.take i) else name
  | Option.none => name

/-- pathlib Path(p).parent / child rendered as a string: the directory part
of p joined with child (a bare file name has parent dot, which joining
drops). -/
def pathParentJoin (p : String) (child : String) : String :=
  match pyRFind p.toList '/' with
  | Option.none => child
  | Option.some i =>
    if i = 0 then "/" ++ child
    else String.mk (p.toList.take i) ++ "/" ++ child

/-- The backup destination of cleanup_character:
file_path.parent/(file_path.stem + _backup.blend). -/
def backupDest (p : String) : String :=
  pathParentJoin p (pathStem p ++ "_backup.blend")

/-- The effects of cleanup_character, in execution order: the shutil file
copy and the cleanup static methods with the arguments the source passes
(save_file and the UI normalisation calls are not remedial mutations and
are not traced). -/
inductive CleanupAction where
  | copyFile (src dst : String)
  | textFilesCleanup
  | armaturePosePositionCleanup (armatureName : PyVal)
  | hipsBoneRelationsCleanup (armatureName hipsName : PyVal)
  | boneRotationModeCleanup (armatureName : PyVal)
  | transformsCleanup
  | autoSmoothCleanup
  | objectNamingCleanup
  | curvesGeoNodesCleanup
deriving DecidableEq, Repr

/-- Embeds addon_helper.cleanup_character as an action trace.  The stored
cleanup report maps each key to a check/message dict; such a dict is
nonempty, hence truthy, so validation_cleanup_messages.get(key) is truthy
exactly when the key is present, whatever its check flag says.  Metadata
subscripts evaluated for the cleanup arguments can raise KeyError or
TypeError, which aborts the run with the actions so far. -/
def cleanupCharacter (scene : Scene) (props : Props) :
    List CleanupAction × Except PyErr Unit :=
  let msgs := props.validationCleanupMessages
  let acc0 : List CleanupAction :=
    [.copyFile scene.filepath (backupDest scene.filepath)]
  let acc1 := if (msgs.lookup "text_files_check").isSome then
    acc0 ++ [.textFilesCleanup] else acc0
  match (if (msgs.lookup "armature_pose_position_check").isSome then
          (metaBodyField props.metadata "armature_name").map Option.some
         else .ok Option.none) with
  | .error e => (acc1, .error e)
  | .ok armOpt1 =>
    let acc2 := match armOpt1 with
      | Option.some a => acc1 ++ [.armaturePosePositionCleanup a]
      | Option.none => acc1
    match (if (msgs.lookup "hips_bone_relations_check").isSome then
            (do
              let a ← metaBodyField props.metadata "armature_name"
              let h ← metaBoneName props.metadata "Hips"
              pure (Option.some (a, h)))
           else .ok Option.none) with
    | .error e => (acc2, .error e)
    | .ok hipsOpt =>
      let acc3 := match hipsOpt with
        | Option.some ah => acc2 ++ [.hipsBoneRelationsCleanup ah.1 ah.2]
        | Option.none => acc2
      match (if (msgs.lookup "bone_rotation_mode_check").isSome then
              (metaBodyField props.metadata "armature_name").map Option.some
             else .ok Option.none) with
      | .error e => (acc3, .error e)
      | .ok armOpt2 =>
        let acc4 := match armOpt2 with
          | Option.some a => acc3 ++ [.boneRotationModeCleanup a]
          | Option.none => acc3
        let acc5 := if (msgs.lookup "transforms_check").isSome then
          acc4 ++ [.transformsCleanup] else acc4
        let acc6 := if (msgs.lookup "auto_smooth_check").isSome then
          acc5 ++ [.autoSmoothCleanup] else acc5
        let acc7 := if (msgs.lookup "syntax_check").isSome then
          acc6 ++ [.objectNamingCleanup] else acc6
        let acc8 := if (msgs.lookup "curves_geo_nodes_check").isSome then
          acc7 ++ [.curvesGeoNodesCleanup] else acc7
        (acc8, .ok ())

end WdTools

namespace WdTools

/-!
Bone naming conventions (addon_static.py) and the auto assignment
(addon_helper.auto_assign_bone_names).
-/

/-- Table standard_bone_names from addon_static.py (52 entries). -/
def standard_bone_names : List String := [
  "Hips",
  "LeftUpLeg",
  "RightUpLeg",
  "Spine",
  "LeftLeg",
  "RightLeg",
  "Spine1",
  "LeftFoot",
  "RightFoot",
  "Spine2",
  "LeftToeBase",
  "RightToeBase",
  "Neck",
  "LeftShoulder",
  "RightShoulder",
  "Head",
  "LeftArm",
  "RightArm",
  "LeftForeArm",
  "RightForeArm",
  "LeftHand",
  "RightHand",
  "LeftHandIndex1",
  "LeftHandIndex2",
  "LeftHandIndex3",
  "LeftHandMiddle1",
  "LeftHandMiddle2",
  "LeftHandMiddle3",
  "LeftHandPinky1",
  "LeftHandPinky2",
  "LeftHandPinky3",
  "LeftHandRing1",
  "LeftHandRing2",
  "LeftHandRing3",
  "LeftHandThumb1",
  "LeftHandThumb2",
  "LeftHandThumb3",
  "RightHandIndex1",
  "RightHandIndex2",
  "RightHandIndex3",
  "RightHandMiddle1",
  "RightHandMiddle2",
  "RightHandMiddle3",
  "RightHandPinky1",
  "RightHandPinky2",
  "RightHandPinky3",
  "RightHandRing1",
  "RightHandRing2",
  "RightHandRing3",
  "RightHandThumb1",
  "RightHandThumb2",
  "RightHandThumb3"
]

/-- Table quickRig_bone_names from addon_static.py (52 entries). -/
def quickRig_bone_names : List String := [
  "QuickRigCharacter_Hips",
  "QuickRigCharacter_LeftUpLeg",
  "QuickRigCharacter_RightUpLeg",
  "QuickRigCharacter_Spine",
  "QuickRigCharacter_LeftLeg",
  "QuickRigCharacter_RightLeg",
  "QuickRigCharacter_Spine1",
  "QuickRigCharacter_LeftFoot",
  "QuickRigCharacter_RightFoot",
  "QuickRigCharacter_Spine2",
  "QuickRigCharacter_LeftToeBase",
  "QuickRigCharacter_RightToeBase",
  "QuickRigCharacter_Neck",
  "QuickRigCharacter_LeftShoulder",
  "QuickRigCharacter_RightShoulder",
  "QuickRigCharacter_Head",
  "QuickRigCharacter_LeftArm",
  "QuickRigCharacter_RightArm",
  "QuickRigCharacter_LeftForeArm",
  "QuickRigCharacter_RightForeArm",
  "QuickRigCharacter_LeftHand",
  "QuickRigCharacter_RightHand",
  "QuickRigCharacter_LeftHandIndex1",
  "QuickRigCharacter_LeftHandIndex2",
  "QuickRigCharacter_LeftHandIndex3",
  "QuickRigCharacter_LeftHandMiddle1",
  "QuickRigCharacter_LeftHandMiddle2",
  "QuickRigCharacter_LeftHandMiddle3",
  "QuickRigCharacter_LeftHandPinky1",
  "QuickRigCharacter_LeftHandPinky2",
  "QuickRigCharacter_LeftHandPinky3",
  "QuickRigCharacter_LeftHandRing1",
  "QuickRigCharacter_LeftHandRing2",
  "QuickRigCharacter_LeftHandRing3",
  "QuickRigCharacter_LeftHandThumb1",
  "QuickRigCharacter_LeftHandThumb2",
  "QuickRigCharacter_LeftHandThumb3",
  "QuickRigCharacter_RightHandIndex1",
  "QuickRigCharacter_RightHandIndex2",
  "QuickRigCharacter_RightHandIndex3",
  "QuickRigCharacter_RightHandMiddle1",
  "QuickRigCharacter_RightHandMiddle2",
  "QuickRigCharacter_RightHandMiddle3",
  "QuickRigCharacter_RightHandPinky1",
  "QuickRigCharacter_RightHandPinky2",
  "QuickRigCharacter_RightHandPinky3",
  "QuickRigCharacter_RightHandRing1",
  "QuickRigCharacter_RightHandRing2",
  "QuickRigCharacter_RightHandRing3",
  "QuickRigCharacter_RightHandThumb1",
  "QuickRigCharacter_RightHandThumb2",
  "QuickRigCharacter_RightHandThumb3"
]

/-- Table unrealEngine_bone_names from addon_static.py (52 entries). -/
def unrealEngine_bone_names : List String := [
  "pelvis",
  "thigh_l",
  "thigh_r",
  "spine_03",
  "calf_l",
  "calf_r",
  "spine_04",
  "foot_l",
  "foot_r",
  "spine_05",
  "ball_l",
  "ball_r",
  "neck_01",
  "clavicle_l",
  "clavicle_r",
  "head",
  "upperarm_l",
  "upperarm_r",
  "lowerarm_l",
  "lowerarm_r",
  "hand_l",
  "hand_r",
  "index_01_l",
  "index_02_l",
  "index_03_l",
  "middle_01_l",
  "middle_02_l",
  "middle_03_l",
  "pinky_01_l",
  "pinky_02_l",
  "pinky_03_l",
  "ring_01_l",
  "ring_02_l",
  "ring_03_l",
  "thumb_01_l",
  "thumb_02_l",
  "thumb_03_l",
  "index_01_r",
  "index_02_r",
  "index_03_r",
  "middle_01_r",
  "middle_02_r",
  "middle_03_r",
  "pinky_01_r",
  "pinky_02_r",
  "pinky_03_r",
  "ring_01_r",
  "ring_02_r",
  "ring_03_r",
  "thumb_01_r",
  "thumb_02_r",
  "thumb_03_r"
]

/-- Table daz3d_bone_names from addon_static.py (52 entries). -/
def daz3d_bone_names : List String := [
  "hip",
  "lThigh",
  "rThigh",
  "abdomen",
  "lShin",
  "rShin",
  "abdomen2",
  "lFoot",
  "rFoot",
  "chest",
  "lToe",
  "rToe",
  "neck",
  "lCollar",
  "rCollar",
  "head",
  "lShldr",
  "rShldr",
  "lForeArm",
  "rForeArm",
  "lHand",
  "rHand",
  "lIndex1",
  "lIndex2",
  "lIndex3",
  "lMid1",
  "lMid2",
  "lMid3",
  "lPinky1",
  "lPinky2",
  "lPinky3",
  "lRing1",
  "lRing2",
  "lRing3",
  "lThumb1",
  "lThumb2",
  "lThumb3",
  "rIndex1",
  "rIndex2",
  "rIndex3",
  "rMid1",
  "rMid2",
  "rMid3",
  "rPinky1",
  "rPinky2",
  "rPinky3",
  "rRing1",
  "rRing2",
  "rRing3",
  "rThumb1",
  "rThumb2",
  "rThumb3"
]

/-- Table characterCreator4_bone_names from addon_static.py (52 entries). -/
def characterCreator4_bone_names : List String := [
  "CC_Base_Hip",
  "CC_Base_L_Thigh",
  "CC_Base_R_Thigh",
  "CC_Base_Waist",
  "CC_Base_L_Calf",
  "CC_Base_R_Calf",
  "CC_Base_Spine01",
  "CC_Base_L_Foot",
  "CC_Base_R_Foot",
  "CC_Base_Spine02",
  "CC_Base_L_ToeBase",
  "CC_Base_R_ToeBase",
  "CC_Base_NeckTwist01",
  "CC_Base_L_Clavicle",
  "CC_Base_R_Clavicle",
  "CC_Base_Head",
  "CC_Base_L_Upperarm",
  "CC_Base_R_Upperarm",
  "CC_Base_L_Forearm",
  "CC_Base_R_Forearm",
  "CC_Base_L_Hand",
  "CC_Base_R_Hand",
  "CC_Base_L_Index1",
  "CC_Base_L_Index2",
  "CC_Base_L_Index3",
  "CC_Base_L_Mid1",
  "CC_Base_L_Mid2",
  "CC_Base_L_Mid3",
  "CC_Base_L_Pinky1",
  "CC_Base_L_Pinky2",
  "CC_Base_L_Pinky3",
  "CC_Base_L_Ring1",
  "CC_Base_L_Ring2",
  "CC_Base_L_Ring3",
  "CC_Base_L_Thumb1",
  "CC_Base_L_Thumb2",
  "CC_Base_L_Thumb3",
  "CC_Base_R_Index1",
  "CC_Base_R_Index2",
  "CC_Base_R_Index3",
  "CC_Base_R_Mid1",
  "CC_Base_R_Mid2",
  "CC_Base_R_Mid3",
  "CC_Base_R_Pinky1",
  "CC_Base_R_Pinky2",
  "CC_Base_R_Pinky3",
  "CC_Base_R_Ring1",
  "CC_Base_R_Ring2",
  "CC_Base_R_Ring3",
  "CC_Base_R_Thumb1",
  "CC_Base_R_Thumb2",
  "CC_Base_R_Thumb3"
]

/-- Table rigify_bone_names from addon_static.py (52 entries). -/
def rigify_bone_names : List String := [
  "torso",
  "thigh_fk.L",
  "thigh_fk.R",
  "",
  "shin_fk.L",
  "shin_fk.R",
  "spine_fk.002",
  "foot_fk.L",
  "foot_fk.R",
  "spine_fk.003",
  "toe_fk.L",
  "toe_fk.R",
  "neck",
  "shoulder.L",
  "shoulder.R",
  "head",
  "upper_arm_fk.L",
  "upper_arm_fk.R",
  "forearm_fk.L",
  "forearm_fk.R",
  "hand_fk.L",
  "hand_fk.R",
  "f_index.01.L",
  "f_index.02.L",
  "f_index.03.L",
  "f_middle.01.L",
  "f_middle.02.L",
  "f_middle.03.L",
  "f_pinky.01.L",
  "f_pinky.02.L",
  "f_pinky.03.L",
  "f_ring.01.L",
  "f_ring.02.L",
  "f_ring.03.L",
  "thumb.01.L",
  "thumb.02.L",
  "thumb.03.L",
  "f_index.01.R",
  "f_index.02.R",
  "f_index.03.R",
  "f_middle.01.R",
  "f_middle.02.R",
  "f_middle.03.R",
  "f_pinky.01.R",
  "f_pinky.02.R",
  "f_pinky.03.R",
  "f_ring.01.R",
  "f_ring.02.R",
  "f_ring.03.R",
  "thumb.01.R",
  "thumb.02.R",
  "thumb.03.R"
]

/-- Table blenRig_bone_names from addon_static.py (52 entries). -/
def blenRig_bone_names : List String := [
  "master_torso",
  "thigh_fk_L",
  "thigh_fk_R",
  "spine_1_fk",
  "shin_fk_L",
  "shin_fk_R",
  "spine_2_fk",
  "foot_fk_L",
  "foot_fk_R",
  "spine_3_fk",
  "foot_toe_1_fk_L",
  "foot_toe_1_fk_R",
  "neck_fk_ctrl",
  "shoulder_L",
  "shoulder_R",
  "head_fk",
  "arm_fk_L",
  "arm_fk_R",
  "forearm_fk_L",
  "forearm_fk_R",
  "hand_fk_L",
  "hand_fk_R",
  "fing_ind_2_L",
  "fing_ind_3_L",
  "fing_ind_4_L",
  "fing_mid_2_L",
  "fing_mid_3_L",
  "fing_mid_4_L",
  "fing_lit_2_L",
  "fing_lit_3_L",
  "fing_lit_4_L",
  "fing_ring_2_L",
  "fing_ring_3_L",
  "fing_ring_4_L",
  "fing_thumb_1_L",
  "fing_thumb_2_L",
  "fing_thumb_3_L",
  "fing_ind_2_R",
  "fing_ind_3_R",
  "fing_ind_4_R",
  "fing_mid_2_R",
  "fing_mid_3_R",
  "fing_mid_4_R",
  "fing_lit_2_R",
  "fing_lit_3_R",
  "fing_lit_4_R",
  "fing_ring_2_R",
  "fing_ring_3_R",
  "fing_ring_4_R",
  "fing_thumb_1_R",
  "fing_thumb_2_R",
  "fing_thumb_3_R"
]

/-- Table autoRigPro_bone_names from addon_static.py (52 entries). -/
def autoRigPro_bone_names : List String := [
  "c_root_master.x",
  "c_thigh_fk.l",
  "c_thigh_fk.r",
  "c_spine_01.x",
  "c_leg_fk.l",
  "c_leg_fk.r",
  "c_spine_02.x",
  "c_foot_fk.l",
  "c_foot_fk.r",
  "c_spine_03.x",
  "c_toes_fk.l",
  "c_toes_fk.r",
  "c_neck_master.x",
  "c_shoulder.l",
  "c_shoulder.r",
  "c_head.x",
  "c_arm_fk.l",
  "c_arm_fk.r",
  "c_forearm_fk.l",
  "c_forearm_fk.r",
  "c_hand_fk.l",
  "c_hand_fk.r",
  "c_index1.l",
  "c_index2.l",
  "c_index3.l",
  "c_middle1.l",
  "c_middle2.l",
  "c_middle3.l",
  "c_pinky1.l",
  "c_pinky2.l",
  "c_pinky3.l",
  "c_ring1.l",
  "c_ring2.l",
  "c_ring3.l",
  "c_thumb1.l",
  "c_thumb2.l",
  "c_thumb3.l",
  "c_index1.r",
  "c_index2.r",
  "c_index3.r",
  "c_middle1.r",
  "c_middle2.r",
  "c_middle3.r",
  "c_pinky1.r",
  "c_pinky2.r",
  "c_pinky3.r",
  "c_ring1.r",
  "c_ring2.r",
  "c_ring3.r",
  "c_thumb1.r",
  "c_thumb2.r",
  "c_thumb3.r"
]

/-- Table all_supported_bone_names from addon_static.py, in dict insertion order. -/
def all_supported_bone_names : List (String × List String) := [
  ("Flow-Studio,-Mixamo,-Human-IK_bone_names", standard_bone_names),
  ("Quick-Rig_bone_names", quickRig_bone_names),
  ("Character-Creator-4_bone_names", characterCreator4_bone_names),
  ("Daz-3D_bone_names", daz3d_bone_names),
  ("Unreal-Engine_bone_names", unrealEngine_bone_names),
  ("BlenRig_bone_names", blenRig_bone_names),
  ("Rigify_bone_names", rigify_bone_names),
  ("Auto-Rig-Pro_bone_names", autoRigPro_bone_names)
]


/-- bone_name.split(colon)[-1]: the part after the last colon, the whole
name when there is none. -/
def stripColonLast (s : String) : String :=
  (splitOnChar ':' s).getLastD s

/-- The convention selection loop of auto_assign_bone_names: the first
convention, in dict insertion order, whose first entry equals the
colon-stripped name of some bone of the armature (the inner loop breaks at
the first such bone; which bone matched does not affect the selection). -/
def boneConventionLoop (boneNames : List String) :
    List (String × List String) → Option (String × List String)
  | [] => Option.none
  | (key, names) :: rest =>
    if boneNames.any (fun b => stripColonLast b == names.headD "") then
      Option.some (key, names)
    else boneConventionLoop boneNames rest

/-- The assignment loop of auto_assign_bone_names: slot i is first cleared
and then set to each bone whose stripped name equals the convention entry,
so the last matching bone wins; a convention longer than the bone selector
collection would raise IndexError. -/
def assignBones (boneNames : List String) :
    List String → Nat → List String → Except PyErr (List String)
  | collection, _, [] => .ok collection
  | collection, i, name :: rest =>
    if i < collection.length then
      let v := boneNames.foldl (fun acc b => if stripColonLast b == name then b else acc) ""
      assignBones boneNames (collection.set i v) (i + 1) rest
    else .error (.indexError "bone_selector_collection index out of range")

/-- Embeds addon_helper.auto_assign_bone_names: looks up the armature,
selects a convention by boneConventionLoop over the pose bone names, and
rewrites the bone selector collection; when the armature is missing or no
convention matches, an error is reported and the collection is untouched.
The result carries the new collection and the selected convention key, if
any. -/
def autoAssignBoneNames (scene : Scene) (targetArmName : String)
    (collection : List String) :
    Except PyErr (List String × Option String) :=
  match scene.objects.find? (fun o => o.name = targetArmName) with
  | Option.none => .ok (collection, Option.none)
  | Option.some armature =>
    let boneNames := armature.poseBones.map (fun b => b.name)
    match boneConventionLoop boneNames all_supported_bone_names with
    | Option.none => .ok (collection, Option.none)
    | Option.some conv =>
      match assignBones boneNames collection 0 conv.2 with
      | .error e => .error e
      | .ok newCollection => .ok (newCollection, Option.some conv.1)

end WdTools

namespace WdTools

/-!
The IK chain walk of the warning stage
(ValidatorWarningMissingIKChains.check_ik_chain).
-/

/-- The while loop of check_ik_chain: walk up the parent chain of the
target bone; succeed when the parent is the root bone.  Bone objects are
compared by name (bone names are unique within an armature).  The source
loop would run forever on a cyclic parent relation; the fuel argument
bounds the walk, and bones.length steps suffice for every acyclic armature
(theorem below). -/
def ikWalk (bones : List PoseBone) (rootOpt : Option PoseBone) :
    Nat → PoseBone → Bool
  | 0, _ => false
  | fuel + 1, tb =>
    match tb.parent with
    | Option.none => false
    | Option.some pname =>
      match rootOpt with
      | Option.some rb =>
        if pname = rb.name then true
        else
          match bones.find? (fun b => b.name = pname) with
          | Option.some pb => ikWalk bones rootOpt fuel pb
          | Option.none => false
      | Option.none =>
        -- root bone missing: the comparison parent == None is never true
        match bones.find? (fun b => b.name = pname) with
        | Option.some pb => ikWalk bones rootOpt fuel pb
        | Option.none => false

/-- Embeds check_ik_chain(armature_name, root_bone_name, target_bone_name):
armature and target lookups are dereferenced without None guards (an absent
armature or target raises AttributeError); an absent root gives root_bone
None and the walk can only fail. -/
def checkIkChain (scene : Scene) (armatureName rootBoneName targetBoneName : String) :
    Except PyErr Bool :=
  match scene.objects.find? (fun o => o.name = armatureName) with
  | Option.none => .error (.attributeError "NoneType has no attribute pose")
  | Option.some armature =>
    let rootOpt := armature.poseBones.find? (fun b => b.name = rootBoneName)
    match armature.poseBones.find? (fun b => b.name = targetBoneName) with
    | Option.none => .error (.attributeError "NoneType has no attribute parent")
    | Option.some targetBone =>
      .ok (ikWalk armature.poseBones rootOpt armature.poseBones.length targetBone)

end WdTools

namespace WdTools

/-!
Concrete inputs used by the claim witnesses and counterexamples.
-/

/-- The bone role keys, read off the schema. -/
def bodyBoneKeys : List String := metadataBodyBonesFields.map (fun f => f.1)

/-- The blendshape role keys, read off the schema. -/
def faceBlendshapeKeys : List String := metadataFaceBlendshapesFields.map (fun f => f.1)

/-- A bone names dict assigning only Hips. -/
def validBoneNamesDict : PyVal :=
  .dict (bodyBoneKeys.map (fun k => (k, if k = "Hips" then PyVal.str "Hips" else PyVal.none)))

/-- A blendshape names dict assigning nothing. -/
def emptyBlendshapeNamesDict : PyVal :=
  .dict (faceBlendshapeKeys.map (fun k => (k, PyVal.none)))

/-- A schema-valid CharacterMetadata keyword dict: blender software, well
formed version, no materials, no eye rigs, an armature with only Hips
assigned, no face mesh. -/
def validMetadataKwargs : List (String × PyVal) :=
  [("software", .str "blender"), ("version", .str "1.2.3"),
   ("materials", .list []), ("eyes_rig", .list []),
   ("body", .dict [("armature_name", .str "charBODY"),
                   ("bone_names", validBoneNamesDict)]),
   ("face", .dict [("mesh_name", PyVal.none),
                   ("blendshape_names", emptyBlendshapeNamesDict)])]

/-- A schema-valid MetadataMaterialSurface keyword dict with every optional
slot None. -/
def surfaceMaterialKwargs : List (String × PyVal) :=
  metadataMaterialSurfaceFields.map (fun f =>
    (f.1,
      if f.1 = "material_name" then PyVal.str "mat"
      else if f.1 = "material_type" then PyVal.str "surface"
      else if f.1 = "mesh_names" then PyVal.list []
      else if f.1 = "render_engine" then PyVal.str "arnold"
      else if f.1 = "bump_flip" then PyVal.bool false
      else PyVal.none))

/-- validMetadataKwargs with one raw surface material dict in the materials
list. -/
def metadataKwargsOneMaterial : List (String × PyVal) :=
  validMetadataKwargs.map (fun kv =>
    if kv.1 = "materials" then ("materials", PyVal.list [.dict surfaceMaterialKwargs])
    else kv)

end WdTools

namespace WdTools

/-!
Basic lemmas about the attribute store.
-/

theorem getAttr_setAttr_self (attrs : Attrs) (n : String) (v : PyVal) :
    getAttr (setAttr attrs n v) n = Option.some v := by
  induction attrs with
  | nil => simp [setAttr, getAttr, List.lookup]
  | cons kv rest ih =>
    cases kv with
    | mk k w =>
      by_cases h : k = n
      · subst h; simp [setAttr, getAttr, List.lookup]
      · have hne : (n == k) = false := by simp [Ne.symm h]
        simp only [setAttr, h, if_false, getAttr, List.lookup, hne]
        exact ih

theorem getAttr_setAttr_ne (attrs : Attrs) (n k : String) (v : PyVal) (h : k ≠ n) :
    getAttr (setAttr attrs n v) k = getAttr attrs k := by
  induction attrs with
  | nil =>
    simp only [setAttr, getAttr, List.lookup]
    have : (k == n) = false := by simp [h]
    simp [this]
  | cons kv rest ih =>
    cases kv with
    | mk k0 w =>
      by_cases h0 : k0 = n
      · subst h0
        have : (k == k0) = false := by simp [h]
        simp [setAttr, getAttr, List.lookup, this]
      · simp only [setAttr, h0, if_false]
        simp only [getAttr, List.lookup] at ih ⊢
        by_cases hk : k == k0
        · simp [hk]
        · simp only [Bool.not_eq_true] at hk
          simp [hk, ih]

namespace TypeValidator

/-!
Congruence lemmas: the exception-or-value component of a check never
depends on the attribute store it threads, only on the value, the declared
type and the fuel (the store only accumulates setattr effects).
-/

theorem unionLoop_snd_congr (g : Attrs → FieldType → Attrs × Except PyErr PyVal)
    (hg : ∀ s s' m, (g s m).2 = (g s' m).2) :
    ∀ (ms : List FieldType) (s s' : Attrs),
      (unionLoop g s ms).2 = (unionLoop g s' ms).2 := by
  intro ms
  induction ms with
  | nil => intro s s'; rfl
  | cons m rest ih =>
    intro s s'
    simp only [unionLoop]
    have h := hg s s' m
    rcases hm : g s m with ⟨s1, r1⟩
    rcases hm' : g s' m with ⟨s1', r1'⟩
    have : r1 = r1' := by rw [← show (g s m).2 = r1 from by rw [hm]] ; rw [h, hm']
    subst this
    match r1 with
    | .ok nv => simp
    | .error (.typeError msg) => exact ih s1 s1'
    | .error (.valueError msg) => simp
    | .error (.attributeError msg) => simp
    | .error (.keyError msg) => simp
    | .error (.indexError msg) => simp

theorem listLoop_snd_congr (g : Attrs → PyVal → Attrs × Except PyErr PyVal)
    (hg : ∀ s s' x, (g s x).2 = (g s' x).2) :
    ∀ (items : List PyVal) (s s' : Attrs),
      (listLoop g s items).2 = (listLoop g s' items).2 := by
  intro items
  induction items with
  | nil => intro s s'; rfl
  | cons x rest ih =>
    intro s s'
    simp only [listLoop]
    have h := hg s s' x
    rcases hm : g s x with ⟨s1, r1⟩
    rcases hm' : g s' x with ⟨s1', r1'⟩
    have : r1 = r1' := by rw [← show (g s x).2 = r1 from by rw [hm]] ; rw [h, hm']
    subst this
    match r1 with
    | .error e => simp
    | .ok w =>
      simp only
      have h2 := ih s1 s1'
      rcases hl : listLoop g s1 rest with ⟨s2, r2⟩
      rcases hl' : listLoop g s1' rest with ⟨s2', r2'⟩
      have : r2 = r2' := by rw [← show (listLoop g s1 rest).2 = r2 from by rw [hl]] ; rw [h2, hl']
      subst this
      match r2 with
      | .error e => simp
      | .ok tail => simp

theorem stepLoop_snd_congr {A : Type} (g : Attrs → A → Attrs × Except PyErr Unit)
    (hg : ∀ s s' x, (g s x).2 = (g s' x).2) :
    ∀ (xs : List A) (s s' : Attrs),
      (stepLoop g s xs).2 = (stepLoop g s' xs).2 := by
  intro xs
  induction xs with
  | nil => intro s s'; rfl
  | cons x rest ih =>
    intro s s'
    simp only [stepLoop]
    have h := hg s s' x
    rcases hm : g s x with ⟨s1, r1⟩
    rcases hm' : g s' x with ⟨s1', r1'⟩
    have : r1 = r1' := by rw [← show (g s x).2 = r1 from by rw [hm]] ; rw [h, hm']
    subst this
    match r1 with
    | .ok u => exact ih s1 s1'
    | .error e => simp

end TypeValidator

end WdTools

namespace WdTools

namespace TypeValidator

/-- The exception-or-value component of _check_type does not depend on the
outer self: the store only receives setattr effects, it is never read by
the check logic (getattr reads go to the value under check, and dataclass
construction builds a fresh store). -/
theorem checkType_snd_indep (env : SchemaEnv) :
    ∀ (fuel : Nat) (n : String) (v : PyVal) (t : FieldType) (self self' : Attrs),
      (checkType env fuel self n v t).2 = (checkType env fuel self' n v t).2 := by
  intro fuel
  induction fuel with
  | zero => intro n v t self self'; rfl
  | succ f ih =>
    intro n v t self self'
    cases t with
    | prim p =>
      simp only [checkType]
      by_cases hp : isInstancePrim v p <;> simp [hp]
    | union members =>
      simp only [checkType]
      have hcong := unionLoop_snd_congr
        (fun s m => checkType env f s n v m)
        (fun s s' m => ih n v m s s') members self self'
      rcases h1 : unionLoop (fun s m => checkType env f s n v m) self members with ⟨s1, r1⟩
      rcases h2 : unionLoop (fun s m => checkType env f s n v m) self' members with ⟨s1', r1'⟩
      have : r1 = r1' := by
        have := hcong
        rw [h1, h2] at this
        exact this
      subst this
      match r1 with
      | .error e => simp
      | .ok found =>
        simp only
        match hf : found.getD PyVal.none, v with
        | PyVal.none, PyVal.none => simp [hf]
        | PyVal.none, PyVal.bool b => simp [hf]
        | PyVal.none, PyVal.int m => simp [hf]
        | PyVal.none, PyVal.float p => simp [hf]
        | PyVal.none, PyVal.str st => simp [hf]
        | PyVal.none, PyVal.list xs => simp [hf]
        | PyVal.none, PyVal.dict d => simp [hf]
        | PyVal.none, PyVal.obj c a => simp [hf]
        | PyVal.bool b, w => simp [hf]
        | PyVal.int m, w => simp [hf]
        | PyVal.float p, w => simp [hf]
        | PyVal.str st, w => simp [hf]
        | PyVal.list xs, w => simp [hf]
        | PyVal.dict d, w => simp [hf]
        | PyVal.obj c a, w => simp [hf]
    | listOf elemT =>
      cases v with
      | list items =>
        simp only [checkType]
        have hcong := listLoop_snd_congr
          (fun s item => checkType env f s n item elemT)
          (fun s s' x => ih n x elemT s s') items self self'
        rcases h1 : listLoop (fun s item => checkType env f s n item elemT) self items with ⟨s1, r1⟩
        rcases h2 : listLoop (fun s item => checkType env f s n item elemT) self' items with ⟨s1', r1'⟩
        have : r1 = r1' := by
          have := hcong
          rw [h1, h2] at this
          exact this
        subst this
        match r1 with
        | .error e => simp
        | .ok newItems => simp
      | none => rfl
      | bool b => rfl
      | int m => rfl
      | float p => rfl
      | str st => rfl
      | dict d => rfl
      | obj c a => rfl
    | record cls =>
      simp only [checkType]
      match henv : env cls with
      | Option.none => simp
      | Option.some rd =>
        simp only
        have hsub : ∀ (attrsV : Attrs) (s s' : Attrs) (sf : String × FieldType),
            (subFieldStep (fun s nn vv tt => checkType env f s nn vv tt) n attrsV s sf).2 =
            (subFieldStep (fun s nn vv tt => checkType env f s nn vv tt) n attrsV s' sf).2 := by
          intro attrsV s s' sf
          simp only [subFieldStep]
          match hga : getAttr attrsV sf.1 with
          | Option.none => simp
          | Option.some subVal =>
            simp only
            have hi := ih (n ++ "." ++ sf.1) subVal sf.2 s s'
            rcases hc1 : checkType env f s (n ++ "." ++ sf.1) subVal sf.2 with ⟨u1, q1⟩
            rcases hc2 : checkType env f s' (n ++ "." ++ sf.1) subVal sf.2 with ⟨u2, q2⟩
            have : q1 = q2 := by
              rw [hc1, hc2] at hi
              exact hi
            subst this
            match q1 with
            | .error e => simp
            | .ok w => simp
        cases v with
        | obj c attrsV =>
          by_cases hc : c = cls
          · simp only [hc, if_true]
            have hcong := stepLoop_snd_congr _ (hsub attrsV) rd.fields self self'
            rcases h1 : stepLoop (subFieldStep (fun s nn vv tt => checkType env f s nn vv tt)
              n attrsV) self rd.fields with ⟨s1, r1⟩
            rcases h2 : stepLoop (subFieldStep (fun s nn vv tt => checkType env f s nn vv tt)
              n attrsV) self' rd.fields with ⟨s1', r1'⟩
            have : r1 = r1' := by
              rw [h1, h2] at hcong
              exact hcong
            subst this
            match r1 with
            | .error e => simp
            | .ok u => simp
          · simp [hc]
        | dict d =>
          simp only
          match hcr : constructRecord env f cls d with
          | .error e => simp
          | .ok newObj =>
            simp only
            match newObj with
            | .obj cN attrsN =>
              simp only
              have hcong := stepLoop_snd_congr _ (hsub attrsN) rd.fields
                (setAttr self n (PyVal.obj cN attrsN)) (setAttr self' n (PyVal.obj cN attrsN))
              rcases h1 : stepLoop (subFieldStep (fun s nn vv tt => checkType env f s nn vv tt)
                n attrsN) (setAttr self n (PyVal.obj cN attrsN)) rd.fields with ⟨s1, r1⟩
              rcases h2 : stepLoop (subFieldStep (fun s nn vv tt => checkType env f s nn vv tt)
                n attrsN) (setAttr self' n (PyVal.obj cN attrsN)) rd.fields with ⟨s1', r1'⟩
              have : r1 = r1' := by
                rw [h1, h2] at hcong
                exact hcong
              subst this
              match r1 with
              | .error e => simp
              | .ok u => simp
            | .none => rfl
            | .bool b => rfl
            | .int m => rfl
            | .float p => rfl
            | .str st => rfl
            | .list xs => rfl
            | .dict dd => rfl
        | none => rfl
        | bool b => rfl
        | int m => rfl
        | float p => rfl
        | str st => rfl
        | list xs => rfl

end TypeValidator

end WdTools

namespace WdTools

namespace TypeValidator

/-- A successful list loop returns exactly the original items. -/
theorem listLoop_ok_items (g : Attrs → PyVal → Attrs × Except PyErr PyVal) :
    ∀ (items : List PyVal) (s sf : Attrs) (out : List PyVal),
      listLoop g s items = (sf, .ok out) → out = items := by
  intro items
  induction items with
  | nil => intro s sf out h; simp [listLoop] at h; exact h.2
  | cons x rest ih =>
    intro s sf out h
    simp only [listLoop] at h
    rcases hg : g s x with ⟨s1, r1⟩
    rw [hg] at h
    match r1 with
    | .error e => simp at h
    | .ok w =>
      simp only at h
      rcases hl : listLoop g s1 rest with ⟨s2, r2⟩
      rw [hl] at h
      match r2 with
      | .error e => simp at h
      | .ok tail =>
        simp only [Prod.mk.injEq, Except.ok.injEq] at h
        rw [← h.2]
        rw [ih s1 s2 tail hl]

/-- Splitting a successful sequencing loop at its head. -/
theorem stepLoop_cons_ok {A : Type} (g : Attrs → A → Attrs × Except PyErr Unit)
    (x : A) (xs : List A) (s sf : Attrs)
    (h : stepLoop g s (x :: xs) = (sf, .ok ())) :
    ∃ s1, g s x = (s1, .ok ()) ∧ stepLoop g s1 xs = (sf, .ok ()) := by
  simp only [stepLoop] at h
  rcases hg : g s x with ⟨s1, r1⟩
  rw [hg] at h
  match r1 with
  | .error e => simp at h
  | .ok u => exact ⟨s1, rfl, h⟩

/-- String prefix order used to track which attribute names a check can
touch. -/
def strIsPre (n k : String) : Prop := n.toList <+: k.toList

theorem strIsPre_refl (n : String) : strIsPre n n := List.prefix_refl _

theorem strIsPre_extend (n a : String) : strIsPre n (n ++ a) := by
  unfold strIsPre
  rw [show (n ++ a).toList = n.toList ++ a.toList from by
    simp [String.toList, String.data_append]]
  exact List.prefix_append _ _

theorem strIsPre_trans {a b c : String} (h1 : strIsPre a b) (h2 : strIsPre b c) :
    strIsPre a c := List.IsPrefix.trans h1 h2

theorem strIsPre_of_eq {n k : String} (h : k = n) : strIsPre n k := by
  subst h; exact strIsPre_refl k

/-- setattr at name n only changes the binding of n itself. -/
theorem getAttr_setAttr_not_pre (attrs : Attrs) (n k : String) (v : PyVal)
    (h : ¬ strIsPre n k) : getAttr (setAttr attrs n v) k = getAttr attrs k := by
  apply getAttr_setAttr_ne
  intro he
  exact h (strIsPre_of_eq he)

/-- The sequencing loop preserves a key that every step preserves. -/
theorem stepLoop_preserve {A : Type} (g : Attrs → A → Attrs × Except PyErr Unit)
    (k : String) (hg : ∀ s x, getAttr (g s x).1 k = getAttr s k) :
    ∀ (xs : List A) (s : Attrs), getAttr (stepLoop g s xs).1 k = getAttr s k := by
  intro xs
  induction xs with
  | nil => intro s; rfl
  | cons x rest ih =>
    intro s
    simp only [stepLoop]
    rcases hx : g s x with ⟨s1, r1⟩
    have hk : getAttr s1 k = getAttr s k := by
      have := hg s x
      rw [hx] at this
      exact this
    match r1 with
    | .ok u =>
      simp only
      rw [ih s1, hk]
    | .error e => simpa using hk

/-- The union loop preserves a key that every step preserves. -/
theorem unionLoop_preserve (g : Attrs → FieldType → Attrs × Except PyErr PyVal)
    (k : String) (hg : ∀ s m, getAttr (g s m).1 k = getAttr s k) :
    ∀ (ms : List FieldType) (s : Attrs), getAttr (unionLoop g s ms).1 k = getAttr s k := by
  intro ms
  induction ms with
  | nil => intro s; rfl
  | cons m rest ih =>
    intro s
    simp only [unionLoop]
    rcases hx : g s m with ⟨s1, r1⟩
    have hk : getAttr s1 k = getAttr s k := by
      have := hg s m
      rw [hx] at this
      exact this
    match r1 with
    | .ok nv => simpa using hk
    | .error (.typeError msg) =>
      simp only
      rw [ih s1, hk]
    | .error (.valueError msg) => simpa using hk
    | .error (.attributeError msg) => simpa using hk
    | .error (.keyError msg) => simpa using hk
    | .error (.indexError msg) => simpa using hk

/-- The list loop preserves a key that every step preserves. -/
theorem listLoop_preserve (g : Attrs → PyVal → Attrs × Except PyErr PyVal)
    (k : String) (hg : ∀ s x, getAttr (g s x).1 k = getAttr s k) :
    ∀ (items : List PyVal) (s : Attrs), getAttr (listLoop g s items).1 k = getAttr s k := by
  intro items
  induction items with
  | nil => intro s; rfl
  | cons x rest ih =>
    intro s
    simp only [listLoop]
    rcases hx : g s x with ⟨s1, r1⟩
    have hk : getAttr s1 k = getAttr s k := by
      have := hg s x
      rw [hx] at this
      exact this
    match r1 with
    | .error e => simpa using hk
    | .ok w =>
      simp only
      rcases hl : listLoop g s1 rest with ⟨s2, r2⟩
      have hk2 : getAttr s2 k = getAttr s1 k := by
        have := ih s1
        rw [hl] at this
        exact this
      match r2 with
      | .error e => simpa using hk2.trans hk
      | .ok tail => simpa using hk2.trans hk

/-- _check_type with field name n only writes attribute names that extend
n: every other binding of the outer self survives, whether or not the
check succeeds. -/
theorem checkType_preserve (env : SchemaEnv) :
    ∀ (fuel : Nat) (n : String) (v : PyVal) (t : FieldType) (self : Attrs) (k : String),
      ¬ strIsPre n k → getAttr ((checkType env fuel self n v t).1) k = getAttr self k := by
  intro fuel
  induction fuel with
  | zero => intro n v t self k hk; rfl
  | succ f ih =>
    intro n v t self k hk
    have hkn : k ≠ n := fun he => hk (strIsPre_of_eq he)
    have hsubpre : ∀ (sub : String), ¬ strIsPre (n ++ "." ++ sub) k := by
      intro sub hp
      apply hk
      exact strIsPre_trans
        (strIsPre_trans (strIsPre_extend n ".") (strIsPre_extend (n ++ ".") sub)) hp
    have hsubstep : ∀ (attrsV : Attrs) (s : Attrs) (sf : String × FieldType),
        getAttr (subFieldStep (fun s nn vv tt => checkType env f s nn vv tt) n attrsV s sf).1 k =
        getAttr s k := by
      intro attrsV s sf
      simp only [subFieldStep]
      match hga : getAttr attrsV sf.1 with
      | Option.none => simp
      | Option.some subVal =>
        simp only
        have hi := ih (n ++ "." ++ sf.1) subVal sf.2 s k (hsubpre sf.1)
        rcases hc : checkType env f s (n ++ "." ++ sf.1) subVal sf.2 with ⟨u1, q1⟩
        rw [hc] at hi
        match q1 with
        | .error e => simpa using hi
        | .ok w => simpa using hi
    cases t with
    | prim p =>
      simp only [checkType]
      by_cases hp : isInstancePrim v p <;> simp [hp]
    | union members =>
      simp only [checkType]
      have hloop := unionLoop_preserve (fun s m => checkType env f s n v m) k
        (fun s m => ih n v m s k hk) members self
      rcases h1 : unionLoop (fun s m => checkType env f s n v m) self members with ⟨s1, r1⟩
      rw [h1] at hloop
      match r1 with
      | .error e => simpa using hloop
      | .ok found =>
        simp only
        match found.getD PyVal.none, v with
        | PyVal.none, PyVal.none =>
          simpa [getAttr_setAttr_ne _ _ _ _ hkn] using hloop
        | PyVal.none, PyVal.bool b => simpa using hloop
        | PyVal.none, PyVal.int m => simpa using hloop
        | PyVal.none, PyVal.float p => simpa using hloop
        | PyVal.none, PyVal.str st => simpa using hloop
        | PyVal.none, PyVal.list xs => simpa using hloop
        | PyVal.none, PyVal.dict d => simpa using hloop
        | PyVal.none, PyVal.obj c a => simpa using hloop
        | PyVal.bool b, w => simpa [getAttr_setAttr_ne _ _ _ _ hkn] using hloop
        | PyVal.int m, w => simpa [getAttr_setAttr_ne _ _ _ _ hkn] using hloop
        | PyVal.float p, w => simpa [getAttr_setAttr_ne _ _ _ _ hkn] using hloop
        | PyVal.str st, w => simpa [getAttr_setAttr_ne _ _ _ _ hkn] using hloop
        | PyVal.list xs, w => simpa [getAttr_setAttr_ne _ _ _ _ hkn] using hloop
        | PyVal.dict d, w => simpa [getAttr_setAttr_ne _ _ _ _ hkn] using hloop
        | PyVal.obj c a, w => simpa [getAttr_setAttr_ne _ _ _ _ hkn] using hloop
    | listOf elemT =>
      cases v with
      | list items =>
        simp only [checkType]
        have hloop := listLoop_preserve (fun s item => checkType env f s n item elemT) k
          (fun s x => ih n x elemT s k hk) items self
        rcases h1 : listLoop (fun s item => checkType env f s n item elemT) self items with ⟨s1, r1⟩
        rw [h1] at hloop
        match r1 with
        | .error e => simpa using hloop
        | .ok newItems =>
          simpa [getAttr_setAttr_ne _ _ _ _ hkn] using hloop
      | none => rfl
      | bool b => rfl
      | int m => rfl
      | float p => rfl
      | str st => rfl
      | dict d => rfl
      | obj c a => rfl
    | record cls =>
      simp only [checkType]
      match henv : env cls with
      | Option.none => simp
      | Option.some rd =>
        simp only
        cases v with
        | obj c attrsV =>
          by_cases hc : c = cls
          · simp only [hc, if_true]
            have hloop := stepLoop_preserve _ k (hsubstep attrsV) rd.fields self
            rcases h1 : stepLoop (subFieldStep (fun s nn vv tt => checkType env f s nn vv tt)
              n attrsV) self rd.fields with ⟨s1, r1⟩
            rw [h1] at hloop
            simp only at hloop
            match r1 with
            | .error e => simpa using hloop
            | .ok u => simpa using hloop
          · simp [hc, getAttr_setAttr_ne _ _ _ _ hkn]
        | dict d =>
          simp only
          match hcr : constructRecord env f cls d with
          | .error e => simp
          | .ok newObj =>
            simp only
            match newObj with
            | .obj cN attrsN =>
              simp only
              have hloop := stepLoop_preserve _ k (hsubstep attrsN) rd.fields
                (setAttr self n (PyVal.obj cN attrsN))
              rcases h1 : stepLoop (subFieldStep (fun s nn vv tt => checkType env f s nn vv tt)
                n attrsN) (setAttr self n (PyVal.obj cN attrsN)) rd.fields with ⟨s1, r1⟩
              rw [h1] at hloop
              simp only at hloop
              match r1 with
              | .error e =>
                simp only
                rw [hloop, getAttr_setAttr_ne _ _ _ _ hkn]
              | .ok u =>
                simp only
                rw [hloop, getAttr_setAttr_ne _ _ _ _ hkn]
            | .none => rfl
            | .bool b => rfl
            | .int m => rfl
            | .float p => rfl
            | .str st => rfl
            | .list xs => rfl
            | .dict dd => rfl
        | none => simp [getAttr_setAttr_ne _ _ _ _ hkn]
        | bool b => simp [getAttr_setAttr_ne _ _ _ _ hkn]
        | int m => simp [getAttr_setAttr_ne _ _ _ _ hkn]
        | float p => simp [getAttr_setAttr_ne _ _ _ _ hkn]
        | str st => simp [getAttr_setAttr_ne _ _ _ _ hkn]
        | list xs => simp [getAttr_setAttr_ne _ _ _ _ hkn]

end TypeValidator

end WdTools

namespace WdTools

namespace TypeValidator

instance (n k : String) : Decidable (strIsPre n k) :=
  decidable_of_iff (List.isPrefixOf n.toList k.toList = true) (by
    unfold strIsPre
    exact List.isPrefixOf_iff_prefix)

theorem stepLoop_nil {A : Type} (g : Attrs → A → Attrs × Except PyErr Unit) (s : Attrs) :
    stepLoop g s [] = (s, .ok ()) := rfl

theorem stepLoop_cons {A : Type} (g : Attrs → A → Attrs × Except PyErr Unit)
    (s : Attrs) (x : A) (xs : List A) :
    stepLoop g s (x :: xs) =
      match g s x with
      | (s1, .ok _) => stepLoop g s1 xs
      | (s1, .error e) => (s1, .error e) := rfl

/-- A successful dataclass construction always yields an instance of the
requested class. -/
theorem constructRecord_ok_obj (env : SchemaEnv) (fuel : Nat) (cls : String)
    (kwargs : List (String × PyVal)) (r : PyVal)
    (h : constructRecord env fuel cls kwargs = .ok r) :
    ∃ attrsA, r = .obj cls attrsA := by
  match fuel with
  | 0 => simp [constructRecord] at h
  | f + 1 =>
    simp only [constructRecord] at h
    match henv : env cls with
    | Option.none => rw [henv] at h; simp at h
    | Option.some rd =>
      rw [henv] at h
      simp only at h
      by_cases h1 : rd.fields.all (fun fl => (kwargs.lookup fl.1).isSome)
      · rw [if_neg (by simpa using h1)] at h
        by_cases h2 : kwargs.all (fun kv => decide (rd.fields.any (fun fl => fl.1 = kv.1)))
        · rw [if_neg (by simpa using h2)] at h
          rcases hs : stepLoop (initFieldStep (fun s nn vv tt => checkType env f s nn vv tt))
            (rd.fields.map (fun fl => (fl.1, (kwargs.lookup fl.1).getD PyVal.none)))
            rd.fields with ⟨attrsA, rA⟩
          rw [hs] at h
          match rA with
          | .error e => simp at h
          | .ok u =>
            simp only at h
            match hp : rd.postCheck attrsA with
            | .error e => rw [hp] at h; simp at h
            | .ok u2 =>
              rw [hp] at h
              simp only [Except.ok.injEq] at h
              exact ⟨attrsA, h.symm⟩
        · rw [if_pos (by simpa using h2)] at h; simp at h
      · rw [if_pos (by simpa using h1)] at h; simp at h

/-- Elimination form of a successful dataclass construction. -/
theorem constructRecord_ok_elim (env : SchemaEnv) (f : Nat) (cls : String)
    (kwargs : List (String × PyVal)) (rd : RecordDef) (r : PyVal)
    (henv : env cls = Option.some rd)
    (h : constructRecord env (f + 1) cls kwargs = .ok r) :
    rd.fields.all (fun fl => (kwargs.lookup fl.1).isSome) = true ∧
    kwargs.all (fun kv => rd.fields.any (fun fl => fl.1 = kv.1)) = true ∧
    ∃ attrsA,
      stepLoop (initFieldStep (fun s nn vv tt => checkType env f s nn vv tt))
        (rd.fields.map (fun fl => (fl.1, (kwargs.lookup fl.1).getD PyVal.none)))
        rd.fields = (attrsA, .ok ()) ∧
      rd.postCheck attrsA = .ok () ∧ r = .obj cls attrsA := by
  simp only [constructRecord, henv] at h
  by_cases h1 : rd.fields.all (fun fl => (kwargs.lookup fl.1).isSome)
  · rw [if_neg (by simpa using h1)] at h
    by_cases h2 : kwargs.all (fun kv => decide (rd.fields.any (fun fl => fl.1 = kv.1)))
    · rw [if_neg (by simpa using h2)] at h
      refine ⟨h1, by simpa using h2, ?_⟩
      rcases hs : stepLoop (initFieldStep (fun s nn vv tt => checkType env f s nn vv tt))
        (rd.fields.map (fun fl => (fl.1, (kwargs.lookup fl.1).getD PyVal.none)))
        rd.fields with ⟨attrsA, rA⟩
      rw [hs] at h
      match rA with
      | .error e => simp at h
      | .ok u =>
        simp only at h
        match hp : rd.postCheck attrsA with
        | .error e => rw [hp] at h; simp at h
        | .ok u2 =>
          rw [hp] at h
          simp only [Except.ok.injEq] at h
          exact ⟨attrsA, hs, hp, h.symm⟩
    · rw [if_pos (by simpa using h2)] at h; simp at h
  · rw [if_pos (by simpa using h1)] at h; simp at h

/-- Introduction form of a successful dataclass construction. -/
theorem constructRecord_ok_intro (env : SchemaEnv) (f : Nat) (cls : String)
    (kwargs : List (String × PyVal)) (rd : RecordDef) (attrsA : Attrs)
    (henv : env cls = Option.some rd)
    (h1 : rd.fields.all (fun fl => (kwargs.lookup fl.1).isSome) = true)
    (h2 : kwargs.all (fun kv => rd.fields.any (fun fl => fl.1 = kv.1)) = true)
    (hs : stepLoop (initFieldStep (fun s nn vv tt => checkType env f s nn vv tt))
        (rd.fields.map (fun fl => (fl.1, (kwargs.lookup fl.1).getD PyVal.none)))
        rd.fields = (attrsA, .ok ()))
    (hp : rd.postCheck attrsA = .ok ()) :
    constructRecord env (f + 1) cls kwargs = .ok (.obj cls attrsA) := by
  simp only [constructRecord, henv]
  rw [if_neg (by simpa using h1), if_neg (by simpa using h2), hs]
  simp [hp]

/-- Elimination form of a successful list-typed field check. -/
theorem checkType_listOf_ok (env : SchemaEnv) (f : Nat) (self : Attrs) (n : String)
    (v : PyVal) (elemT : FieldType) (s1 : Attrs) (w : PyVal)
    (h : checkType env (f + 1) self n v (.listOf elemT) = (s1, .ok w)) :
    ∃ items sL,
      v = .list items ∧ w = v ∧
      listLoop (fun s item => checkType env f s n item elemT) self items = (sL, .ok items) ∧
      s1 = setAttr sL n (.list items) := by
  cases v with
  | list items =>
    simp only [checkType] at h
    rcases hl : listLoop (fun s item => checkType env f s n item elemT) self items with ⟨sL, rL⟩
    rw [hl] at h
    match rL with
    | .error e => simp at h
    | .ok newItems =>
      simp only [Prod.mk.injEq, Except.ok.injEq] at h
      have hitems : newItems = items := listLoop_ok_items _ items self sL newItems hl
      rw [hitems] at hl h
      exact ⟨items, sL, rfl, h.2.symm, hl, h.1.symm⟩
  | none => simp [checkType] at h
  | bool b => simp [checkType] at h
  | int m => simp [checkType] at h
  | float p => simp [checkType] at h
  | str st => simp [checkType] at h
  | dict d => simp [checkType] at h
  | obj c a => simp [checkType] at h

/-- Introduction form of a list-typed field check. -/
theorem checkType_listOf_intro (env : SchemaEnv) (f : Nat) (self : Attrs) (n : String)
    (items : List PyVal) (elemT : FieldType) (sL : Attrs) (out : List PyVal)
    (h : listLoop (fun s item => checkType env f s n item elemT) self items = (sL, .ok out)) :
    checkType env (f + 1) self n (.list items) (.listOf elemT) =
      (setAttr sL n (.list out), .ok (.list items)) := by
  simp only [checkType, h]

/-- Elimination form of a successful record-typed field check. -/
theorem checkType_record_ok (env : SchemaEnv) (f : Nat) (self : Attrs) (n : String)
    (v : PyVal) (cls : String) (rd : RecordDef) (s1 : Attrs) (w : PyVal)
    (henv : env cls = Option.some rd)
    (h : checkType env (f + 1) self n v (.record cls) = (s1, .ok w)) :
    (∃ attrsV sL, v = .obj cls attrsV ∧
       stepLoop (subFieldStep (fun s nn vv tt => checkType env f s nn vv tt) n attrsV)
         self rd.fields = (sL, .ok ()) ∧ s1 = sL ∧ w = v) ∨
    (∃ c attrsV, v = .obj c attrsV ∧ c ≠ cls ∧ s1 = setAttr self n v ∧ w = v) ∨
    (∃ d attrsN sL, v = .dict d ∧
       constructRecord env f cls d = .ok (.obj cls attrsN) ∧
       stepLoop (subFieldStep (fun s nn vv tt => checkType env f s nn vv tt) n attrsN)
         (setAttr self n (.obj cls attrsN)) rd.fields = (sL, .ok ()) ∧
       s1 = sL ∧ w = .obj cls attrsN) ∨
    ((v = PyVal.none ∨ (∃ b, v = .bool b) ∨ (∃ m, v = .int m) ∨ (∃ p, v = .float p) ∨
       (∃ st, v = .str st) ∨ (∃ xs, v = .list xs)) ∧ s1 = setAttr self n v ∧ w = v) := by
  cases v with
  | obj c attrsV =>
    simp only [checkType, henv] at h
    by_cases hc : c = cls
    · subst hc
      rw [if_pos rfl] at h
      rcases hs : stepLoop (subFieldStep (fun s nn vv tt => checkType env f s nn vv tt)
        n attrsV) self rd.fields with ⟨sL, rL⟩
      rw [hs] at h
      match rL with
      | .error e => simp at h
      | .ok u =>
        simp only [Prod.mk.injEq, Except.ok.injEq] at h
        exact Or.inl ⟨attrsV, sL, rfl, hs, h.1.symm, h.2.symm⟩
    · rw [if_neg hc] at h
      simp only [Prod.mk.injEq, Except.ok.injEq] at h
      exact Or.inr (Or.inl ⟨c, attrsV, rfl, hc, h.1.symm, h.2.symm⟩)
  | dict d =>
    simp only [checkType, henv] at h
    match hcr : constructRecord env f cls d with
    | .error e => rw [hcr] at h; simp at h
    | .ok newObj =>
      rw [hcr] at h
      obtain ⟨attrsN, hN⟩ := constructRecord_ok_obj env f cls d newObj hcr
      subst hN
      simp only at h
      rcases hs : stepLoop (subFieldStep (fun s nn vv tt => checkType env f s nn vv tt)
        n attrsN) (setAttr self n (.obj cls attrsN)) rd.fields with ⟨sL, rL⟩
      rw [hs] at h
      match rL with
      | .error e => simp at h
      | .ok u =>
        simp only [Prod.mk.injEq, Except.ok.injEq] at h
        exact Or.inr (Or.inr (Or.inl ⟨d, attrsN, sL, rfl, hcr, hs, h.1.symm, h.2.symm⟩))
  | none =>
    simp only [checkType, henv, Prod.mk.injEq, Except.ok.injEq] at h
    exact Or.inr (Or.inr (Or.inr ⟨by simp, h.1.symm, h.2.symm⟩))
  | bool b =>
    simp only [checkType, henv, Prod.mk.injEq, Except.ok.injEq] at h
    exact Or.inr (Or.inr (Or.inr ⟨by simp, h.1.symm, h.2.symm⟩))
  | int m =>
    simp only [checkType, henv, Prod.mk.injEq, Except.ok.injEq] at h
    exact Or.inr (Or.inr (Or.inr ⟨by simp, h.1.symm, h.2.symm⟩))
  | float p =>
    simp only [checkType, henv, Prod.mk.injEq, Except.ok.injEq] at h
    exact Or.inr (Or.inr (Or.inr ⟨by simp, h.1.symm, h.2.symm⟩))
  | str st =>
    simp only [checkType, henv, Prod.mk.injEq, Except.ok.injEq] at h
    exact Or.inr (Or.inr (Or.inr ⟨by simp, h.1.symm, h.2.symm⟩))
  | list xs =>
    simp only [checkType, henv, Prod.mk.injEq, Except.ok.injEq] at h
    exact Or.inr (Or.inr (Or.inr ⟨by simp, h.1.symm, h.2.symm⟩))

/-- Introduction form: rechecking an instance of the right class. -/
theorem checkType_record_obj_intro (env : SchemaEnv) (f : Nat) (self : Attrs) (n : String)
    (cls : String) (rd : RecordDef) (attrsV : Attrs) (sL : Attrs)
    (henv : env cls = Option.some rd)
    (hs : stepLoop (subFieldStep (fun s nn vv tt => checkType env f s nn vv tt) n attrsV)
        self rd.fields = (sL, .ok ())) :
    checkType env (f + 1) self n (.obj cls attrsV) (.record cls) =
      (sL, .ok (.obj cls attrsV)) := by
  simp only [checkType, henv, if_pos rfl, hs]
  simp

/-- Introduction form: coercing a dict into a record. -/
theorem checkType_record_dict_intro (env : SchemaEnv) (f : Nat) (self : Attrs) (n : String)
    (cls : String) (rd : RecordDef) (d : List (String × PyVal)) (attrsN : Attrs) (sL : Attrs)
    (henv : env cls = Option.some rd)
    (hcr : constructRecord env f cls d = .ok (.obj cls attrsN))
    (hs : stepLoop (subFieldStep (fun s nn vv tt => checkType env f s nn vv tt) n attrsN)
        (setAttr self n (.obj cls attrsN)) rd.fields = (sL, .ok ())) :
    checkType env (f + 1) self n (.dict d) (.record cls) = (sL, .ok (.obj cls attrsN)) := by
  simp only [checkType, henv, hcr, hs]

end TypeValidator

end WdTools

namespace WdTools

open TypeValidator

/-- The union type of a materials element. -/
def matUnionT : FieldType :=
  .union [.record "MetadataMaterialSurface", .record "MetadataMaterialFlat",
    .record "MetadataMaterialHair"]

theorem materialsFieldType_eq : materialsFieldType = .listOf matUnionT := rfl

/-- The value bound to a keyword argument (None stands for a missing key,
which the construction checks rule out). -/
def kwVal (kwargs : List (String × PyVal)) (n : String) : PyVal :=
  (kwargs.lookup n).getD PyVal.none

/-- The four ways _check_type leaves a record-annotated field: a dict coerced
to a freshly constructed record whose sub-fields then re-check, an object of
the right class whose sub-fields re-check, an object of another class stored
silently, or a non-dict non-object value stored silently.  Loop outcomes are
stated at the canonical store [] (theorem checkType_snd_indep). -/
def CmRecCase (F : Nat) (cls : String) (fields : List (String × FieldType))
    (n : String) (v stored : PyVal) : Prop :=
  (∃ d attrsB, v = .dict d ∧
      constructRecord wdSchema F cls d = .ok (.obj cls attrsB) ∧
      (stepLoop (subFieldStep (fun s nn vv tt => checkType wdSchema F s nn vv tt)
        n attrsB) [] fields).2 = .ok () ∧
      stored = .obj cls attrsB) ∨
  (∃ attrsB, v = .obj cls attrsB ∧
      (stepLoop (subFieldStep (fun s nn vv tt => checkType wdSchema F s nn vv tt)
        n attrsB) [] fields).2 = .ok () ∧
      stored = v) ∨
  ((∃ c attrsB, v = .obj c attrsB ∧ c ≠ cls) ∧ stored = v) ∨
  ((v = PyVal.none ∨ (∃ b, v = .bool b) ∨ (∃ m, v = .int m) ∨ (∃ p, v = .float p) ∨
      (∃ st, v = .str st) ∨ (∃ xs, v = .list xs)) ∧ stored = v)

/-- What one run of CharacterMetadata.__post_init__ establishes, stated
against canonical stores (the check outcome of every sub-run is independent
of the store it threads, theorem checkType_snd_indep). -/
structure CmSteps (F : Nat) (kwargs : List (String × PyVal)) (attrsA : Attrs) : Prop where
  swStr : isInstancePrim (kwVal kwargs "software") PrimTy.str = true
  vrStr : isInstancePrim (kwVal kwargs "version") PrimTy.str = true
  swStored : getAttr attrsA "software" = Option.some (kwVal kwargs "software")
  vrStored : getAttr attrsA "version" = Option.some (kwVal kwargs "version")
  mats : ∃ items, kwVal kwargs "materials" = .list items ∧
    (listLoop (fun s item => checkType wdSchema F s "materials" item matUnionT)
      [] items).2 = .ok items ∧
    getAttr attrsA "materials" = Option.some (.list items)
  eyes : ∃ items, kwVal kwargs "eyes_rig" = .list items ∧
    (listLoop (fun s item => checkType wdSchema F s "eyes_rig" item
      (.record "MetadataEyeRig")) [] items).2 = .ok items ∧
    getAttr attrsA "eyes_rig" = Option.some (.list items)
  body : ∃ stored, getAttr attrsA "body" = Option.some stored ∧
    CmRecCase F "MetadataBody" metadataBodyFields "body" (kwVal kwargs "body") stored
  face : ∃ stored, getAttr attrsA "face" = Option.some stored ∧
    CmRecCase F "MetadataFace" metadataFaceFields "face" (kwVal kwargs "face") stored

end WdTools

namespace WdTools

namespace TypeValidator

theorem strIsPre_length {a b : String} (h : strIsPre a b) :
    a.toList.length ≤ b.toList.length := h.length_le

/-- A dotted extension of n is never a prefix of a name that n is not a
prefix of. -/
theorem not_strIsPre_dotted {n k : String} (sub : String) (h : ¬ strIsPre n k) :
    ¬ strIsPre (n ++ "." ++ sub) k := by
  intro hp
  exact h (strIsPre_trans
    (strIsPre_trans (strIsPre_extend n ".") (strIsPre_extend (n ++ ".") sub)) hp)

/-- A dotted extension of n is never a prefix of n itself. -/
theorem not_strIsPre_dotted_self (n sub : String) : ¬ strIsPre (n ++ "." ++ sub) n := by
  intro hp
  have h1 := strIsPre_length hp
  have h2 : (n ++ "." ++ sub).toList = n.toList ++ ".".toList ++ sub.toList := by
    simp [String.toList, String.data_append]
  rw [h2] at h1
  simp at h1

theorem subFieldStep_snd_indep (env : SchemaEnv) (f : Nat) (n : String) (attrsV : Attrs)
    (s s' : Attrs) (sf : String × FieldType) :
    (subFieldStep (fun s0 nn vv tt => checkType env f s0 nn vv tt) n attrsV s sf).2 =
    (subFieldStep (fun s0 nn vv tt => checkType env f s0 nn vv tt) n attrsV s' sf).2 := by
  simp only [subFieldStep]
  match hga : getAttr attrsV sf.1 with
  | Option.none => simp
  | Option.some subVal =>
    simp only
    have hi := checkType_snd_indep env f (n ++ "." ++ sf.1) subVal sf.2 s s'
    rcases hc1 : checkType env f s (n ++ "." ++ sf.1) subVal sf.2 with ⟨u1, q1⟩
    rcases hc2 : checkType env f s' (n ++ "." ++ sf.1) subVal sf.2 with ⟨u2, q2⟩
    rw [hc1, hc2] at hi
    simp only at hi
    subst hi
    match q1 with
    | .error e => simp
    | .ok w => simp

theorem subFieldStep_preserve (env : SchemaEnv) (f : Nat) (n : String) (attrsV : Attrs)
    (k : String) (hk : ∀ sub : String, ¬ strIsPre (n ++ "." ++ sub) k) :
    ∀ (s : Attrs) (sf : String × FieldType),
      getAttr (subFieldStep (fun s0 nn vv tt => checkType env f s0 nn vv tt) n attrsV s sf).1 k =
      getAttr s k := by
  intro s sf
  simp only [subFieldStep]
  match hga : getAttr attrsV sf.1 with
  | Option.none => simp
  | Option.some subVal =>
    simp only
    have hi := checkType_preserve env f (n ++ "." ++ sf.1) subVal sf.2 s k (hk sf.1)
    rcases hc : checkType env f s (n ++ "." ++ sf.1) subVal sf.2 with ⟨u1, q1⟩
    rw [hc] at hi
    match q1 with
    | .error e => simpa using hi
    | .ok w => simpa using hi

theorem initFieldStep_eq (chk : Attrs → String → PyVal → FieldType → Attrs × Except PyErr PyVal)
    (attrs : Attrs) (sf : String × FieldType) :
    initFieldStep chk attrs sf =
      match chk attrs sf.1 ((getAttr attrs sf.1).getD PyVal.none) sf.2 with
      | (attrs1, .error e) => (attrs1, .error e)
      | (attrs1, .ok _) => (attrs1, .ok ()) := rfl

/-- Preservation for the __post_init__ step: only names extending the field
name can change. -/
theorem initFieldStep_preserve (env : SchemaEnv) (f : Nat) (attrs : Attrs)
    (sf : String × FieldType) (s1 : Attrs) (r : Except PyErr Unit) (k : String)
    (hk : ¬ strIsPre sf.1 k)
    (h : initFieldStep (fun s nn vv tt => checkType env f s nn vv tt) attrs sf = (s1, r)) :
    getAttr s1 k = getAttr attrs k := by
  simp only [initFieldStep] at h
  have hi := checkType_preserve env f sf.1 ((getAttr attrs sf.1).getD PyVal.none) sf.2 attrs k hk
  rcases hc : checkType env f attrs sf.1 ((getAttr attrs sf.1).getD PyVal.none) sf.2 with ⟨u1, q1⟩
  rw [hc] at h hi
  match q1 with
  | .error e =>
    simp only [Prod.mk.injEq] at h
    simp only at hi
    rw [← h.1]
    exact hi
  | .ok w =>
    simp only [Prod.mk.injEq] at h
    simp only at hi
    rw [← h.1]
    exact hi

/-- A successful primitive __post_init__ step: the value is an instance and
the store is untouched. -/
theorem initFieldStep_prim_ok (env : SchemaEnv) (f : Nat) (attrs : Attrs) (name : String)
    (p : PrimTy) (s1 : Attrs)
    (h : initFieldStep (fun s nn vv tt => checkType env (f + 1) s nn vv tt) attrs
        (name, .prim p) = (s1, .ok ())) :
    isInstancePrim ((getAttr attrs name).getD PyVal.none) p = true ∧ s1 = attrs := by
  by_cases hp : isInstancePrim ((getAttr attrs name).getD PyVal.none) p
  · refine ⟨hp, ?_⟩
    simp only [initFieldStep, checkType, hp, if_true, Prod.mk.injEq] at h
    exact h.1.symm
  · simp only [initFieldStep, checkType, hp, if_false, Prod.mk.injEq] at h
    simp at h

theorem initFieldStep_prim_intro (env : SchemaEnv) (f : Nat) (attrs : Attrs) (name : String)
    (p : PrimTy) (hp : isInstancePrim ((getAttr attrs name).getD PyVal.none) p = true) :
    initFieldStep (fun s nn vv tt => checkType env (f + 1) s nn vv tt) attrs
      (name, .prim p) = (attrs, .ok ()) := by
  simp [initFieldStep, checkType, hp]

end TypeValidator

end WdTools

namespace WdTools

open TypeValidator

/-- The schema entries used by the CharacterMetadata analysis. -/
def cmRd : RecordDef := ⟨"CharacterMetadata", characterMetadataFields, characterMetadataPost⟩

def bodyRd : RecordDef := ⟨"MetadataBody", metadataBodyFields, noPost⟩

def faceRd : RecordDef := ⟨"MetadataFace", metadataFaceFields, noPost⟩

theorem wdSchema_cm : wdSchema "CharacterMetadata" = Option.some cmRd := rfl

theorem wdSchema_body : wdSchema "MetadataBody" = Option.some bodyRd := rfl

theorem wdSchema_face : wdSchema "MetadataFace" = Option.some faceRd := rfl

set_option maxHeartbeats 1000000 in
/-- Walkthrough of a successful CharacterMetadata construction: what each
of the six __post_init__ steps established and what the final store binds
each annotated field to. -/
theorem cmSteps_of_ok (F : Nat) (kwargs : List (String × PyVal)) (r : PyVal)
    (h : constructRecord wdSchema (F + 2) "CharacterMetadata" kwargs = .ok r) :
    ∃ attrsA, r = .obj "CharacterMetadata" attrsA ∧ CmSteps F kwargs attrsA ∧
      characterMetadataPost attrsA = .ok () := by
  obtain ⟨hAll, hNoX, attrsA, hs0, hpost, hr⟩ :=
    constructRecord_ok_elim wdSchema (F + 1) "CharacterMetadata" kwargs cmRd r wdSchema_cm h
  refine ⟨attrsA, hr, ?_, hpost⟩
  have hs : stepLoop (initFieldStep (fun s nn vv tt => checkType wdSchema (F + 1) s nn vv tt))
      ([("software", kwVal kwargs "software"), ("version", kwVal kwargs "version"),
        ("materials", kwVal kwargs "materials"), ("eyes_rig", kwVal kwargs "eyes_rig"),
        ("body", kwVal kwargs "body"), ("face", kwVal kwargs "face")])
      characterMetadataFields = (attrsA, .ok ()) := hs0
  set attrs0 : Attrs :=
    [("software", kwVal kwargs "software"), ("version", kwVal kwargs "version"),
     ("materials", kwVal kwargs "materials"), ("eyes_rig", kwVal kwargs "eyes_rig"),
     ("body", kwVal kwargs "body"), ("face", kwVal kwargs "face")] with hattrs0
  have ha0sw : getAttr attrs0 "software" = Option.some (kwVal kwargs "software") := rfl
  have ha0vr : getAttr attrs0 "version" = Option.some (kwVal kwargs "version") := rfl
  have ha0mt : getAttr attrs0 "materials" = Option.some (kwVal kwargs "materials") := rfl
  have ha0ey : getAttr attrs0 "eyes_rig" = Option.some (kwVal kwargs "eyes_rig") := rfl
  have ha0bd : getAttr attrs0 "body" = Option.some (kwVal kwargs "body") := rfl
  have ha0fc : getAttr attrs0 "face" = Option.some (kwVal kwargs "face") := rfl
  rw [show characterMetadataFields =
    [("software", FieldType.prim .str), ("version", FieldType.prim .str),
     ("materials", materialsFieldType), ("eyes_rig", .listOf (.record "MetadataEyeRig")),
     ("body", .record "MetadataBody"), ("face", .record "MetadataFace")] from rfl] at hs
  -- step 1: software
  obtain ⟨s1, h1, hs⟩ := stepLoop_cons_ok _ _ _ _ _ hs
  obtain ⟨hw1, hs1⟩ := initFieldStep_prim_ok wdSchema F attrs0 "software" .str s1 h1
  subst hs1
  -- step 2: version
  obtain ⟨s2, h2, hs⟩ := stepLoop_cons_ok _ _ _ _ _ hs
  obtain ⟨hw2, hs2⟩ := initFieldStep_prim_ok wdSchema F attrs0 "version" .str s2 h2
  subst hs2
  -- step 3: materials
  obtain ⟨s3, h3, hs⟩ := stepLoop_cons_ok _ _ _ _ _ hs
  have h3pre := fun (k : String) (hk : ¬ strIsPre "materials" k) =>
    initFieldStep_preserve wdSchema (F + 1) attrs0 ("materials", materialsFieldType)
      s3 (.ok ()) k hk h3
  rw [initFieldStep_eq] at h3
  simp only [ha0mt, Option.getD_some] at h3
  rw [materialsFieldType_eq] at h3
  rcases hc3 : checkType wdSchema (F + 1) attrs0 "materials" (kwVal kwargs "materials")
    (.listOf matUnionT) with ⟨t3, q3⟩
  rw [hc3] at h3
  match q3 with
  | .error e => simp at h3
  | .ok w3 =>
    simp only [Prod.mk.injEq] at h3
    obtain ⟨items3, sL3, hv3, hw3, hll3, ht3⟩ :=
      checkType_listOf_ok wdSchema F attrs0 "materials" (kwVal kwargs "materials")
        matUnionT t3 w3 hc3
    have hmats2 : (listLoop (fun s item => checkType wdSchema F s "materials" item matUnionT)
        [] items3).2 = .ok items3 := by
      have := listLoop_snd_congr (fun s item => checkType wdSchema F s "materials" item matUnionT)
        (fun sA sB x => checkType_snd_indep wdSchema F "materials" x matUnionT sA sB)
        items3 [] attrs0
      rw [this, hll3]
    have hs3mat : getAttr s3 "materials" = Option.some (.list items3) := by
      rw [← h3.1, ht3]
      exact getAttr_setAttr_self _ _ _
    have h3keep : ∀ k, ¬ strIsPre "materials" k → getAttr s3 k = getAttr attrs0 k := h3pre
    -- step 4: eyes_rig
    obtain ⟨s4, h4, hs⟩ := stepLoop_cons_ok _ _ _ _ _ hs
    have h4pre := fun (k : String) (hk : ¬ strIsPre "eyes_rig" k) =>
      initFieldStep_preserve wdSchema (F + 1) s3 ("eyes_rig", .listOf (.record "MetadataEyeRig"))
        s4 (.ok ()) k hk h4
    rw [initFieldStep_eq] at h4
    have hv4cur : getAttr s3 "eyes_rig" = Option.some (kwVal kwargs "eyes_rig") := by
      rw [h3keep "eyes_rig" (by decide), ha0ey]
    simp only [hv4cur, Option.getD_some] at h4
    rcases hc4 : checkType wdSchema (F + 1) s3 "eyes_rig" (kwVal kwargs "eyes_rig")
      (.listOf (.record "MetadataEyeRig")) with ⟨t4, q4⟩
    rw [hc4] at h4
    match q4 with
    | .error e => simp at h4
    | .ok w4 =>
      simp only [Prod.mk.injEq] at h4
      obtain ⟨items4, sL4, hv4, hw4, hll4, ht4⟩ :=
        checkType_listOf_ok wdSchema F s3 "eyes_rig" (kwVal kwargs "eyes_rig")
          (.record "MetadataEyeRig") t4 w4 hc4
      have heyes2 : (listLoop (fun s item => checkType wdSchema F s "eyes_rig" item
          (.record "MetadataEyeRig")) [] items4).2 = .ok items4 := by
        have := listLoop_snd_congr
          (fun s item => checkType wdSchema F s "eyes_rig" item (.record "MetadataEyeRig"))
          (fun sA sB x => checkType_snd_indep wdSchema F "eyes_rig" x
            (.record "MetadataEyeRig") sA sB)
          items4 [] s3
        rw [this, hll4]
      have hs4eye : getAttr s4 "eyes_rig" = Option.some (.list items4) := by
        rw [← h4.1, ht4]
        exact getAttr_setAttr_self _ _ _
      have h4keep : ∀ k, ¬ strIsPre "eyes_rig" k → getAttr s4 k = getAttr s3 k := h4pre
      -- step 5: body
      obtain ⟨s5, h5, hs⟩ := stepLoop_cons_ok _ _ _ _ _ hs
      have h5keep : ∀ k, ¬ strIsPre "body" k → getAttr s5 k = getAttr s4 k :=
        fun k hk => initFieldStep_preserve wdSchema (F + 1) s4
          ("body", .record "MetadataBody") s5 (.ok ()) k hk h5
      rw [initFieldStep_eq] at h5
      have hv5cur : getAttr s4 "body" = Option.some (kwVal kwargs "body") := by
        rw [h4keep "body" (by decide), h3keep "body" (by decide), ha0bd]
      simp only [hv5cur, Option.getD_some] at h5
      rcases hc5 : checkType wdSchema (F + 1) s4 "body" (kwVal kwargs "body")
        (.record "MetadataBody") with ⟨t5, q5⟩
      rw [hc5] at h5
      match q5 with
      | .error e => simp at h5
      | .ok w5 =>
        simp only [Prod.mk.injEq] at h5
        have hts5 : t5 = s5 := h5.1
        have hrec5 := checkType_record_ok wdSchema F s4 "body" (kwVal kwargs "body")
          "MetadataBody" bodyRd t5 w5 wdSchema_body hc5
        have hbody5 : ∃ stored, getAttr s5 "body" = Option.some stored ∧
            CmRecCase F "MetadataBody" metadataBodyFields "body"
              (kwVal kwargs "body") stored := by
          rcases hrec5 with ⟨attrsV, sL, hveq, hstep, hs1L, hweq⟩ |
            ⟨c, attrsV, hveq, hne, hs1eq, hweq⟩ |
            ⟨d, attrsN, sL, hveq, hcr, hstep, hs1L, hweq⟩ | ⟨hother, hs1eq, hweq⟩
          · have hs5L : s5 = sL := by rw [← hts5, hs1L]
            have hstepM : stepLoop (subFieldStep
                (fun s nn vv tt => checkType wdSchema F s nn vv tt) "body" attrsV)
                s4 metadataBodyFields = (sL, .ok ()) := hstep
            have hcan : (stepLoop (subFieldStep
                (fun s nn vv tt => checkType wdSchema F s nn vv tt) "body" attrsV)
                [] metadataBodyFields).2 = .ok () := by
              rw [stepLoop_snd_congr
                (subFieldStep (fun s nn vv tt => checkType wdSchema F s nn vv tt)
                  "body" attrsV)
                (fun sA sB x => subFieldStep_snd_indep wdSchema F "body" attrsV sA sB x)
                metadataBodyFields [] s4, hstepM]
            have hpr : getAttr sL "body" = getAttr s4 "body" := by
              have := stepLoop_preserve (subFieldStep
                  (fun s nn vv tt => checkType wdSchema F s nn vv tt) "body" attrsV)
                "body"
                (fun s x => subFieldStep_preserve wdSchema F "body" attrsV "body"
                  (fun sub => not_strIsPre_dotted_self "body" sub) s x)
                metadataBodyFields s4
              rw [hstepM] at this
              exact this
            exact ⟨kwVal kwargs "body", by rw [hs5L, hpr, hv5cur],
              Or.inr (Or.inl ⟨attrsV, hveq, hcan, rfl⟩)⟩
          · exact ⟨kwVal kwargs "body",
              by rw [← hts5, hs1eq]; exact getAttr_setAttr_self _ _ _,
              Or.inr (Or.inr (Or.inl ⟨⟨c, attrsV, hveq, hne⟩, rfl⟩))⟩
          · have hs5L : s5 = sL := by rw [← hts5, hs1L]
            have hstepM : stepLoop (subFieldStep
                (fun s nn vv tt => checkType wdSchema F s nn vv tt) "body" attrsN)
                (setAttr s4 "body" (.obj "MetadataBody" attrsN)) metadataBodyFields =
                (sL, .ok ()) := hstep
            have hcan : (stepLoop (subFieldStep
                (fun s nn vv tt => checkType wdSchema F s nn vv tt) "body" attrsN)
                [] metadataBodyFields).2 = .ok () := by
              rw [stepLoop_snd_congr
                (subFieldStep (fun s nn vv tt => checkType wdSchema F s nn vv tt)
                  "body" attrsN)
                (fun sA sB x => subFieldStep_snd_indep wdSchema F "body" attrsN sA sB x)
                metadataBodyFields [] (setAttr s4 "body" (.obj "MetadataBody" attrsN)),
                hstepM]
            have hpr : getAttr sL "body" =
                Option.some (.obj "MetadataBody" attrsN) := by
              have := stepLoop_preserve (subFieldStep
                  (fun s nn vv tt => checkType wdSchema F s nn vv tt) "body" attrsN)
                "body"
                (fun s x => subFieldStep_preserve wdSchema F "body" attrsN "body"
                  (fun sub => not_strIsPre_dotted_self "body" sub) s x)
                metadataBodyFields (setAttr s4 "body" (.obj "MetadataBody" attrsN))
              rw [hstepM] at this
              simp only at this
              rw [this]
              exact getAttr_setAttr_self _ _ _
            exact ⟨.obj "MetadataBody" attrsN, by rw [hs5L, hpr],
              Or.inl ⟨d, attrsN, hveq, hcr, hcan, rfl⟩⟩
          · exact ⟨kwVal kwargs "body",
              by rw [← hts5, hs1eq]; exact getAttr_setAttr_self _ _ _,
              Or.inr (Or.inr (Or.inr ⟨hother, rfl⟩))⟩
        -- step 6: face
        obtain ⟨s6, h6, hs⟩ := stepLoop_cons_ok _ _ _ _ _ hs
        have h6keep : ∀ k, ¬ strIsPre "face" k → getAttr s6 k = getAttr s5 k :=
          fun k hk => initFieldStep_preserve wdSchema (F + 1) s5
            ("face", .record "MetadataFace") s6 (.ok ()) k hk h6
        rw [initFieldStep_eq] at h6
        have hv6cur : getAttr s5 "face" = Option.some (kwVal kwargs "face") := by
          rw [h5keep "face" (by decide), h4keep "face" (by decide),
            h3keep "face" (by decide), ha0fc]
        simp only [hv6cur, Option.getD_some] at h6
        rcases hc6 : checkType wdSchema (F + 1) s5 "face" (kwVal kwargs "face")
          (.record "MetadataFace") with ⟨t6, q6⟩
        rw [hc6] at h6
        match q6 with
        | .error e => simp at h6
        | .ok w6 =>
          simp only [Prod.mk.injEq] at h6
          have hts6 : t6 = s6 := h6.1
          have hrec6 := checkType_record_ok wdSchema F s5 "face" (kwVal kwargs "face")
            "MetadataFace" faceRd t6 w6 wdSchema_face hc6
          have hface6 : ∃ stored, getAttr s6 "face" = Option.some stored ∧
              CmRecCase F "MetadataFace" metadataFaceFields "face"
                (kwVal kwargs "face") stored := by
            rcases hrec6 with ⟨attrsV, sL, hveq, hstep, hs1L, hweq⟩ |
              ⟨c, attrsV, hveq, hne, hs1eq, hweq⟩ |
              ⟨d, attrsN, sL, hveq, hcr, hstep, hs1L, hweq⟩ | ⟨hother, hs1eq, hweq⟩
            · have hs6L : s6 = sL := by rw [← hts6, hs1L]
              have hstepM : stepLoop (subFieldStep
                  (fun s nn vv tt => checkType wdSchema F s nn vv tt) "face" attrsV)
                  s5 metadataFaceFields = (sL, .ok ()) := hstep
              have hcan : (stepLoop (subFieldStep
                  (fun s nn vv tt => checkType wdSchema F s nn vv tt) "face" attrsV)
                  [] metadataFaceFields).2 = .ok () := by
                rw [stepLoop_snd_congr
                  (subFieldStep (fun s nn vv tt => checkType wdSchema F s nn vv tt)
                    "face" attrsV)
                  (fun sA sB x => subFieldStep_snd_indep wdSchema F "face" attrsV sA sB x)
                  metadataFaceFields [] s5, hstepM]
              have hpr : getAttr sL "face" = getAttr s5 "face" := by
                have := stepLoop_preserve (subFieldStep
                    (fun s nn vv tt => checkType wdSchema F s nn vv tt) "face" attrsV)
                  "face"
                  (fun s x => subFieldStep_preserve wdSchema F "face" attrsV "face"
                    (fun sub => not_strIsPre_dotted_self "face" sub) s x)
                  metadataFaceFields s5
                rw [hstepM] at this
                exact this
              exact ⟨kwVal kwargs "face", by rw [hs6L, hpr, hv6cur],
                Or.inr (Or.inl ⟨attrsV, hveq, hcan, rfl⟩)⟩
            · exact ⟨kwVal kwargs "face",
                by rw [← hts6, hs1eq]; exact getAttr_setAttr_self _ _ _,
                Or.inr (Or.inr (Or.inl ⟨⟨c, attrsV, hveq, hne⟩, rfl⟩))⟩
            · have hs6L : s6 = sL := by rw [← hts6, hs1L]
              have hstepM : stepLoop (subFieldStep
                  (fun s nn vv tt => checkType wdSchema F s nn vv tt) "face" attrsN)
                  (setAttr s5 "face" (.obj "MetadataFace" attrsN)) metadataFaceFields =
                  (sL, .ok ()) := hstep
              have hcan : (stepLoop (subFieldStep
                  (fun s nn vv tt => checkType wdSchema F s nn vv tt) "face" attrsN)
                  [] metadataFaceFields).2 = .ok () := by
                rw [stepLoop_snd_congr
                  (subFieldStep (fun s nn vv tt => checkType wdSchema F s nn vv tt)
                    "face" attrsN)
                  (fun sA sB x => subFieldStep_snd_indep wdSchema F "face" attrsN sA sB x)
                  metadataFaceFields [] (setAttr s5 "face" (.obj "MetadataFace" attrsN)),
                  hstepM]
              have hpr : getAttr sL "face" =
                  Option.some (.obj "MetadataFace" attrsN) := by
                have := stepLoop_preserve (subFieldStep
                    (fun s nn vv tt => checkType wdSchema F s nn vv tt) "face" attrsN)
                  "face"
                  (fun s x => subFieldStep_preserve wdSchema F "face" attrsN "face"
                    (fun sub => not_strIsPre_dotted_self "face" sub) s x)
                  metadataFaceFields (setAttr s5 "face" (.obj "MetadataFace" attrsN))
                rw [hstepM] at this
                simp only at this
                rw [this]
                exact getAttr_setAttr_self _ _ _
              exact ⟨.obj "MetadataFace" attrsN, by rw [hs6L, hpr],
                Or.inl ⟨d, attrsN, hveq, hcr, hcan, rfl⟩⟩
            · exact ⟨kwVal kwargs "face",
                by rw [← hts6, hs1eq]; exact getAttr_setAttr_self _ _ _,
                Or.inr (Or.inr (Or.inr ⟨hother, rfl⟩))⟩
          -- conclusion: the empty tail identifies the final store
          have hs6A : s6 = attrsA := by
            rw [stepLoop_nil] at hs
            simpa using congrArg Prod.fst hs
          subst hs6A
          simp only [ha0sw, Option.getD_some] at hw1
          simp only [ha0vr, Option.getD_some] at hw2
          obtain ⟨storedB, hstB, hcaseB⟩ := hbody5
          obtain ⟨storedF, hstF, hcaseF⟩ := hface6
          refine ⟨hw1, hw2, ?_, ?_, ⟨items3, hv3, hmats2, ?_⟩,
            ⟨items4, hv4, heyes2, ?_⟩, ⟨storedB, ?_, hcaseB⟩, ⟨storedF, hstF, hcaseF⟩⟩
          · rw [h6keep "software" (by decide), h5keep "software" (by decide),
              h4keep "software" (by decide), h3keep "software" (by decide), ha0sw]
          · rw [h6keep "version" (by decide), h5keep "version" (by decide),
              h4keep "version" (by decide), h3keep "version" (by decide), ha0vr]
          · rw [h6keep "materials" (by decide), h5keep "materials" (by decide),
              h4keep "materials" (by decide), hs3mat]
          · rw [h6keep "eyes_rig" (by decide), h5keep "eyes_rig" (by decide), hs4eye]
          · rw [h6keep "body" (by decide), hstB]

end WdTools

namespace WdTools

namespace TypeValidator

/-- Introduction form: an instance of a different dataclass is stored
silently and the isinstance-guarded sub-field loop is skipped. -/
theorem checkType_record_objmis_intro (env : SchemaEnv) (f : Nat) (self : Attrs) (n : String)
    (cls c : String) (rd : RecordDef) (attrsV : Attrs)
    (henv : env cls = Option.some rd) (hne : c ≠ cls) :
    checkType env (f + 1) self n (.obj c attrsV) (.record cls) =
      (setAttr self n (.obj c attrsV), .ok (.obj c attrsV)) := by
  simp only [checkType, henv, if_neg hne]

/-- Introduction form: a non-dict non-instance value is stored silently by
the dataclass branch and the sub-field loop is skipped. -/
theorem checkType_record_other_intro (env : SchemaEnv) (f : Nat) (self : Attrs) (n : String)
    (cls : String) (rd : RecordDef) (v : PyVal)
    (henv : env cls = Option.some rd)
    (hv : v = PyVal.none ∨ (∃ b, v = .bool b) ∨ (∃ m, v = .int m) ∨ (∃ p, v = .float p) ∨
      (∃ st, v = .str st) ∨ (∃ xs, v = .list xs)) :
    checkType env (f + 1) self n v (.record cls) = (setAttr self n v, .ok v) := by
  rcases hv with rfl | ⟨b, rfl⟩ | ⟨m, rfl⟩ | ⟨p, rfl⟩ | ⟨st, rfl⟩ | ⟨xs, rfl⟩ <;>
    simp [checkType, henv]

/-- A __post_init__ step succeeds whenever the field is present and its
check call succeeds. -/
theorem initFieldStep_ok_of (chk : Attrs → String → PyVal → FieldType →
      Attrs × Except PyErr PyVal)
    (attrs : Attrs) (n : String) (t : FieldType) (v : PyVal) (s1 : Attrs) (w : PyVal)
    (hv : getAttr attrs n = Option.some v)
    (hc : chk attrs n v t = (s1, .ok w)) :
    initFieldStep chk attrs (n, t) = (s1, .ok ()) := by
  rw [initFieldStep_eq]
  simp only [hv, Option.getD_some, hc]

end TypeValidator

end WdTools

namespace WdTools

open TypeValidator

/-- Re-running a record-typed field on an already-checked instance: the
sub-field loop repeats the sub checks that succeeded before. -/
theorem cmRecCase_step_obj (F : Nat) (cls : String) (flds : List (String × FieldType))
    (rd : RecordDef) (n : String) (attrsB : Attrs) (s : Attrs)
    (henv : wdSchema cls = Option.some rd) (hflds : rd.fields = flds)
    (hcan : (stepLoop (subFieldStep (fun s0 nn vv tt => checkType wdSchema F s0 nn vv tt)
        n attrsB) [] flds).2 = .ok ())
    (hcur : getAttr s n = Option.some (.obj cls attrsB)) :
    ∃ s1, initFieldStep (fun s0 nn vv tt => checkType wdSchema (F + 1) s0 nn vv tt) s
        (n, .record cls) = (s1, .ok ()) ∧ getAttr s1 n = Option.some (.obj cls attrsB) := by
  rcases hl : stepLoop (subFieldStep (fun s0 nn vv tt => checkType wdSchema F s0 nn vv tt)
      n attrsB) s rd.fields with ⟨sL, rL⟩
  have hrl : rL = .ok () := by
    have hcg := stepLoop_snd_congr
      (subFieldStep (fun s0 nn vv tt => checkType wdSchema F s0 nn vv tt) n attrsB)
      (fun sA sB x => subFieldStep_snd_indep wdSchema F n attrsB sA sB x)
      rd.fields s []
    rw [hl] at hcg
    simp only at hcg
    rw [hcg, hflds]
    exact hcan
  subst hrl
  have hsL : getAttr sL n = Option.some (.obj cls attrsB) := by
    have hp := stepLoop_preserve
      (subFieldStep (fun s0 nn vv tt => checkType wdSchema F s0 nn vv tt) n attrsB) n
      (fun s0 x => subFieldStep_preserve wdSchema F n attrsB n
        (fun sub => not_strIsPre_dotted_self n sub) s0 x)
      rd.fields s
    rw [hl] at hp
    simp only at hp
    rw [hp]
    exact hcur
  exact ⟨sL, initFieldStep_ok_of _ s n (.record cls) (.obj cls attrsB) sL (.obj cls attrsB)
    hcur (checkType_record_obj_intro wdSchema F s n cls rd attrsB sL henv hl), hsL⟩

/-- Re-running a record-typed field on the value a previous run stored:
every case of CmRecCase goes through again and stores the same value. -/
theorem cmRecCase_step (F : Nat) (cls : String) (flds : List (String × FieldType))
    (rd : RecordDef) (n : String) (v stored : PyVal) (s : Attrs)
    (henv : wdSchema cls = Option.some rd) (hflds : rd.fields = flds)
    (hcase : CmRecCase F cls flds n v stored)
    (hcur : getAttr s n = Option.some stored) :
    ∃ s1, initFieldStep (fun s0 nn vv tt => checkType wdSchema (F + 1) s0 nn vv tt) s
        (n, .record cls) = (s1, .ok ()) ∧ getAttr s1 n = Option.some stored := by
  rcases hcase with ⟨d, attrsB, hveq, hcr, hcan, hst⟩ | ⟨attrsB, hveq, hcan, hst⟩ |
    ⟨⟨c, attrsB, hveq, hne⟩, hst⟩ | ⟨hother, hst⟩
  · subst hst
    exact cmRecCase_step_obj F cls flds rd n attrsB s henv hflds hcan hcur
  · subst hst
    subst hveq
    exact cmRecCase_step_obj F cls flds rd n attrsB s henv hflds hcan hcur
  · subst hst
    subst hveq
    exact ⟨setAttr s n (.obj c attrsB),
      initFieldStep_ok_of _ s n (.record cls) (.obj c attrsB) _ (.obj c attrsB) hcur
        (checkType_record_objmis_intro wdSchema F s n cls c rd attrsB henv hne),
      getAttr_setAttr_self _ _ _⟩
  · subst hst
    exact ⟨setAttr s n stored,
      initFieldStep_ok_of _ s n (.record cls) stored _ stored hcur
        (checkType_record_other_intro wdSchema F s n cls rd stored henv hother),
      getAttr_setAttr_self _ _ _⟩

/-- Re-running a list-typed field on the list a previous run stored: the
element loop repeats the element checks and the same list is stored. -/
theorem cmListStep (F : Nat) (n : String) (elemT : FieldType) (items : List PyVal) (s : Attrs)
    (hcan : (listLoop (fun s0 item => checkType wdSchema F s0 n item elemT) [] items).2 =
      .ok items)
    (hcur : getAttr s n = Option.some (.list items)) :
    ∃ s1, initFieldStep (fun s0 nn vv tt => checkType wdSchema (F + 1) s0 nn vv tt) s
        (n, .listOf elemT) = (s1, .ok ()) ∧ getAttr s1 n = Option.some (.list items) := by
  rcases hl : listLoop (fun s0 item => checkType wdSchema F s0 n item elemT) s items
    with ⟨sL, rL⟩
  have hrl : rL = .ok items := by
    have hcg := listLoop_snd_congr (fun s0 item => checkType wdSchema F s0 n item elemT)
      (fun sA sB x => checkType_snd_indep wdSchema F n x elemT sA sB) items s []
    rw [hl] at hcg
    simp only at hcg
    rw [hcg]
    exact hcan
  subst hrl
  exact ⟨setAttr sL n (.list items),
    initFieldStep_ok_of _ s n (.listOf elemT) (.list items) _ (.list items) hcur
      (checkType_listOf_intro wdSchema F s n items elemT sL items hl),
    getAttr_setAttr_self _ _ _⟩

/-- Running the CharacterMetadata __post_init__ loop over a store already
holding checked values succeeds and leaves all six fields unchanged. -/
theorem cmLoop_intro (F : Nat) (s0 : Attrs) (vsw vvr vB vF : PyVal)
    (items3 items4 : List PyVal) (stB stF : PyVal)
    (hsw : isInstancePrim vsw PrimTy.str = true)
    (hvr : isInstancePrim vvr PrimTy.str = true)
    (hll3 : (listLoop (fun s item => checkType wdSchema F s "materials" item matUnionT)
      [] items3).2 = .ok items3)
    (hll4 : (listLoop (fun s item => checkType wdSchema F s "eyes_rig" item
      (.record "MetadataEyeRig")) [] items4).2 = .ok items4)
    (hbd : CmRecCase F "MetadataBody" metadataBodyFields "body" vB stB)
    (hfc : CmRecCase F "MetadataFace" metadataFaceFields "face" vF stF)
    (hg1 : getAttr s0 "software" = Option.some vsw)
    (hg2 : getAttr s0 "version" = Option.some vvr)
    (hg3 : getAttr s0 "materials" = Option.some (.list items3))
    (hg4 : getAttr s0 "eyes_rig" = Option.some (.list items4))
    (hg5 : getAttr s0 "body" = Option.some stB)
    (hg6 : getAttr s0 "face" = Option.some stF) :
    ∃ s6, stepLoop (initFieldStep (fun s nn vv tt => checkType wdSchema (F + 1) s nn vv tt))
        s0 characterMetadataFields = (s6, .ok ()) ∧
      getAttr s6 "software" = Option.some vsw ∧ getAttr s6 "version" = Option.some vvr ∧
      getAttr s6 "materials" = Option.some (.list items3) ∧
      getAttr s6 "eyes_rig" = Option.some (.list items4) ∧
      getAttr s6 "body" = Option.some stB ∧ getAttr s6 "face" = Option.some stF := by
  have hstep1 := initFieldStep_prim_intro wdSchema F s0 "software" .str
    (by rw [hg1]; exact hsw)
  have hstep2 := initFieldStep_prim_intro wdSchema F s0 "version" .str
    (by rw [hg2]; exact hvr)
  obtain ⟨s3, hstep3, hs3n⟩ := cmListStep F "materials" matUnionT items3 s0 hll3 hg3
  have hstep3m : initFieldStep (fun s nn vv tt => checkType wdSchema (F + 1) s nn vv tt) s0
      ("materials", materialsFieldType) = (s3, .ok ()) := by
    rw [materialsFieldType_eq]
    exact hstep3
  have h3keep : ∀ k, ¬ strIsPre "materials" k → getAttr s3 k = getAttr s0 k :=
    fun k hk => initFieldStep_preserve wdSchema (F + 1) s0 ("materials", materialsFieldType)
      s3 (.ok ()) k hk hstep3m
  obtain ⟨s4, hstep4, hs4n⟩ := cmListStep F "eyes_rig" (.record "MetadataEyeRig") items4 s3
    hll4 (by rw [h3keep "eyes_rig" (by decide)]; exact hg4)
  have h4keep : ∀ k, ¬ strIsPre "eyes_rig" k → getAttr s4 k = getAttr s3 k :=
    fun k hk => initFieldStep_preserve wdSchema (F + 1) s3
      ("eyes_rig", .listOf (.record "MetadataEyeRig")) s4 (.ok ()) k hk hstep4
  obtain ⟨s5, hstep5, hs5n⟩ := cmRecCase_step F "MetadataBody" metadataBodyFields bodyRd
    "body" vB stB s4 wdSchema_body rfl hbd
    (by rw [h4keep "body" (by decide), h3keep "body" (by decide)]; exact hg5)
  have h5keep : ∀ k, ¬ strIsPre "body" k → getAttr s5 k = getAttr s4 k :=
    fun k hk => initFieldStep_preserve wdSchema (F + 1) s4 ("body", .record "MetadataBody")
      s5 (.ok ()) k hk hstep5
  obtain ⟨s6, hstep6, hs6n⟩ := cmRecCase_step F "MetadataFace" metadataFaceFields faceRd
    "face" vF stF s5 wdSchema_face rfl hfc
    (by rw [h5keep "face" (by decide), h4keep "face" (by decide),
      h3keep "face" (by decide)]; exact hg6)
  have h6keep : ∀ k, ¬ strIsPre "face" k → getAttr s6 k = getAttr s5 k :=
    fun k hk => initFieldStep_preserve wdSchema (F + 1) s5 ("face", .record "MetadataFace")
      s6 (.ok ()) k hk hstep6
  refine ⟨s6, ?_, ?_, ?_, ?_, ?_, ?_, hs6n⟩
  · rw [show characterMetadataFields =
      [("software", FieldType.prim .str), ("version", FieldType.prim .str),
       ("materials", materialsFieldType), ("eyes_rig", .listOf (.record "MetadataEyeRig")),
       ("body", .record "MetadataBody"), ("face", .record "MetadataFace")] from rfl]
    simp only [stepLoop_cons, hstep1, hstep2, hstep3m, hstep4, hstep5, hstep6, stepLoop_nil]
  · rw [h6keep "software" (by decide), h5keep "software" (by decide),
      h4keep "software" (by decide), h3keep "software" (by decide)]
    exact hg1
  · rw [h6keep "version" (by decide), h5keep "version" (by decide),
      h4keep "version" (by decide), h3keep "version" (by decide)]
    exact hg2
  · rw [h6keep "materials" (by decide), h5keep "materials" (by decide),
      h4keep "materials" (by decide)]
    exact hs3n
  · rw [h6keep "eyes_rig" (by decide), h5keep "eyes_rig" (by decide)]
    exact hs4n
  · rw [h6keep "body" (by decide)]
    exact hs5n

/-- The annotated fields of CharacterMetadata, in declaration order. -/
def cmFieldNames : List String :=
  ["software", "version", "materials", "eyes_rig", "body", "face"]

/-- The keyword arguments obtained by reading the annotated fields back
from a constructed instance (dataclasses.asdict-style re-validation input,
kept as the stored values). -/
def annotatedCmKwargs (attrsA : Attrs) : List (String × PyVal) :=
  cmFieldNames.map (fun n => (n, (getAttr attrsA n).getD PyVal.none))

/-- Two instances agree on every annotated CharacterMetadata field. -/
def sameCmFields (a b : Attrs) : Prop :=
  ∀ n ∈ cmFieldNames, getAttr a n = getAttr b n

/-- Re-validation succeeds and reproduces all annotated fields. -/
theorem cmSteps_rerun (F : Nat) (kwargs : List (String × PyVal)) (attrsA : Attrs)
    (hcm : CmSteps F kwargs attrsA)
    (hpost : characterMetadataPost attrsA = .ok ()) :
    ∃ attrsA2,
      constructRecord wdSchema (F + 2) "CharacterMetadata" (annotatedCmKwargs attrsA) =
        .ok (.obj "CharacterMetadata" attrsA2) ∧ sameCmFields attrsA2 attrsA := by
  obtain ⟨hswStr, hvrStr, hswSt, hvrSt, ⟨items3, hv3, hll3, hmtSt⟩,
    ⟨items4, hv4, hll4, heySt⟩, ⟨stB, hbdSt, hbdCase⟩, ⟨stF, hfcSt, hfcCase⟩⟩ := hcm
  have hkw : annotatedCmKwargs attrsA =
      [("software", kwVal kwargs "software"), ("version", kwVal kwargs "version"),
       ("materials", .list items3), ("eyes_rig", .list items4),
       ("body", stB), ("face", stF)] := by
    simp only [annotatedCmKwargs, cmFieldNames, List.map_cons, List.map_nil,
      hswSt, hvrSt, hmtSt, heySt, hbdSt, hfcSt, Option.getD_some]
  have hattrs0 : characterMetadataFields.map
      (fun fl => (fl.1, ((annotatedCmKwargs attrsA).lookup fl.1).getD PyVal.none)) =
      [("software", kwVal kwargs "software"), ("version", kwVal kwargs "version"),
       ("materials", .list items3), ("eyes_rig", .list items4),
       ("body", stB), ("face", stF)] := by
    rw [hkw]
    rfl
  obtain ⟨s6, hloop, hn1, hn2, hn3, hn4, hn5, hn6⟩ := cmLoop_intro F
    ([("software", kwVal kwargs "software"), ("version", kwVal kwargs "version"),
      ("materials", .list items3), ("eyes_rig", .list items4),
      ("body", stB), ("face", stF)])
    (kwVal kwargs "software") (kwVal kwargs "version") (kwVal kwargs "body")
    (kwVal kwargs "face") items3 items4 stB stF hswStr hvrStr hll3 hll4 hbdCase hfcCase
    rfl rfl rfl rfl rfl rfl
  have hpost2 : characterMetadataPost s6 = .ok () := by
    have e1 : getAttr s6 "software" = getAttr attrsA "software" := by rw [hn1, hswSt]
    have e2 : getAttr s6 "version" = getAttr attrsA "version" := by rw [hn2, hvrSt]
    unfold characterMetadataPost attrInOptions at hpost ⊢
    rw [e1, e2]
    exact hpost
  refine ⟨s6, ?_, ?_⟩
  · refine constructRecord_ok_intro wdSchema (F + 1) "CharacterMetadata"
      (annotatedCmKwargs attrsA) cmRd s6 wdSchema_cm ?_ ?_ ?_ hpost2
    · rw [hkw]
      rfl
    · rw [hkw]
      rfl
    · show stepLoop _ (characterMetadataFields.map
        (fun fl => (fl.1, ((annotatedCmKwargs attrsA).lookup fl.1).getD PyVal.none)))
        characterMetadataFields = (s6, .ok ())
      rw [hattrs0]
      exact hloop
  · intro n hn
    simp only [cmFieldNames, List.mem_cons, List.not_mem_nil, or_false] at hn
    rcases hn with rfl | rfl | rfl | rfl | rfl | rfl
    · rw [hn1, hswSt]
    · rw [hn2, hvrSt]
    · rw [hn3, hmtSt]
    · rw [hn4, heySt]
    · rw [hn5, hbdSt]
    · rw [hn6, hfcSt]

end WdTools

namespace WdTools

open TypeValidator

set_option maxRecDepth 1000000 in
/-- A concrete CharacterMetadata construction with one raw surface-material
dict succeeds; established once by kernel evaluation and shared below. -/
theorem oneMatOk :
    (constructCharacterMetadata metadataKwargsOneMaterial).isOk = true := by
  decide!

/-- C3: for every successful CharacterMetadata construction, a dict-valued
body or face is replaced by the coerced record and every materials element
is type-checked, but the stored materials list keeps the original elements:
a raw dict element is validated in place, never replaced by the matching
material record. -/
theorem materials_elements_kept_raw (F : Nat) (kwargs : List (String × PyVal)) (r : PyVal)
    (h : constructRecord wdSchema (F + 2) "CharacterMetadata" kwargs = .ok r) :
    ∃ attrsA items, r = .obj "CharacterMetadata" attrsA ∧
      kwVal kwargs "materials" = .list items ∧
      (listLoop (fun s item => checkType wdSchema F s "materials" item matUnionT)
        [] items).2 = .ok items ∧
      getAttr attrsA "materials" = Option.some (.list items) ∧
      (∀ d, kwVal kwargs "body" = .dict d →
        ∃ attrsB, constructRecord wdSchema F "MetadataBody" d =
            .ok (.obj "MetadataBody" attrsB) ∧
          getAttr attrsA "body" = Option.some (.obj "MetadataBody" attrsB)) ∧
      (∀ d, kwVal kwargs "face" = .dict d →
        ∃ attrsF, constructRecord wdSchema F "MetadataFace" d =
            .ok (.obj "MetadataFace" attrsF) ∧
          getAttr attrsA "face" = Option.some (.obj "MetadataFace" attrsF)) := by
  obtain ⟨attrsA, hr, hcm, hpost⟩ := cmSteps_of_ok F kwargs r h
  obtain ⟨items3, hv3, hll3, hmt⟩ := hcm.mats
  refine ⟨attrsA, items3, hr, hv3, hll3, hmt, ?_, ?_⟩
  · intro d hd
    obtain ⟨stB, hst, hcase⟩ := hcm.body
    rcases hcase with ⟨d2, attrsB, hveq, hcr, hcan, hstored⟩ |
      ⟨attrsB, hveq, hcan, hstored⟩ | ⟨⟨c, attrsB, hveq, hne⟩, hstored⟩ | ⟨hother, hstored⟩
    · rw [hd] at hveq
      injection hveq with hdd
      subst hdd
      exact ⟨attrsB, hcr, by rw [hst, hstored]⟩
    · rw [hd] at hveq
      exact PyVal.noConfusion hveq
    · rw [hd] at hveq
      exact PyVal.noConfusion hveq
    · rcases hother with h0 | ⟨b, h0⟩ | ⟨m, h0⟩ | ⟨p, h0⟩ | ⟨st0, h0⟩ | ⟨xs, h0⟩ <;>
        (rw [hd] at h0; exact PyVal.noConfusion h0)
  · intro d hd
    obtain ⟨stF, hst, hcase⟩ := hcm.face
    rcases hcase with ⟨d2, attrsF, hveq, hcr, hcan, hstored⟩ |
      ⟨attrsF, hveq, hcan, hstored⟩ | ⟨⟨c, attrsF, hveq, hne⟩, hstored⟩ | ⟨hother, hstored⟩
    · rw [hd] at hveq
      injection hveq with hdd
      subst hdd
      exact ⟨attrsF, hcr, by rw [hst, hstored]⟩
    · rw [hd] at hveq
      exact PyVal.noConfusion hveq
    · rw [hd] at hveq
      exact PyVal.noConfusion hveq
    · rcases hother with h0 | ⟨b, h0⟩ | ⟨m, h0⟩ | ⟨p, h0⟩ | ⟨st0, h0⟩ | ⟨xs, h0⟩ <;>
        (rw [hd] at h0; exact PyVal.noConfusion h0)

/-- C3 counterexample to the original wording: a schema-valid input whose
materials list holds one raw surface-material dict constructs fine, yet the
resulting instance still stores the raw dict in its materials list, not a
MetadataMaterialSurface record. -/
theorem materials_element_raw_dict_counterexample :
    ∃ attrsA, constructCharacterMetadata metadataKwargsOneMaterial =
        .ok (.obj "CharacterMetadata" attrsA) ∧
      getAttr attrsA "materials" =
        Option.some (.list [.dict surfaceMaterialKwargs]) := by
  have hok := oneMatOk
  match hm : constructCharacterMetadata metadataKwargsOneMaterial with
  | .error e =>
    rw [hm] at hok
    simp [Except.isOk, Except.toBool] at hok
  | .ok r =>
    obtain ⟨attrsA, hr, hcm, hpost⟩ := cmSteps_of_ok 30 metadataKwargsOneMaterial r hm
    obtain ⟨items, hv, hll, hmt⟩ := hcm.mats
    have hlit : kwVal metadataKwargsOneMaterial "materials" =
        .list [.dict surfaceMaterialKwargs] := rfl
    rw [hlit] at hv
    injection hv with hdd
    subst hdd
    exact ⟨attrsA, by rw [hr], hmt⟩

/-- C3 witness: the general theorem applied to the concrete input with one
raw surface-material dict. -/
theorem materials_elements_kept_raw_witness :
    ∃ r attrsA items, constructCharacterMetadata metadataKwargsOneMaterial = .ok r ∧
      r = .obj "CharacterMetadata" attrsA ∧
      kwVal metadataKwargsOneMaterial "materials" = .list items ∧
      getAttr attrsA "materials" = Option.some (.list items) := by
  have hok := oneMatOk
  match hm : constructCharacterMetadata metadataKwargsOneMaterial with
  | .error e =>
    rw [hm] at hok
    simp [Except.isOk, Except.toBool] at hok
  | .ok r =>
    obtain ⟨attrsA, items, hr, hv, hll, hmt, hbd, hfc⟩ :=
      materials_elements_kept_raw 30 metadataKwargsOneMaterial r hm
    exact ⟨r, attrsA, items, rfl, hr, hv, hmt⟩

/-- C4: re-validation is idempotent.  Constructing a CharacterMetadata from
the annotated field values of a successfully constructed instance raises no
error, and the new instance carries the same value on every annotated
field. -/
theorem revalidation_idempotent (F : Nat) (kwargs : List (String × PyVal)) (r : PyVal)
    (h : constructRecord wdSchema (F + 2) "CharacterMetadata" kwargs = .ok r) :
    ∃ attrsA attrsA2, r = .obj "CharacterMetadata" attrsA ∧
      constructRecord wdSchema (F + 2) "CharacterMetadata" (annotatedCmKwargs attrsA) =
        .ok (.obj "CharacterMetadata" attrsA2) ∧
      sameCmFields attrsA2 attrsA := by
  obtain ⟨attrsA, hr, hcm, hpost⟩ := cmSteps_of_ok F kwargs r h
  obtain ⟨attrsA2, h2, hsame⟩ := cmSteps_rerun F kwargs attrsA hcm hpost
  exact ⟨attrsA, attrsA2, hr, h2, hsame⟩

/-- C4 witness: idempotency at the concrete one-material input. -/
theorem revalidation_idempotent_witness :
    ∃ r attrsA attrsA2, constructCharacterMetadata metadataKwargsOneMaterial = .ok r ∧
      r = .obj "CharacterMetadata" attrsA ∧
      constructRecord wdSchema (30 + 2) "CharacterMetadata" (annotatedCmKwargs attrsA) =
        .ok (.obj "CharacterMetadata" attrsA2) ∧
      sameCmFields attrsA2 attrsA := by
  have hok := oneMatOk
  match hm : constructCharacterMetadata metadataKwargsOneMaterial with
  | .error e =>
    rw [hm] at hok
    simp [Except.isOk, Except.toBool] at hok
  | .ok r =>
    obtain ⟨attrsA, attrsA2, hr, h2, hsame⟩ :=
      revalidation_idempotent 30 metadataKwargsOneMaterial r hm
    exact ⟨r, attrsA, attrsA2, rfl, hr, h2, hsame⟩

end WdTools

namespace WdTools

open TypeValidator

def eyeRigRd : RecordDef := ⟨"MetadataEyeRig", metadataEyeRigFields, eyeRigPost⟩

theorem wdSchema_eyeRig : wdSchema "MetadataEyeRig" = Option.some eyeRigRd := rfl

/-- A step loop preserves a key that every step taken from the list
preserves. -/
theorem stepLoop_preserve_mem {A : Type} (g : Attrs → A → Attrs × Except PyErr Unit)
    (k : String) (xs : List A) :
    (∀ s x, x ∈ xs → getAttr (g s x).1 k = getAttr s k) →
      ∀ s, getAttr (stepLoop g s xs).1 k = getAttr s k := by
  induction xs with
  | nil =>
    intro hg s
    rfl
  | cons x rest ih =>
    intro hg s
    simp only [stepLoop]
    rcases hx : g s x with ⟨s1, r1⟩
    have hk1 : getAttr s1 k = getAttr s k := by
      have h0 := hg s x (List.mem_cons_self x rest)
      rw [hx] at h0
      exact h0
    match r1 with
    | .ok u =>
      simp only
      rw [ih (fun s0 y hy => hg s0 y (List.mem_cons_of_mem x hy)) s1, hk1]
    | .error e => simpa using hk1

/-- A primitive-typed __post_init__ step never writes the store. -/
theorem initFieldStep_prim_preserve (env : SchemaEnv) (f : Nat) (s : Attrs) (n : String)
    (p : PrimTy) (k : String) :
    getAttr (initFieldStep (fun s0 nn vv tt => checkType env (f + 1) s0 nn vv tt) s
      (n, .prim p)).1 k = getAttr s k := by
  rw [initFieldStep_eq]
  by_cases hp : isInstancePrim ((getAttr s n).getD PyVal.none) p
  · simp [checkType, hp]
  · simp [checkType, hp]

/-- What a successful MetadataEyeRig.__post_init__ guarantees. -/
theorem eyeRigPost_ok_elim (attrs : Attrs) (h : eyeRigPost attrs = .ok ()) :
    attrInOptions attrs "horizontal_rotation_axis" supportedAxis = true ∧
    attrInOptions attrs "vertical_rotation_axis" supportedAxis = true ∧
    pyLen ((getAttr attrs "horizontal_min_max_value").getD PyVal.none) = .ok 2 ∧
    pyLen ((getAttr attrs "vertical_min_max_value").getD PyVal.none) = .ok 2 := by
  unfold eyeRigPost at h
  by_cases h1 : attrInOptions attrs "horizontal_rotation_axis" supportedAxis = true
  · rw [if_neg (by simpa using h1)] at h
    by_cases h2 : attrInOptions attrs "vertical_rotation_axis" supportedAxis = true
    · rw [if_neg (by simpa using h2)] at h
      match hm1 : pyLen ((getAttr attrs "horizontal_min_max_value").getD PyVal.none) with
      | .error e =>
        rw [hm1] at h
        exact absurd h (by simp)
      | .ok n =>
        rw [hm1] at h
        simp only at h
        by_cases hn : n = 2
        · subst hn
          rw [if_neg (by simp)] at h
          match hm2 : pyLen ((getAttr attrs "vertical_min_max_value").getD PyVal.none) with
          | .error e =>
            rw [hm2] at h
            exact absurd h (by simp)
          | .ok m =>
            rw [hm2] at h
            simp only at h
            by_cases hm : m = 2
            · subst hm
              exact ⟨h1, h2, rfl, rfl⟩
            · rw [if_pos (by simpa using hm)] at h
              exact absurd h (by simp)
        · rw [if_pos (by simpa using hn)] at h
          exact absurd h (by simp)
    · rw [if_pos (by simpa using h2)] at h
      exact absurd h (by simp)
  · rw [if_pos (by simpa using h1)] at h
    exact absurd h (by simp)

/-- C5: what MetadataEyeRig construction actually enforces.  Each rotation
axis is kept at its input value and must lie in supported_axis, and both
min/max containers must have len 2; no step compares the two axes with
each other. -/
theorem eye_rig_axis_domain (F : Nat) (kwargs : List (String × PyVal)) (r : PyVal)
    (h : constructRecord wdSchema (F + 2) "MetadataEyeRig" kwargs = .ok r) :
    ∃ attrsA, r = .obj "MetadataEyeRig" attrsA ∧
      getAttr attrsA "horizontal_rotation_axis" =
        Option.some (kwVal kwargs "horizontal_rotation_axis") ∧
      getAttr attrsA "vertical_rotation_axis" =
        Option.some (kwVal kwargs "vertical_rotation_axis") ∧
      attrInOptions attrsA "horizontal_rotation_axis" supportedAxis = true ∧
      attrInOptions attrsA "vertical_rotation_axis" supportedAxis = true ∧
      pyLen ((getAttr attrsA "horizontal_min_max_value").getD PyVal.none) = .ok 2 ∧
      pyLen ((getAttr attrsA "vertical_min_max_value").getD PyVal.none) = .ok 2 := by
  obtain ⟨hall, hnox, attrsA, hs, hpost, hr⟩ := constructRecord_ok_elim wdSchema (F + 1)
    "MetadataEyeRig" kwargs eyeRigRd r wdSchema_eyeRig h
  obtain ⟨p1, p2, p3, p4⟩ := eyeRigPost_ok_elim attrsA hpost
  have hpres : ∀ k : String, ¬ strIsPre "horizontal_min_max_value" k →
      ¬ strIsPre "vertical_min_max_value" k →
      getAttr attrsA k = getAttr (eyeRigRd.fields.map
        (fun fl => (fl.1, (kwargs.lookup fl.1).getD PyVal.none))) k := by
    intro k hk1 hk2
    have hg : ∀ (s0 : Attrs) (x : String × FieldType), x ∈ eyeRigRd.fields →
        getAttr ((initFieldStep (fun s nn vv tt => checkType wdSchema (F + 1) s nn vv tt))
          s0 x).1 k = getAttr s0 k := by
      intro s0 x hx
      have hx2 : x ∈ [("bone_name", FieldType.prim .str),
          ("horizontal_rotation_axis", FieldType.prim .str),
          ("vertical_rotation_axis", FieldType.prim .str),
          ("horizontal_min_max_value", FieldType.listOf (.prim .float)),
          ("vertical_min_max_value", FieldType.listOf (.prim .float))] := hx
      simp only [List.mem_cons, List.not_mem_nil, or_false] at hx2
      rcases hx2 with rfl | rfl | rfl | rfl | rfl
      · exact initFieldStep_prim_preserve wdSchema F s0 "bone_name" .str k
      · exact initFieldStep_prim_preserve wdSchema F s0 "horizontal_rotation_axis" .str k
      · exact initFieldStep_prim_preserve wdSchema F s0 "vertical_rotation_axis" .str k
      · exact initFieldStep_preserve wdSchema (F + 1) s0
          ("horizontal_min_max_value", .listOf (.prim .float)) _ _ k hk1 rfl
      · exact initFieldStep_preserve wdSchema (F + 1) s0
          ("vertical_min_max_value", .listOf (.prim .float)) _ _ k hk2 rfl
    have hpm := stepLoop_preserve_mem
      (initFieldStep (fun s nn vv tt => checkType wdSchema (F + 1) s nn vv tt)) k
      eyeRigRd.fields hg
      (eyeRigRd.fields.map (fun fl => (fl.1, (kwargs.lookup fl.1).getD PyVal.none)))
    rw [hs] at hpm
    exact hpm
  refine ⟨attrsA, hr, ?_, ?_, p1, p2, p3, p4⟩
  · rw [hpres "horizontal_rotation_axis" (by decide) (by decide)]
    rfl
  · rw [hpres "vertical_rotation_axis" (by decide) (by decide)]
    rfl

/-- Concrete MetadataEyeRig keyword arguments whose two rotation axes are
both the string X. -/
def eyeRigKwargsBothX : List (String × PyVal) :=
  [("bone_name", .str "eye_bone"),
   ("horizontal_rotation_axis", .str "X"),
   ("vertical_rotation_axis", .str "X"),
   ("horizontal_min_max_value", .list [.float 0, .float 1]),
   ("vertical_min_max_value", .list [.float 0, .float 1])]

/-- C5 counterexample to the original wording: equal rotation axes pass
MetadataEyeRig construction without any ValueError. -/
theorem eye_rig_equal_axes_accepted :
    ∃ attrs, constructMetadataEyeRig eyeRigKwargsBothX =
        .ok (.obj "MetadataEyeRig" attrs) ∧
      getAttr attrs "horizontal_rotation_axis" = Option.some (.str "X") ∧
      getAttr attrs "vertical_rotation_axis" = Option.some (.str "X") := by
  refine ⟨eyeRigKwargsBothX, ?_, rfl, rfl⟩
  decide!

/-- C5 witness: the amended theorem applied at the equal-axes input. -/
theorem eye_rig_axis_domain_witness :
    ∃ r attrsA, constructMetadataEyeRig eyeRigKwargsBothX = .ok r ∧
      r = .obj "MetadataEyeRig" attrsA ∧
      attrInOptions attrsA "horizontal_rotation_axis" supportedAxis = true ∧
      attrInOptions attrsA "vertical_rotation_axis" supportedAxis = true ∧
      pyLen ((getAttr attrsA "horizontal_min_max_value").getD PyVal.none) = .ok 2 := by
  have hok : (constructMetadataEyeRig eyeRigKwargsBothX).isOk = true := by decide!
  match hm : constructMetadataEyeRig eyeRigKwargsBothX with
  | .error e =>
    rw [hm] at hok
    simp [Except.isOk, Except.toBool] at hok
  | .ok r =>
    obtain ⟨attrsA, hr, hax1, hax2, hin1, hin2, hl1, hl2⟩ :=
      eye_rig_axis_domain 30 eyeRigKwargsBothX r hm
    exact ⟨r, attrsA, rfl, hr, hin1, hin2, hl1⟩

end WdTools

namespace WdTools

/-- A scene that passes the metadata, cleanup and requirement stages with
the valid metadata kwargs: one POSE-position armature named charBODY whose
Hips data bone is disconnected and local, all pose bones XYZ, no texts, no
meshes, no curves, no images. -/
def goodScene : Scene :=
  { filepath := "/tmp/char.blend", blendDir := "/tmp",
    texts := [],
    objects := [{ name := "charBODY", type := "ARMATURE", posePosition := "POSE",
                  dataBones := [{ name := "Hips", useConnect := false,
                                  useLocalLocation := true }],
                  poseBones := [{ name := "Hips", rotationMode := "XYZ",
                                  parent := Option.none }],
                  modifiers := [], evalPolyCount := 0, curvesCount := 0,
                  hasShapeKeys := false }],
    meshes := [], armatures := ["charBODY"], materials := [],
    viewLayerObjects := ["charBODY"], images := [], hasWorld := false,
    worldEnvImages := [], textureFiles := [] }

/-- Validator properties holding the valid metadata dict and empty report
stores. -/
def goodProps : Props :=
  { metadata := .dict validMetadataKwargs, validationMetadataMessage := [],
    validationCleanupMessages := [], validationFailMessages := [],
    validationWarningMessages := [], cleanupRequired := false }

/-- Every normal return of validate_character carries the tag of one of the
first three stages; no run returns warning or clean. -/
theorem validateCharacter_stage_results (scene : Scene) (props : Props)
    (out : String × Props) (h : validateCharacter scene props = .ok out) :
    out.1 = "metadata" ∨ out.1 = "cleanup" ∨ out.1 = "fail" := by
  simp only [validateCharacter] at h
  split at h
  · injection h with h2
    exact Or.inl (by rw [← h2])
  · split at h
    · exact absurd h (by simp)
    · split at h
      · injection h with h2
        exact Or.inr (Or.inl (by rw [← h2]))
      · split at h
        · exact absurd h (by simp)
        · split at h
          · injection h with h2
            exact Or.inr (Or.inr (by rw [← h2]))
          · exact absurd h (by simp)

set_option maxRecDepth 1000000 in
/-- C1: a scene and properties passing the metadata, cleanup and requirement
stages never reach a warning report: validate_character raises TypeError at
the ValidatorWarning call, which is made with one argument while __call__
requires metadata and toggle_usd; the documented warning and clean returns
are unreachable. -/
theorem validate_character_warning_stage_type_error :
    validateCharacter goodScene goodProps =
      .error (.typeError
        "ValidatorWarning.__call__ missing 1 required positional argument toggle_usd") := by
  decide!

end WdTools

namespace WdTools

/-- C2: with every metadata subscript the cleanup arguments need resolved,
cleanup_character runs to completion and its action trace is the backup
copy followed by one remedial action per rule key present in the stored
cleanup report, in source order; presence of the key alone decides, the
check flag of the entry is never consulted, and absent keys are skipped. -/
theorem cleanup_actions_iff_key_present (scene : Scene) (props : Props)
    (armName hipsName : PyVal)
    (h1 : metaBodyField props.metadata "armature_name" = .ok armName)
    (h2 : metaBoneName props.metadata "Hips" = .ok hipsName) :
    cleanupCharacter scene props =
      ([.copyFile scene.filepath (backupDest scene.filepath)] ++
       (if (props.validationCleanupMessages.lookup "text_files_check").isSome then
         [.textFilesCleanup] else []) ++
       (if (props.validationCleanupMessages.lookup "armature_pose_position_check").isSome then
         [.armaturePosePositionCleanup armName] else []) ++
       (if (props.validationCleanupMessages.lookup "hips_bone_relations_check").isSome then
         [.hipsBoneRelationsCleanup armName hipsName] else []) ++
       (if (props.validationCleanupMessages.lookup "bone_rotation_mode_check").isSome then
         [.boneRotationModeCleanup armName] else []) ++
       (if (props.validationCleanupMessages.lookup "transforms_check").isSome then
         [.transformsCleanup] else []) ++
       (if (props.validationCleanupMessages.lookup "auto_smooth_check").isSome then
         [.autoSmoothCleanup] else []) ++
       (if (props.validationCleanupMessages.lookup "syntax_check").isSome then
         [.objectNamingCleanup] else []) ++
       (if (props.validationCleanupMessages.lookup "curves_geo_nodes_check").isSome then
         [.curvesGeoNodesCleanup] else []), .ok ()) := by
  unfold cleanupCharacter
  by_cases c1 : (props.validationCleanupMessages.lookup "text_files_check").isSome <;>
  by_cases c2 : (props.validationCleanupMessages.lookup
    "armature_pose_position_check").isSome <;>
  by_cases c3 : (props.validationCleanupMessages.lookup "hips_bone_relations_check").isSome <;>
  by_cases c4 : (props.validationCleanupMessages.lookup "bone_rotation_mode_check").isSome <;>
  by_cases c5 : (props.validationCleanupMessages.lookup "transforms_check").isSome <;>
  by_cases c6 : (props.validationCleanupMessages.lookup "auto_smooth_check").isSome <;>
  by_cases c7 : (props.validationCleanupMessages.lookup "syntax_check").isSome <;>
  by_cases c8 : (props.validationCleanupMessages.lookup "curves_geo_nodes_check").isSome <;>
    simp [c1, c2, c3, c4, c5, c6, c7, c8, h1, h2, Except.map, bind, Except.bind,
      pure, Except.pure]

/-- Properties whose stored cleanup report holds a single passing
text_files_check entry. -/
def passingEntryProps : Props :=
  { metadata := .dict validMetadataKwargs,
    validationMetadataMessage := [],
    validationCleanupMessages :=
      [("text_files_check", { check := true, message := "Text files detected!" })],
    validationFailMessages := [], validationWarningMessages := [],
    cleanupRequired := false }

/-- C2 counterexample to the original wording: the stored text_files_check
entry has check true, yet cleanup_character still runs the text files
cleanup, because the executor keys on dict truthiness of the entry, not on
its check flag. -/
theorem cleanup_runs_on_passing_entry :
    passingEntryProps.validationCleanupMessages.lookup "text_files_check" =
      Option.some { check := true, message := "Text files detected!" } ∧
    cleanupCharacter goodScene passingEntryProps =
      ([.copyFile "/tmp/char.blend" "/tmp/char_backup.blend", .textFilesCleanup],
       .ok ()) := by
  exact ⟨rfl, by decide⟩

/-- C2 witness: the trace characterization at a store holding three keys,
one of them with check true. -/
theorem cleanup_actions_iff_key_present_witness :
    cleanupCharacter goodScene
      { metadata := .dict validMetadataKwargs,
        validationMetadataMessage := [],
        validationCleanupMessages :=
          [("text_files_check", { check := true, message := "m1" }),
           ("bone_rotation_mode_check", { check := false, message := "m2" })],
        validationFailMessages := [], validationWarningMessages := [],
        cleanupRequired := false } =
      ([.copyFile "/tmp/char.blend" "/tmp/char_backup.blend", .textFilesCleanup,
        .boneRotationModeCleanup (.str "charBODY")], .ok ()) := by
  have h := cleanup_actions_iff_key_present goodScene
    { metadata := .dict validMetadataKwargs,
      validationMetadataMessage := [],
      validationCleanupMessages :=
        [("text_files_check", { check := true, message := "m1" }),
         ("bone_rotation_mode_check", { check := false, message := "m2" })],
      validationFailMessages := [], validationWarningMessages := [],
      cleanupRequired := false }
    (.str "charBODY") (.str "Hips") rfl rfl
  rw [h]
  rfl

end WdTools

namespace WdTools

/-- The convention selection loop is List.find? over the convention table
with the any-bone signature predicate. -/
theorem boneConventionLoop_eq_find (boneNames : List String) :
    ∀ convs : List (String × List String),
      boneConventionLoop boneNames convs =
        convs.find? (fun c => boneNames.any (fun b => stripColonLast b == c.2.headD "")) := by
  intro convs
  induction convs with
  | nil => rfl
  | cons c rest ih =>
    rcases c with ⟨key, names⟩
    simp only [boneConventionLoop]
    by_cases hc : boneNames.any (fun b => stripColonLast b == names.headD "")
    · rw [if_pos hc, List.find?_cons_of_pos]
      simpa using hc
    · rw [if_neg hc, List.find?_cons_of_neg, ih]
      simpa using hc

/-- C6: auto_assign_bone_names selects the first convention, in table
order, whose first entry equals the colon-stripped name of ANY pose bone
of the armature; with no armature or no matching convention the collection
is returned untouched, and with a match the collection is rewritten from
the selected convention. -/
theorem auto_assign_first_convention_any_bone (scene : Scene) (targetArmName : String)
    (collection : List String) :
    (scene.objects.find? (fun o => o.name = targetArmName) = Option.none →
      autoAssignBoneNames scene targetArmName collection = .ok (collection, Option.none)) ∧
    (∀ armature,
      scene.objects.find? (fun o => o.name = targetArmName) = Option.some armature →
      (boneConventionLoop (armature.poseBones.map (fun b => b.name))
          all_supported_bone_names =
        all_supported_bone_names.find? (fun c =>
          (armature.poseBones.map (fun b => b.name)).any
            (fun b => stripColonLast b == c.2.headD ""))) ∧
      (boneConventionLoop (armature.poseBones.map (fun b => b.name))
          all_supported_bone_names = Option.none →
        autoAssignBoneNames scene targetArmName collection = .ok (collection, Option.none)) ∧
      (∀ conv, boneConventionLoop (armature.poseBones.map (fun b => b.name))
          all_supported_bone_names = Option.some conv →
        autoAssignBoneNames scene targetArmName collection =
          (assignBones (armature.poseBones.map (fun b => b.name)) collection 0 conv.2).map
            (fun nc => (nc, Option.some conv.1)))) := by
  constructor
  · intro hn
    unfold autoAssignBoneNames
    rw [hn]
  · intro armature ha
    refine ⟨boneConventionLoop_eq_find _ _, ?_, ?_⟩
    · intro hb
      unfold autoAssignBoneNames
      rw [ha]
      simp only [hb]
    · intro conv hb
      unfold autoAssignBoneNames
      rw [ha]
      simp only [hb]
      rcases hab : assignBones (armature.poseBones.map (fun b => b.name)) collection 0
        conv.2 with e | nc <;> simp [Except.map, hab]

/-- An armature whose first pose bone matches no convention signature but
whose second bone is Hips. -/
def c6Arm : SceneObject :=
  { name := "rig", type := "ARMATURE", posePosition := "POSE",
    dataBones := [],
    poseBones := [{ name := "Foo", rotationMode := "XYZ", parent := Option.none },
                  { name := "Hips", rotationMode := "XYZ", parent := Option.none }],
    modifiers := [], evalPolyCount := 0, curvesCount := 0, hasShapeKeys := false }

def c6Scene : Scene :=
  { filepath := "", blendDir := "", texts := [], objects := [c6Arm], meshes := [],
    armatures := [], materials := [], viewLayerObjects := [], images := [],
    hasWorld := false, worldEnvImages := [], textureFiles := [] }

/-- C6 counterexample to the original wording: the first bone name Foo does
not match the standard signature Hips, yet the standard convention is
selected (from the second bone) and the collection is rewritten. -/
theorem auto_assign_any_bone_counterexample :
    stripColonLast ((c6Arm.poseBones.map (fun b => b.name)).headD "") ≠
      standard_bone_names.headD "" ∧
    autoAssignBoneNames c6Scene "rig" (List.replicate 52 "x") =
      .ok ("Hips" :: List.replicate 51 "",
        Option.some "Flow-Studio,-Mixamo,-Human-IK_bone_names") := by
  exact ⟨by decide, by decide⟩

/-- C6 witness: the characterization applied at the Foo/Hips armature and
the matched standard convention. -/
theorem auto_assign_first_convention_any_bone_witness :
    autoAssignBoneNames c6Scene "rig" (List.replicate 52 "x") =
      (assignBones (c6Arm.poseBones.map (fun b => b.name)) (List.replicate 52 "x") 0
        standard_bone_names).map
        (fun nc => (nc, Option.some "Flow-Studio,-Mixamo,-Human-IK_bone_names")) := by
  have h := (auto_assign_first_convention_any_bone c6Scene "rig"
    (List.replicate 52 "x")).2 c6Arm rfl
  exact h.2.2 ("Flow-Studio,-Mixamo,-Human-IK_bone_names", standard_bone_names) (by decide)

end WdTools

namespace WdTools

/-- A MESH object of 1.6 million evaluated polygons. -/
def bigMesh : SceneObject :=
  { name := "bigMESH", type := "MESH", posePosition := "POSE", dataBones := [],
    poseBones := [], modifiers := [], evalPolyCount := 1600000, curvesCount := 0,
    hasShapeKeys := false }

/-- goodScene with the 1.6 million polygon mesh added to the view layer. -/
def c7Scene : Scene :=
  { goodScene with
    objects := goodScene.objects ++ [bigMesh],
    meshes := [("bigMESH", false)],
    viewLayerObjects := ["charBODY", "bigMESH"] }

/-- The stage tag of a pipeline outcome. -/
def resultTag (r : Except PyErr (String × Props)) : Option String :=
  match r with
  | .ok p => Option.some p.1
  | .error e => Option.none

set_option maxRecDepth 1000000 in
/-- C7: poly_count_check passes exactly when the summed evaluated polygon
count of view-layer meshes is at most 1500000; a sum of 1600000 fails the
entry, and the pipeline on such a scene (passing the earlier stages)
returns fail. -/
theorem poly_count_limit_check (scene : Scene) :
    ((validatorRequirementPolyCount scene).check = true ↔
      polyCountSum scene ≤ polyCountLimit) ∧
    (polyCountSum scene = 1600000 → (validatorRequirementPolyCount scene).check = false) ∧
    polyCountSum c7Scene = 1600000 ∧
    (∃ p, validateCharacter c7Scene goodProps = .ok ("fail", p)) := by
  refine ⟨?_, ?_, by decide, ?_⟩
  · simp [validatorRequirementPolyCount, Nat.not_lt]
  · intro h0
    simp [validatorRequirementPolyCount, h0, polyCountLimit]
  · have htag : resultTag (validateCharacter c7Scene goodProps) =
        Option.some "fail" := by decide!
    match hm : validateCharacter c7Scene goodProps with
    | .error e =>
      rw [hm] at htag
      exact absurd htag (by simp [resultTag])
    | .ok out =>
      obtain ⟨t, p⟩ := out
      rw [hm] at htag
      simp only [resultTag, Option.some.injEq] at htag
      subst htag
      exact ⟨p, rfl⟩

/-- C7 witness: the failing entry at the concrete 1.6 million polygon
scene. -/
theorem poly_count_limit_check_witness :
    (validatorRequirementPolyCount c7Scene).check = false :=
  (poly_count_limit_check c7Scene).2.1 (by decide)

end WdTools

namespace WdTools

/-- The root bone is an ancestor of a bone along the parent chain: either
its direct parent, or an ancestor of the bone the parent name resolves
to. -/
inductive Ancestor (bones : List PoseBone) (rootName : String) : PoseBone → Prop where
  | direct (tb : PoseBone) (h : tb.parent = Option.some rootName) : Ancestor bones rootName tb
  | step (tb pb : PoseBone) (pname : String) (hp : tb.parent = Option.some pname)
      (hfind : bones.find? (fun b => b.name = pname) = Option.some pb)
      (ha : Ancestor bones rootName pb) : Ancestor bones rootName tb

/-- Acyclicity of the parent relation, witnessed by a rank that drops along
parent edges and is bounded by the bone count (any finite acyclic parent
forest admits such a rank: the depth). -/
def BoneRankAcyclic (bones : List PoseBone) : Prop :=
  ∃ rank : String → Nat,
    (∀ b ∈ bones, rank b.name < bones.length) ∧
    (∀ b ∈ bones, ∀ pname, b.parent = Option.some pname →
      ∀ pb, bones.find? (fun x => x.name = pname) = Option.some pb →
        rank pb.name < rank b.name)

/-- A true walk yields an ancestor derivation (any fuel). -/
theorem ancestor_of_ikWalk (bones : List PoseBone) (rb : PoseBone) :
    ∀ fuel tb, ikWalk bones (Option.some rb) fuel tb = true →
      Ancestor bones rb.name tb := by
  intro fuel
  induction fuel with
  | zero =>
    intro tb h
    exact absurd h (by simp [ikWalk])
  | succ f ih =>
    intro tb h
    simp only [ikWalk] at h
    match hp : tb.parent with
    | Option.none =>
      rw [hp] at h
      exact absurd h (by simp)
    | Option.some pname =>
      rw [hp] at h
      simp only at h
      by_cases he : pname = rb.name
      · exact .direct tb (by rw [hp, he])
      · rw [if_neg he] at h
        match hf : bones.find? (fun b => b.name = pname) with
        | Option.none =>
          rw [hf] at h
          exact absurd h (by simp)
        | Option.some pb =>
          rw [hf] at h
          simp only at h
          exact .step tb pb pname hp hf (ih pb h)

/-- An ancestor derivation makes the walk succeed once the fuel exceeds the
rank of the target. -/
theorem ikWalk_of_ancestor (bones : List PoseBone) (rb : PoseBone) (rank : String → Nat)
    (hdec : ∀ b ∈ bones, ∀ pname, b.parent = Option.some pname →
      ∀ pb, bones.find? (fun x => x.name = pname) = Option.some pb →
        rank pb.name < rank b.name)
    (tb : PoseBone) (ha : Ancestor bones rb.name tb) :
    tb ∈ bones → ∀ fuel, rank tb.name < fuel →
      ikWalk bones (Option.some rb) fuel tb = true := by
  induction ha with
  | direct tb0 h =>
    intro htb fuel hf
    match fuel with
    | 0 => exact absurd hf (Nat.not_lt_zero _)
    | f + 1 =>
      simp [ikWalk, h]
  | step tb0 pb pname hp hfind ha0 ih =>
    intro htb fuel hf
    match fuel with
    | 0 => exact absurd hf (Nat.not_lt_zero _)
    | f + 1 =>
      simp only [ikWalk, hp]
      by_cases he : pname = rb.name
      · rw [if_pos he]
      · rw [if_neg he, hfind]
        have hpbmem : pb ∈ bones := List.mem_of_find?_eq_some hfind
        have hlt : rank pb.name < f :=
          Nat.lt_of_lt_of_le (hdec tb0 htb pname hp pb hfind) (Nat.lt_succ_iff.mp hf)
        exact ih hpbmem f hlt

/-- The four-bone chain Root, Arm to Root, Forearm to Arm, Hand to
Forearm. -/
def ikRoot : PoseBone := { name := "Root", rotationMode := "XYZ", parent := Option.none }

def ikArmBone : PoseBone :=
  { name := "Arm", rotationMode := "XYZ", parent := Option.some "Root" }

def ikForearm : PoseBone :=
  { name := "Forearm", rotationMode := "XYZ", parent := Option.some "Arm" }

def ikHand : PoseBone :=
  { name := "Hand", rotationMode := "XYZ", parent := Option.some "Forearm" }

def ikBones : List PoseBone := [ikRoot, ikArmBone, ikForearm, ikHand]

def ikArm : SceneObject :=
  { name := "rigBODY", type := "ARMATURE", posePosition := "POSE", dataBones := [],
    poseBones := ikBones, modifiers := [], evalPolyCount := 0, curvesCount := 0,
    hasShapeKeys := false }

def ikScene : Scene :=
  { filepath := "", blendDir := "", texts := [], objects := [ikArm], meshes := [],
    armatures := [], materials := [], viewLayerObjects := [], images := [],
    hasWorld := false, worldEnvImages := [], textureFiles := [] }

/-- The same chain with Hand parented directly to Root, skipping Arm. -/
def ikHandSkip : PoseBone :=
  { name := "Hand", rotationMode := "XYZ", parent := Option.some "Root" }

def ikBonesSkip : List PoseBone := [ikRoot, ikArmBone, ikForearm, ikHandSkip]

def ikArmSkip : SceneObject :=
  { name := "rigBODY", type := "ARMATURE", posePosition := "POSE", dataBones := [],
    poseBones := ikBonesSkip, modifiers := [], evalPolyCount := 0, curvesCount := 0,
    hasShapeKeys := false }

def ikSceneSkip : Scene :=
  { filepath := "", blendDir := "", texts := [], objects := [ikArmSkip], meshes := [],
    armatures := [], materials := [], viewLayerObjects := [], images := [],
    hasWorld := false, worldEnvImages := [], textureFiles := [] }

/-- C8: on an acyclic armature with root and target bones present,
check_ik_chain answers true exactly when the root is a proper ancestor of
the target along the parent chain; on the Hand-Forearm-Arm-Root chain the
Arm to Hand query is true, and with Hand reparented to Root it is false. -/
theorem check_ik_chain_iff_ancestor (scene : Scene)
    (armName rootName targetName : String) (armature : SceneObject) (rb tb : PoseBone)
    (hA : scene.objects.find? (fun o => o.name = armName) = Option.some armature)
    (hR : armature.poseBones.find? (fun b => b.name = rootName) = Option.some rb)
    (hT : armature.poseBones.find? (fun b => b.name = targetName) = Option.some tb)
    (hacyc : BoneRankAcyclic armature.poseBones) :
    (checkIkChain scene armName rootName targetName = .ok true ↔
      Ancestor armature.poseBones rb.name tb) ∧
    checkIkChain ikScene "rigBODY" "Arm" "Hand" = .ok true ∧
    checkIkChain ikSceneSkip "rigBODY" "Arm" "Hand" = .ok false := by
  refine ⟨?_, by decide, by decide⟩
  unfold checkIkChain
  rw [hA]
  simp only [hR, hT, Except.ok.injEq]
  constructor
  · exact ancestor_of_ikWalk armature.poseBones rb armature.poseBones.length tb
  · intro ha
    obtain ⟨rank, hbound, hdec⟩ := hacyc
    exact ikWalk_of_ancestor armature.poseBones rb rank hdec tb ha
      (List.mem_of_find?_eq_some hT) armature.poseBones.length
      (hbound tb (List.mem_of_find?_eq_some hT))

/-- C8 witness: the equivalence applied at the concrete chain, with a depth
rank and an explicit ancestor derivation. -/
theorem check_ik_chain_iff_ancestor_witness :
    checkIkChain ikScene "rigBODY" "Arm" "Hand" = .ok true := by
  have hacyc : BoneRankAcyclic ikArm.poseBones := by
    refine ⟨fun n => if n = "Hand" then 3 else if n = "Forearm" then 2 else
      if n = "Arm" then 1 else 0, ?_, ?_⟩
    · intro b hb
      have hb2 : b = ikRoot ∨ b = ikArmBone ∨ b = ikForearm ∨ b = ikHand := by
        simpa [ikArm, ikBones] using hb
      rcases hb2 with rfl | rfl | rfl | rfl <;> decide
    · intro b hb pname hp pb hpb
      have hb2 : b = ikRoot ∨ b = ikArmBone ∨ b = ikForearm ∨ b = ikHand := by
        simpa [ikArm, ikBones] using hb
      rcases hb2 with rfl | rfl | rfl | rfl
      · simp [ikRoot] at hp
      · have hpn : pname = "Root" := by simpa [ikArmBone] using hp.symm
        subst hpn
        have : pb = ikRoot := by
          have h0 : ikArm.poseBones.find? (fun x => x.name = "Root") =
            Option.some ikRoot := rfl
          rw [h0] at hpb
          exact (Option.some.injEq _ _ ▸ hpb).symm
        subst this
        decide
      · have hpn : pname = "Arm" := by simpa [ikForearm] using hp.symm
        subst hpn
        have : pb = ikArmBone := by
          have h0 : ikArm.poseBones.find? (fun x => x.name = "Arm") =
            Option.some ikArmBone := rfl
          rw [h0] at hpb
          exact (Option.some.injEq _ _ ▸ hpb).symm
        subst this
        decide
      · have hpn : pname = "Forearm" := by simpa [ikHand] using hp.symm
        subst hpn
        have : pb = ikForearm := by
          have h0 : ikArm.poseBones.find? (fun x => x.name = "Forearm") =
            Option.some ikForearm := rfl
          rw [h0] at hpb
          exact (Option.some.injEq _ _ ▸ hpb).symm
        subst this
        decide
  have hanc : Ancestor ikArm.poseBones ikArmBone.name ikHand :=
    .step ikHand ikForearm "Forearm" rfl rfl (.direct ikForearm rfl)
  exact ((check_ik_chain_iff_ancestor ikScene "rigBODY" "Arm" "Hand" ikArm ikArmBone
    ikHand rfl rfl rfl hacyc).1).mpr hanc

end WdTools

namespace WdTools

/-- C9: the shape-keys access of ValidatorRequirementBlendshapes.get() IS
guarded: with the face mesh object present but carrying no shape keys the
getter returns the empty list; the unguarded dereference is the object
lookup itself, which raises AttributeError when the mesh object is
absent. -/
theorem blendshapes_get_shape_keys_guarded (scene : Scene) (metadata : PyVal) (s : String)
    (h1 : metaFaceField metadata "mesh_name" = .ok (.str s)) :
    (∀ meshObj, scene.objects.find? (fun o => o.name = s) = Option.some meshObj →
      meshObj.hasShapeKeys = false → blendshapesGet scene metadata = .ok []) ∧
    (scene.objects.find? (fun o => o.name = s) = Option.none →
      blendshapesGet scene metadata =
        .error (.attributeError "NoneType has no attribute data")) := by
  constructor
  · intro meshObj h2 h3
    unfold blendshapesGet
    simp only [bind, Except.bind, h1, objectsGet, h2, h3]
    rfl
  · intro h2
    unfold blendshapesGet
    simp only [bind, Except.bind, h1, objectsGet, h2]
    rfl

/-- A scene holding a face mesh object named headFACE without shape keys,
and metadata naming it. -/
def c9Mesh : SceneObject :=
  { name := "headFACE", type := "MESH", posePosition := "POSE", dataBones := [],
    poseBones := [], modifiers := [], evalPolyCount := 0, curvesCount := 0,
    hasShapeKeys := false }

def c9Scene : Scene :=
  { filepath := "", blendDir := "", texts := [], objects := [c9Mesh], meshes := [],
    armatures := [], materials := [], viewLayerObjects := [], images := [],
    hasWorld := false, worldEnvImages := [], textureFiles := [] }

def c9Metadata : PyVal :=
  .dict [("face", .dict [("mesh_name", .str "headFACE"),
                         ("blendshape_names", emptyBlendshapeNamesDict)])]

/-- C9 counterexample to the original wording: the face mesh exists and has
no shape-key container, and get() returns the empty list instead of
failing. -/
theorem blendshapes_get_no_shape_keys_returns_empty :
    c9Scene.objects.find? (fun o => o.name = "headFACE") = Option.some c9Mesh ∧
    c9Mesh.hasShapeKeys = false ∧
    blendshapesGet c9Scene c9Metadata = .ok [] := by
  exact ⟨rfl, rfl, by decide⟩

/-- C9 witness: the guard theorem applied at the concrete scene. -/
theorem blendshapes_get_shape_keys_guarded_witness :
    blendshapesGet c9Scene c9Metadata = .ok [] := by
  exact (blendshapes_get_shape_keys_guarded c9Scene c9Metadata "headFACE" rfl).1
    c9Mesh rfl rfl

end WdTools

namespace WdTools

/-- C10: the very first effect of every cleanup_character run is copying
the saved file to the stem_backup.blend sibling; every remedial action
comes after it in the trace. -/
theorem cleanup_backup_first (scene : Scene) (props : Props) :
    (cleanupCharacter scene props).1.head? =
      Option.some (.copyFile scene.filepath (backupDest scene.filepath)) := by
  unfold cleanupCharacter
  rcases hA : metaBodyField props.metadata "armature_name" with eA | a <;>
  rcases hH : metaBoneName props.metadata "Hips" with eH | hh <;>
  by_cases c2 : (props.validationCleanupMessages.lookup
    "armature_pose_position_check").isSome <;>
  by_cases c3 : (props.validationCleanupMessages.lookup
    "hips_bone_relations_check").isSome <;>
  by_cases c4 : (props.validationCleanupMessages.lookup
    "bone_rotation_mode_check").isSome <;>
    simp [hA, hH, c2, c3, c4, Except.map, bind, Except.bind, pure, Except.pure,
      List.head?_append, apply_ite List.head?]

end WdTools
